import Mathlib

/-!
# The FTP backend of gvfs (`daemon/gvfsbackendftp.c`)

A shallow embedding of the FTP backend's session negotiation, error-handler
chains and cache invalidation, with the properties checked against it.

Conventions.

* A C string is the list of its characters before the terminating NUL.
* A C `int` that is used as a bitset is the natural number of its 32-bit
  pattern; `1 << n` is `(1 <<< n) % 2 ^ 32`.
* The functions of `gvfsftptask.c`, `gvfsftpdircache.c`, `gvfsftpfile.c` and
  `gvfsftpconnection.c` talk to the server. Their results are inputs of the
  embedding: the record `FtpEnv` holds one function per callee, threaded
  through an abstract world `W` so that two calls may answer differently.
* Every call the backend makes is appended to the task's `trace`, a ghost
  field that lets a property speak about the order of calls.
-/

namespace GVfs

/-! ## GLib -/

/-- The codes of `GIOErrorEnum` the backend raises or tests. -/
inductive GIOErrorEnum
  | FAILED
  | NOT_FOUND
  | EXISTS
  | IS_DIRECTORY
  | NOT_DIRECTORY
  | NOT_EMPTY
  | PERMISSION_DENIED
  | CANT_CREATE_BACKUP
  | INVALID_ARGUMENT
  | CANCELLED
  | CLOSED
  | HOST_NOT_FOUND
  deriving DecidableEq, Repr

/-- A `GError` of the domain `G_IO_ERROR`. -/
structure GError where
  code : GIOErrorEnum
  message : String
  deriving DecidableEq, Repr

/-- GLib's `GFileType`. -/
inductive GFileType
  | UNKNOWN
  | REGULAR
  | DIRECTORY
  | SYMBOLIC_LINK
  | SPECIAL
  | SHORTCUT
  | MOUNTABLE
  deriving DecidableEq, Repr

/-- The attributes of a `GFileInfo` the backend reads. -/
structure GFileInfo where
  name : String
  file_type : GFileType
  size : Nat
  deriving DecidableEq, Repr

/-- GLib's `g_set_error_literal (&err, G_IO_ERROR, code, message)`: GLib stores the
new error only where none is set; over an error that is already there it
warns and keeps the old one. -/
def g_set_error_literal (err : Option GError) (code : GIOErrorEnum) (message : String) :
    Option GError :=
  match err with
  | none => some ⟨code, message⟩
  | some old => some old

/-- GLib's `g_error_matches (err, G_IO_ERROR, code)`. -/
def g_error_matches (err : Option GError) (code : GIOErrorEnum) : Bool :=
  match err with
  | none => false
  | some e => e.code == code

/-- GLib's `g_ascii_isspace`: space, form feed, newline, carriage return, horizontal
and vertical tab. -/
def g_ascii_isspace (c : Char) : Bool :=
  c == ' ' || c == '\x0c' || c == '\n' || c == '\r' || c == '\t' || c == '\x0b'

/-- GLib's `g_ascii_tolower`. -/
def g_ascii_tolower (c : Char) : Char :=
  if 'A' ≤ c ∧ c ≤ 'Z' then Char.ofNat (c.toNat + 32) else c

/-- GLib's `g_ascii_strcasecmp (s1, s2)`: the difference of the first pair of
characters that differ after lowering, the end of a string counting as 0. -/
def g_ascii_strcasecmp : List Char → List Char → Int
  | [], [] => 0
  | [], c2 :: _ => 0 - (c2.toNat : Int)
  | c1 :: _, [] => (c1.toNat : Int)
  | c1 :: s1, c2 :: s2 =>
    if g_ascii_tolower c1 ≠ g_ascii_tolower c2 then
      ((g_ascii_tolower c1).toNat : Int) - ((g_ascii_tolower c2).toNat : Int)
    else g_ascii_strcasecmp s1 s2

/-- GLib's `g_ascii_strncasecmp (s1, s2, n)`: as `g_ascii_strcasecmp`, over at most
`n` characters. -/
def g_ascii_strncasecmp : List Char → List Char → Nat → Int
  | _, _, 0 => 0
  | [], [], _ + 1 => 0
  | [], c2 :: _, _ + 1 => 0 - (c2.toNat : Int)
  | c1 :: _, [], _ + 1 => (c1.toNat : Int)
  | c1 :: s1, c2 :: s2, n + 1 =>
    if g_ascii_tolower c1 ≠ g_ascii_tolower c2 then
      ((g_ascii_tolower c1).toNat : Int) - ((g_ascii_tolower c2).toNat : Int)
    else g_ascii_strncasecmp s1 s2 n

/-- The C library's `strlen`. -/
def strlen (s : List Char) : Nat := s.length

/-! ## The backend object, the task and the environment -/

/-- One FTP command: the printf format handed to the task and its string
arguments (`none` for a NULL pointer). -/
structure Command where
  format : String
  args : List (Option String)
  deriving DecidableEq, Repr

/-- What one send or receive gave back: the value returned to the caller, the
reply lines, and the task's error after the call. The environment decides
what is returned with a recorded failure: 0, or the raw status. -/
structure Reply where
  response : Nat
  lines : List (List Char)
  error : Option GError
  deriving DecidableEq, Repr

/-- The outcome of a directory-cache lookup. It yields an entry and leaves the
task's error alone, or it yields none and says what the task's error is
afterwards (the callers clear the "potential error from file lookup" on that
branch only). -/
inductive Lookup (α : Type)
  | found (value : α)
  | missing (error : Option GError)
  deriving DecidableEq, Repr

/-- Modelled from the spec: the enum `GVfsFtpSystem` of `gvfsbackendftp.h`,
which is not among the sources: the "known dialects" the source names,
`G_VFS_FTP_SYSTEM_UNIX` and `G_VFS_FTP_SYSTEM_WINDOWS`, and `UNKNOWN` for a
backend that was never assigned one. -/
inductive GVfsFtpSystem
  | UNKNOWN
  | UNIX
  | WINDOWS
  deriving DecidableEq, Repr

/-- The two tables `gvfs_backend_ftp_setup_directory_cache` chooses from. -/
inductive GVfsFtpDirFuncs
  | funcs_unix
  | funcs_default
  deriving DecidableEq, Repr

/-- The field `ftp->addr`: the address the mount was asked for, or the remote address
read back from the live connection. -/
inductive GSocketConnectable
  | network (hostname : String) (port : Nat)
  | socket (address : String)
  deriving DecidableEq, Repr

/-- A control connection, by identity. -/
abbrev GVfsFtpConnection := Nat

/-- The directory cache: the cached listing of each directory that has one. -/
abbrev GVfsFtpDirCache (F : Type) := List (F × List GFileInfo)

/-- The fields of `GVfsBackendFtp` that the backend file reads and writes; the
struct itself is declared in `gvfsbackendftp.h`. `features` and `workarounds`
are C ints used as bitsets. -/
structure GVfsBackendFtp (F : Type) where
  addr : Option GSocketConnectable
  user : Option String
  password : Option String
  has_initial_user : Bool
  host_display_name : String
  features : Nat
  workarounds : Nat
  system : GVfsFtpSystem
  dir_funcs : Option GVfsFtpDirFuncs
  dir_cache : GVfsFtpDirCache F
  connections : Nat
  max_connections : Nat
  queue : Option (List GVfsFtpConnection)

/-- What the backend did, in order: the calls into the task, cache, keyring
and job layers, and the writes of `ftp->features`. -/
inductive Event (F : Type)
  | send (flags : Nat) (command : Command)
  | receive (flags : Nat)
  | open_data_connection
  | close_data_connection
  | lookup_file (file : F) (resolve_symlinks : Bool)
  | lookup_dir (dir : F) (must_exist resolve_symlinks : Bool)
  | purge_file (file : F)
  | purge_dir (dir : F)
  | features (value : Nat)
  | login (username : String) (password : Option String)
  | setup_connection
  | ask_password (prompt : String)
  | save_password (username : Option String) (password : Option String)
  | take_connection
  | give_connection (conn : Option GVfsFtpConnection)
  | connection_free (conn : Option GVfsFtpConnection)
  | set_handle (conn : Option GVfsFtpConnection)
  | set_new_path (path : Option String)
  | splice
  | mounted (display_name : String)
  | done (error : Option GError)
  | cond_broadcast
  | job_succeeded
  | job_failed (error : GError)
  deriving DecidableEq, Repr

/-- A `GVfsFtpTask` at work: the backend it points to, its error, its
connection, the state of everything outside the program, and the trace. -/
structure GVfsFtpTask (F W : Type) where
  backend : GVfsBackendFtp F
  error : Option GError
  conn : Option GVfsFtpConnection
  world : W
  trace : List (Event F)

/-- What `g_mount_source_ask_password` gave back. -/
structure AskPassword where
  handled : Bool
  aborted : Bool
  password : Option String
  username : Option String
  anonymous : Bool
  deriving DecidableEq, Repr

/-- The constants of `gvfsbackendftp.h` and `gvfsftptask.h`, which are not
among the sources: the enum values and flag masks are parameters. -/
structure Header where
  FEATURE_MDTM : Nat
  FEATURE_SIZE : Nat
  FEATURE_TVFS : Nat
  FEATURE_EPSV : Nat
  FEATURE_UTF8 : Nat
  FEATURES_DEFAULT : Nat
  WORKAROUND_FEAT_AFTER_LOGIN : Nat
  PASS_100 : Nat
  PASS_300 : Nat
  PASS_500 : Nat
  PASS_550 : Nat
  FAIL_200 : Nat

/-- The callees that are not part of the backend file, as functions of the
world: file names (`gvfsftpfile.c`), the task's I/O (`gvfsftptask.c`), the
cache lookups (`gvfsftpdircache.c`), the connection, the keyring and the
password dialog. -/
structure FtpEnv (F W : Type) where
  hdr : Header
  new_from_gvfs : String → F
  new_parent : F → F
  new_child : F → String → Except GError F
  file_equal : F → F → Bool
  get_ftp_path : F → String
  get_gvfs_path : F → String
  path_get_basename : String → String
  sendv : W → Option GError → Nat → Command → Reply × W
  receive : W → Option GError → Nat → Reply × W
  open_data_connection : W → Option GError → Option GError × W
  close_data_connection : W → Option GError → Option GError × W
  error_from_response : Nat → GError
  lookup_file : W → GVfsFtpDirCache F → Option GError → F → Bool →
    Lookup GFileInfo × GVfsFtpDirCache F × W
  lookup_dir : W → GVfsFtpDirCache F → Option GError → F → Bool → Bool →
    Lookup (List GFileInfo) × GVfsFtpDirCache F × W
  connection_new : W → Option GSocketConnectable →
    Option GVfsFtpConnection × Option GError × W
  connection_get_address : W → Option GVfsFtpConnection →
    Except GError GSocketConnectable
  login : W → Option GError → String → Option String → Nat × Option GError × W
  setup_connection : W → Nat → Option GError → Option GError × W
  keyring_lookup_password : W → Option String → Option (Option String × Option String)
  keyring_is_available : W → Bool
  ask_password : W → String → Option String → Nat → AskPassword × W
  splice : W → Option GError → Option GError × W
  open_output : W → String → Bool → Bool → Option GError → Bool × Option GError × W

variable {F W : Type}

/-- Modelled from the spec: the macro `G_VFS_FTP_TASK_INIT (ftp, job)` of
`gvfsftptask.h`, which is not among the sources: a task is "a transient record
(connection, accumulated error, cancellation signal)" that starts with neither
an error nor a connection. -/
def G_VFS_FTP_TASK_INIT (ftp : GVfsBackendFtp F) (world : W) : GVfsFtpTask F W :=
  { backend := ftp, error := none, conn := none, world := world, trace := [] }

/-- Modelled from the spec: `g_vfs_ftp_task_is_in_error (task)` of
`gvfsftptask.h`, which is not among the sources: "a task accumulates at most
one error", and it is in error when it holds one. -/
def g_vfs_ftp_task_is_in_error (task : GVfsFtpTask F W) : Bool :=
  task.error.isSome

/-- Modelled from the spec: `g_vfs_ftp_task_clear_error (task)` of
`gvfsftptask.h`, which is not among the sources: the accumulated error is
dropped. -/
def g_vfs_ftp_task_clear_error (task : GVfsFtpTask F W) : GVfsFtpTask F W :=
  { task with error := none }

/-- The call `g_set_error_literal (&task->error, G_IO_ERROR, code, message)`. -/
def task_set_error (task : GVfsFtpTask F W) (code : GIOErrorEnum) (message : String) :
    GVfsFtpTask F W :=
  { task with error := g_set_error_literal task.error code message }

/-- The ghost step that appends an event to the trace. -/
def log (task : GVfsFtpTask F W) (e : Event F) : GVfsFtpTask F W :=
  { task with trace := task.trace ++ [e] }

/-- A call of `g_vfs_ftp_task_sendv`, which `g_vfs_ftp_task_send` and a
`g_vfs_ftp_task_send_and_check` without handlers come down to: the command
goes to the environment, whose answer is the returned response, the reply
lines and the task's error. -/
def g_vfs_ftp_task_sendv (env : FtpEnv F W) (task : GVfsFtpTask F W) (flags : Nat)
    (format : String) (args : List (Option String)) :
    Nat × List (List Char) × GVfsFtpTask F W :=
  let r := env.sendv task.world task.error flags ⟨format, args⟩
  (r.1.response, r.1.lines,
    { log task (Event.send flags ⟨format, args⟩) with world := r.2, error := r.1.error })

/-- A call of `g_vfs_ftp_task_send (task, flags, format, ...)`. -/
def g_vfs_ftp_task_send (env : FtpEnv F W) (task : GVfsFtpTask F W) (flags : Nat)
    (format : String) (args : List (Option String)) : Nat × GVfsFtpTask F W :=
  let r := g_vfs_ftp_task_sendv env task flags format args
  (r.1, r.2.2)

/-- A call of `g_vfs_ftp_task_receive (task, flags, NULL)`. -/
def g_vfs_ftp_task_receive (env : FtpEnv F W) (task : GVfsFtpTask F W) (flags : Nat) :
    Nat × GVfsFtpTask F W :=
  let r := env.receive task.world task.error flags
  (r.1.response, { log task (Event.receive flags) with world := r.2, error := r.1.error })

/-- A call of `g_vfs_ftp_task_open_data_connection (task)`. -/
def g_vfs_ftp_task_open_data_connection (env : FtpEnv F W) (task : GVfsFtpTask F W) :
    GVfsFtpTask F W :=
  let r := env.open_data_connection task.world task.error
  { log task Event.open_data_connection with world := r.2, error := r.1 }

/-- A call of `g_vfs_ftp_task_close_data_connection (task)`. -/
def g_vfs_ftp_task_close_data_connection (env : FtpEnv F W) (task : GVfsFtpTask F W) :
    GVfsFtpTask F W :=
  let r := env.close_data_connection task.world task.error
  { log task Event.close_data_connection with world := r.2, error := r.1 }

/-- A call of `g_vfs_ftp_task_set_error_from_response (task, response)`. -/
def g_vfs_ftp_task_set_error_from_response (env : FtpEnv F W) (task : GVfsFtpTask F W)
    (response : Nat) : GVfsFtpTask F W :=
  let e := env.error_from_response response
  task_set_error task e.code e.message

/-- Modelled from the spec: `g_vfs_ftp_task_take_connection (task)` of
`gvfsftptask.c`, which is not among the sources: it serves to "detach the
connection from pool-managed return", the caller getting the connection. -/
def g_vfs_ftp_task_take_connection (task : GVfsFtpTask F W) :
    Option GVfsFtpConnection × GVfsFtpTask F W :=
  (task.conn, { log task Event.take_connection with conn := none })

/-- Modelled from the spec: `g_vfs_ftp_task_done (task)` of `gvfsftptask.c`,
which is not among the sources: the core "reports one terminal outcome per
task", success or the task's error. -/
def g_vfs_ftp_task_done (task : GVfsFtpTask F W) : GVfsFtpTask F W :=
  log task (Event.done task.error)

/-- A call of `g_vfs_ftp_dir_cache_lookup_file (cache, task, file, resolve)`. -/
def g_vfs_ftp_dir_cache_lookup_file (env : FtpEnv F W) (task : GVfsFtpTask F W) (file : F)
    (resolve_symlinks : Bool) : Option GFileInfo × GVfsFtpTask F W :=
  let r := env.lookup_file task.world task.backend.dir_cache task.error file resolve_symlinks
  let task1 := log task (Event.lookup_file file resolve_symlinks)
  let task2 : GVfsFtpTask F W :=
    { task1 with world := r.2.2, backend := { task1.backend with dir_cache := r.2.1 } }
  match r.1 with
  | Lookup.found info => (some info, task2)
  | Lookup.missing e => (none, { task2 with error := e })

/-- A call of `g_vfs_ftp_dir_cache_lookup_dir (cache, task, dir, must_exist,
resolve)`; an empty `GList` is the NULL pointer. -/
def g_vfs_ftp_dir_cache_lookup_dir (env : FtpEnv F W) (task : GVfsFtpTask F W) (dir : F)
    (must_exist resolve_symlinks : Bool) : List GFileInfo × GVfsFtpTask F W :=
  let r := env.lookup_dir task.world task.backend.dir_cache task.error dir must_exist
    resolve_symlinks
  let task1 := log task (Event.lookup_dir dir must_exist resolve_symlinks)
  let task2 : GVfsFtpTask F W :=
    { task1 with world := r.2.2, backend := { task1.backend with dir_cache := r.2.1 } }
  match r.1 with
  | Lookup.found list => (list, task2)
  | Lookup.missing e => ([], { task2 with error := e })

/-! ## Capability and dialect negotiation -/

/-- The C expression `1 << n` on a 32-bit int, as a bit pattern. -/
def shl1 (n : Nat) : Nat := (1 <<< n) % 2 ^ 32

/-- The table `features[]` of `gvfs_backend_ftp_determine_features`: the name
of each feature and the flag it enables. -/
def features (hdr : Header) : List (List Char × Nat) :=
  [ ("MDTM".toList, hdr.FEATURE_MDTM),
    ("SIZE".toList, hdr.FEATURE_SIZE),
    ("TVFS".toList, hdr.FEATURE_TVFS),
    ("EPSV".toList, hdr.FEATURE_EPSV),
    ("UTF8".toList, hdr.FEATURE_UTF8) ]

/-- An assignment to `ftp->features`; the value written goes to the trace. -/
def set_features (task : GVfsFtpTask F W) (value : Nat) : GVfsFtpTask F W :=
  { log task (Event.features value) with backend := { task.backend with features := value } }

/-- The loop over `j` in `gvfs_backend_ftp_determine_features`: every table
entry whose name compares equal to `feature` has its bit or-ed in. -/
def determine_features_match (feature : List Char) :
    List (List Char × Nat) → GVfsFtpTask F W → GVfsFtpTask F W
  | [], task => task
  | entry :: rest, task =>
    if g_ascii_strcasecmp feature entry.1 = 0 then
      determine_features_match feature rest
        (set_features task (task.backend.features ||| shl1 entry.2))
    else determine_features_match feature rest task

/-- The loop over `i` in `gvfs_backend_ftp_determine_features`, over the reply
lines from `reply[1]` on: a line that does not start with a space is skipped,
otherwise the space and all whitespace after it are stepped over. -/
def determine_features_lines (hdr : Header) :
    List (List Char) → GVfsFtpTask F W → GVfsFtpTask F W
  | [], task => task
  | line :: rest, task =>
    if line.head? ≠ some ' ' then determine_features_lines hdr rest task
    else
      let feature := line.drop 1
      let feature := feature.dropWhile g_ascii_isspace
      determine_features_lines hdr rest (determine_features_match feature (features hdr) task)

/-- The function `gvfs_backend_ftp_determine_features`. -/
def gvfs_backend_ftp_determine_features (env : FtpEnv F W) (task : GVfsFtpTask F W) :
    Bool × GVfsFtpTask F W :=
  let r := g_vfs_ftp_task_sendv env task 0 "FEAT" []
  if r.1 = 0 then (false, r.2.2)
  else
    let task := set_features r.2.2 0
    (true, determine_features_lines env.hdr (r.2.1.drop 1) task)

/-- One row of `known_systems[]`. -/
structure KnownSystem where
  id : List Char
  system : GVfsFtpSystem
  debug_name : String

/-- The table `known_systems[]` of `gvfs_backend_ftp_determine_system`. -/
def known_systems : List KnownSystem :=
  [ ⟨"UNIX ".toList, GVfsFtpSystem.UNIX, "Unix"⟩,
    ⟨"WINDOWS_NT ".toList, GVfsFtpSystem.WINDOWS, "Windows NT"⟩ ]

/-- The loop of `gvfs_backend_ftp_determine_system`, which breaks at the first
entry whose id compares equal to the start of `system_name`. -/
def determine_system_loop (system_name : List Char) :
    List KnownSystem → GVfsFtpTask F W → GVfsFtpTask F W
  | [], task => task
  | entry :: rest, task =>
    if g_ascii_strncasecmp system_name entry.id (strlen entry.id) = 0 then
      { task with backend := { task.backend with system := entry.system } }
    else determine_system_loop system_name rest task

/-- The function `gvfs_backend_ftp_determine_system`. -/
def gvfs_backend_ftp_determine_system (env : FtpEnv F W) (task : GVfsFtpTask F W) :
    GVfsFtpTask F W :=
  if g_vfs_ftp_task_is_in_error task then task
  else
    let r := g_vfs_ftp_task_sendv env task 0 "SYST" []
    if r.1 = 0 then g_vfs_ftp_task_clear_error r.2.2
    else
      let system_name := (r.2.1.headD []).drop 4
      determine_system_loop system_name known_systems r.2.2

/-- The function `gvfs_backend_ftp_setup_directory_cache`: the table is chosen by the
system, and `g_vfs_ftp_dir_cache_new` gives an empty cache. -/
def gvfs_backend_ftp_setup_directory_cache (ftp : GVfsBackendFtp F) : GVfsBackendFtp F :=
  let dir_funcs :=
    if ftp.system = GVfsFtpSystem.UNIX then GVfsFtpDirFuncs.funcs_unix
    else GVfsFtpDirFuncs.funcs_default
  { ftp with dir_funcs := some dir_funcs, dir_cache := [] }

/-- The function `g_vfs_backend_ftp_has_feature`. -/
def g_vfs_backend_ftp_has_feature (ftp : GVfsBackendFtp F) (feature : Nat) : Bool :=
  if ¬ feature < 32 then false
  else (ftp.features &&& shl1 feature) != 0

/-- The function `g_vfs_backend_ftp_uses_workaround`. -/
def g_vfs_backend_ftp_uses_workaround (ftp : GVfsBackendFtp F) (workaround : Nat) : Bool :=
  if ¬ workaround < 32 then false
  else (ftp.workarounds &&& shl1 workaround) != 0

/-- GLib's `g_atomic_int_compare_and_exchange (&x, oldval, newval)` with no other
thread at work: whether the exchange took place, and the value of `x` after. -/
def g_atomic_int_compare_and_exchange (x oldval newval : Nat) : Bool × Nat :=
  if x = oldval then (true, newval) else (false, x)

/-- The `while` loop of `g_vfs_backend_ftp_use_workaround` on the word
`workarounds`: it goes round again while the bit is not set and the exchange
failed. `none` when the fuel is used up before the loop ends. -/
def use_workaround_loop (set : Nat) : Nat → Nat → Option Nat
  | 0, _ => none
  | fuel + 1, workarounds =>
    let cur := workarounds
    if (cur &&& set) = 0 then
      let r := g_atomic_int_compare_and_exchange workarounds cur (cur ||| set)
      if ¬ r.1 then use_workaround_loop set fuel r.2 else some r.2
    else some workarounds

/-- The function `g_vfs_backend_ftp_use_workaround`, with a bound on the turns of its loop. -/
def g_vfs_backend_ftp_use_workaround (fuel : Nat) (ftp : GVfsBackendFtp F) (workaround : Nat) :
    Option (GVfsBackendFtp F) :=
  if ¬ workaround < 32 then some ftp
  else
    let set := shl1 workaround
    (use_workaround_loop set fuel ftp.workarounds).map
      (fun w => { ftp with workarounds := w })

/-! ## Error handlers -/

/-- The type `GVfsFtpErrorFunc`: a handler gets the task and the file the command was
about. -/
abbrev GVfsFtpErrorFunc (F W : Type) := GVfsFtpTask F W → F → GVfsFtpTask F W

/-- The function `g_vfs_ftp_task_cd`. -/
def g_vfs_ftp_task_cd (env : FtpEnv F W) (task : GVfsFtpTask F W) (file : F) :
    Bool × GVfsFtpTask F W :=
  let r := g_vfs_ftp_task_send env task env.hdr.PASS_550 "CWD %s" [some (env.get_ftp_path file)]
  if r.1 = 550 then
    (false, task_set_error r.2 GIOErrorEnum.NOT_DIRECTORY "The file is not a directory")
  else (r.1 ≠ 0, r.2)

/-- The function `g_vfs_ftp_task_try_cd`. -/
def g_vfs_ftp_task_try_cd (env : FtpEnv F W) (task : GVfsFtpTask F W) (file : F) :
    Bool × GVfsFtpTask F W :=
  if g_vfs_ftp_task_is_in_error task then (false, task)
  else
    let r := g_vfs_ftp_task_cd env task file
    if ¬ r.1 then (false, g_vfs_ftp_task_clear_error r.2)
    else (true, r.2)

/-- The function `error_550_permission_or_not_found`. -/
def error_550_permission_or_not_found (env : FtpEnv F W) : GVfsFtpErrorFunc F W :=
  fun task file =>
    let r := g_vfs_ftp_dir_cache_lookup_file env task file false
    match r.1 with
    | some _ => task_set_error r.2 GIOErrorEnum.PERMISSION_DENIED "Insufficient permissions"
    | none =>
      task_set_error (g_vfs_ftp_task_clear_error r.2) GIOErrorEnum.NOT_FOUND
        "File does not exist"

/-- The function `error_550_exists`. -/
def error_550_exists (env : FtpEnv F W) : GVfsFtpErrorFunc F W :=
  fun task file =>
    let r := g_vfs_ftp_dir_cache_lookup_file env task file false
    match r.1 with
    | some _ => task_set_error r.2 GIOErrorEnum.EXISTS "Target file already exists"
    | none => g_vfs_ftp_task_clear_error r.2

/-- The function `error_550_is_directory`. -/
def error_550_is_directory (env : FtpEnv F W) : GVfsFtpErrorFunc F W :=
  fun task file =>
    let r := g_vfs_ftp_dir_cache_lookup_file env task file true
    match r.1 with
    | some info =>
      if info.file_type = GFileType.DIRECTORY then
        task_set_error r.2 GIOErrorEnum.IS_DIRECTORY "File is directory"
      else g_vfs_ftp_task_clear_error r.2
    | none => g_vfs_ftp_task_clear_error r.2

/-- The function `error_550_parent_not_found`. -/
def error_550_parent_not_found (env : FtpEnv F W) : GVfsFtpErrorFunc F W :=
  fun task file =>
    let dir := env.new_parent file
    if env.file_equal file dir then task
    else
      let r := g_vfs_ftp_task_try_cd env task dir
      if ¬ r.1 then task_set_error r.2 GIOErrorEnum.NOT_FOUND "No such file or directory"
      else r.2

/-- The walk over a NULL-terminated handler array: the handlers run in order
until one leaves the task in error. -/
def run_error_handlers : List (GVfsFtpErrorFunc F W) → GVfsFtpTask F W → F → GVfsFtpTask F W
  | [], task, _ => task
  | func :: funcs, task, data =>
    if g_vfs_ftp_task_is_in_error task then task
    else run_error_handlers funcs (func task data) data

/-- Modelled from the spec: `g_vfs_ftp_task_send_and_check` of `gvfsftptask.c`,
which is not among the sources. The command is sent as by `send`; "if an error
was recorded" and the status is the one the handlers are "keyed to" (550 for
the `error_550_` handlers), the chain is walked in order, "the first handler
that produces a decision wins; if none apply, the original generic error
stands". A handler decides by leaving an error on the task, and since GLib
does not store an error over another, the generic error is held back while the
chain runs. -/
def g_vfs_ftp_task_send_and_check (env : FtpEnv F W) (task : GVfsFtpTask F W) (flags : Nat)
    (funcs : List (GVfsFtpErrorFunc F W)) (data : F) (format : String)
    (args : List (Option String)) : Nat × GVfsFtpTask F W :=
  let r := g_vfs_ftp_task_send env task flags format args
  match r.2.error with
  | none => r
  | some original =>
    if r.1 = 550 then
      let walked := run_error_handlers funcs (g_vfs_ftp_task_clear_error r.2) data
      if g_vfs_ftp_task_is_in_error walked then (r.1, walked)
      else (r.1, { walked with error := some original })
    else r

/-! ## The directory cache -/

section Cache

variable [DecidableEq F]

/-- The cached listing of `dir`, if there is one. -/
def dir_cache_entry (cache : GVfsFtpDirCache F) (dir : F) : Option (List GFileInfo) :=
  (cache.find? (fun e => e.1 = dir)).map (fun e => e.2)

/-- Modelled from the spec: `g_vfs_ftp_dir_cache_purge_dir` of
`gvfsftpdircache.c`, which is not among the sources; it "drops the cache entry
for the directory itself". -/
def g_vfs_ftp_dir_cache_purge_dir (cache : GVfsFtpDirCache F) (dir : F) : GVfsFtpDirCache F :=
  cache.filter (fun e => e.1 ≠ dir)

/-- Modelled from the spec: `g_vfs_ftp_dir_cache_purge_file` of
`gvfsftpdircache.c`, which is not among the sources; it "drops the cache entry
for the file's parent directory entirely (not just the one entry)". -/
def g_vfs_ftp_dir_cache_purge_file (env : FtpEnv F W) (cache : GVfsFtpDirCache F) (file : F) :
    GVfsFtpDirCache F :=
  g_vfs_ftp_dir_cache_purge_dir cache (env.new_parent file)

/-- The call `g_vfs_ftp_dir_cache_purge_dir (ftp->dir_cache, dir)`. -/
def purge_dir (task : GVfsFtpTask F W) (dir : F) : GVfsFtpTask F W :=
  { log task (Event.purge_dir dir) with
    backend := { task.backend with
      dir_cache := g_vfs_ftp_dir_cache_purge_dir task.backend.dir_cache dir } }

/-- The call `g_vfs_ftp_dir_cache_purge_file (ftp->dir_cache, file)`. -/
def purge_file (env : FtpEnv F W) (task : GVfsFtpTask F W) (file : F) : GVfsFtpTask F W :=
  { log task (Event.purge_file file) with
    backend := { task.backend with
      dir_cache := g_vfs_ftp_dir_cache_purge_file env task.backend.dir_cache file } }

/-! ## File operations -/

/-- GLib's `G_FILE_COPY_OVERWRITE`. -/
def G_FILE_COPY_OVERWRITE : Nat := 1

/-- GLib's `G_FILE_COPY_BACKUP`. -/
def G_FILE_COPY_BACKUP : Nat := 2

/-- Modelled from the spec: the macro `G_VFS_FTP_RESPONSE_GROUP` of
`gvfsftptask.h`, which is not among the sources; the outcome category is
"derived from the first digit" of the three-digit status. -/
def G_VFS_FTP_RESPONSE_GROUP (response : Nat) : Nat := response / 100

/-- The function `do_open_for_read`. -/
def do_open_for_read (env : FtpEnv F W) (ftp : GVfsBackendFtp F) (world : W)
    (filename : String) : GVfsFtpTask F W :=
  let task : GVfsFtpTask F W := G_VFS_FTP_TASK_INIT ftp world
  let task := g_vfs_ftp_task_open_data_connection env task
  let file := env.new_from_gvfs filename
  let r := g_vfs_ftp_task_send_and_check env task (env.hdr.PASS_100 ||| env.hdr.FAIL_200)
    [error_550_is_directory env, error_550_permission_or_not_found env] file
    "RETR %s" [some (env.get_ftp_path file)]
  let task := r.2
  if ¬ g_vfs_ftp_task_is_in_error task then
    let c := g_vfs_ftp_task_take_connection task
    g_vfs_ftp_task_done (log c.2 (Event.set_handle c.1))
  else g_vfs_ftp_task_done task

/-- The function `do_start_write`. -/
def do_start_write (env : FtpEnv F W) (task : GVfsFtpTask F W) (format : String)
    (args : List (Option String)) : GVfsFtpTask F W :=
  let task := g_vfs_ftp_task_open_data_connection env task
  let r := g_vfs_ftp_task_sendv env task (env.hdr.PASS_100 ||| env.hdr.FAIL_200) format args
  let task := r.2.2
  if ¬ g_vfs_ftp_task_is_in_error task then
    let c := g_vfs_ftp_task_take_connection task
    log c.2 (Event.set_handle c.1)
  else task

/-- The function `do_create`. -/
def do_create (env : FtpEnv F W) (ftp : GVfsBackendFtp F) (world : W) (filename : String) :
    GVfsFtpTask F W :=
  let task : GVfsFtpTask F W := G_VFS_FTP_TASK_INIT ftp world
  let file := env.new_from_gvfs filename
  let r := g_vfs_ftp_dir_cache_lookup_file env task file false
  match r.1 with
  | some _ =>
    g_vfs_ftp_task_done (task_set_error r.2 GIOErrorEnum.EXISTS "Target file already exists")
  | none =>
    let task := do_start_write env r.2 "STOR %s" [some (env.get_ftp_path file)]
    let task := purge_file env task file
    g_vfs_ftp_task_done task

/-- The function `do_append`. -/
def do_append (env : FtpEnv F W) (ftp : GVfsBackendFtp F) (world : W) (filename : String) :
    GVfsFtpTask F W :=
  let task : GVfsFtpTask F W := G_VFS_FTP_TASK_INIT ftp world
  let file := env.new_from_gvfs filename
  let task := do_start_write env task "APPE %s" [some (env.get_ftp_path file)]
  let task := purge_file env task file
  g_vfs_ftp_task_done task

/-- The function `do_replace`. -/
def do_replace (env : FtpEnv F W) (ftp : GVfsBackendFtp F) (world : W) (filename : String)
    (make_backup : Bool) : GVfsFtpTask F W :=
  let task : GVfsFtpTask F W := G_VFS_FTP_TASK_INIT ftp world
  if make_backup then
    g_vfs_ftp_task_done
      (task_set_error task GIOErrorEnum.CANT_CREATE_BACKUP "backups not supported yet")
  else
    let file := env.new_from_gvfs filename
    let task := do_start_write env task "STOR %s" [some (env.get_ftp_path file)]
    let task := purge_file env task file
    g_vfs_ftp_task_done task

/-- The function `do_set_display_name`; `now` is NULL when the new name is refused. -/
def do_set_display_name (env : FtpEnv F W) (ftp : GVfsBackendFtp F) (world : W)
    (filename display_name : String) : GVfsFtpTask F W :=
  let task : GVfsFtpTask F W := G_VFS_FTP_TASK_INIT ftp world
  let original := env.new_from_gvfs filename
  let dir := env.new_parent original
  let child := env.new_child dir display_name
  let now : Option F := match child with
    | Except.ok f => some f
    | Except.error _ => none
  let task := match child with
    | Except.ok _ => task
    | Except.error e => task_set_error task e.code e.message
  let r := g_vfs_ftp_task_send env task (env.hdr.PASS_300 ||| env.hdr.FAIL_200) "RNFR %s"
    [some (env.get_ftp_path original)]
  let r := g_vfs_ftp_task_send env r.2 0 "RNTO %s" [now.map env.get_ftp_path]
  let task := log r.2 (Event.set_new_path (now.map env.get_gvfs_path))
  let task := purge_dir task dir
  g_vfs_ftp_task_done task

/-- The function `do_delete`. -/
def do_delete (env : FtpEnv F W) (ftp : GVfsBackendFtp F) (world : W) (filename : String) :
    GVfsFtpTask F W :=
  let task : GVfsFtpTask F W := G_VFS_FTP_TASK_INIT ftp world
  let file := env.new_from_gvfs filename
  let r := g_vfs_ftp_task_send env task env.hdr.PASS_500 "DELE %s"
    [some (env.get_ftp_path file)]
  let task :=
    if G_VFS_FTP_RESPONSE_GROUP r.1 = 5 then
      let r := g_vfs_ftp_task_send env r.2 env.hdr.PASS_550 "RMD %s"
        [some (env.get_ftp_path file)]
      if r.1 = 550 then
        let l := g_vfs_ftp_dir_cache_lookup_dir env r.2 file false false
        if l.1 ≠ [] then task_set_error l.2 GIOErrorEnum.NOT_EMPTY "Directory not empty"
        else g_vfs_ftp_task_set_error_from_response env (g_vfs_ftp_task_clear_error l.2) r.1
      else r.2
    else r.2
  let task := purge_file env task file
  g_vfs_ftp_task_done task

/-- The function `do_make_directory`. -/
def do_make_directory (env : FtpEnv F W) (ftp : GVfsBackendFtp F) (world : W)
    (filename : String) : GVfsFtpTask F W :=
  let task : GVfsFtpTask F W := G_VFS_FTP_TASK_INIT ftp world
  let file := env.new_from_gvfs filename
  let r := g_vfs_ftp_task_send_and_check env task 0
    [error_550_exists env, error_550_parent_not_found env] file
    "MKD %s" [some (env.get_ftp_path file)]
  let task := purge_file env r.2 file
  g_vfs_ftp_task_done task

/-- The part of `do_move` from the overwrite check to the label `out`. -/
def do_move_rename (env : FtpEnv F W) (task : GVfsFtpTask F W) (srcfile destfile : F)
    (flags : Nat) : GVfsFtpTask F W :=
  let check : Bool × GVfsFtpTask F W :=
    if (flags &&& G_FILE_COPY_OVERWRITE) = 0 then
      let r := g_vfs_ftp_dir_cache_lookup_file env task destfile false
      match r.1 with
      | some _ =>
        (true, task_set_error r.2 GIOErrorEnum.EXISTS "Target file already exists")
      | none => (false, r.2)
    else (false, task)
  if check.1 then check.2
  else
    let r := g_vfs_ftp_task_send env check.2 (env.hdr.PASS_300 ||| env.hdr.FAIL_200) "RNFR %s"
      [some (env.get_ftp_path srcfile)]
    let r := g_vfs_ftp_task_send env r.2 0 "RNTO %s" [some (env.get_ftp_path destfile)]
    let task := purge_file env r.2 srcfile
    purge_file env task destfile

/-- The function `do_move`. -/
def do_move (env : FtpEnv F W) (ftp : GVfsBackendFtp F) (world : W)
    (source destination : String) (flags : Nat) : GVfsFtpTask F W :=
  let task : GVfsFtpTask F W := G_VFS_FTP_TASK_INIT ftp world
  if (flags &&& G_FILE_COPY_BACKUP) ≠ 0 then
    g_vfs_ftp_task_done
      (task_set_error task GIOErrorEnum.CANT_CREATE_BACKUP "backups not supported yet")
  else
    let srcfile := env.new_from_gvfs source
    let destfile := env.new_from_gvfs destination
    let cd := g_vfs_ftp_task_try_cd env task destfile
    if cd.1 then
      let basename := env.path_get_basename source
      match env.new_child destfile basename with
      | Except.error e => g_vfs_ftp_task_done (task_set_error cd.2 e.code e.message)
      | Except.ok real => g_vfs_ftp_task_done (do_move_rename env cd.2 srcfile real flags)
    else g_vfs_ftp_task_done (do_move_rename env cd.2 srcfile destfile flags)

/-- The function `do_pull`; the local file and the copy loop are the environment's. -/
def do_pull (env : FtpEnv F W) (ftp : GVfsBackendFtp F) (world : W)
    (source local_path : String) (flags : Nat) (remove_source progress_callback : Bool) :
    GVfsFtpTask F W :=
  let task : GVfsFtpTask F W := G_VFS_FTP_TASK_INIT ftp world
  let out := env.open_output task.world local_path ((flags &&& G_FILE_COPY_OVERWRITE) ≠ 0)
    ((flags &&& G_FILE_COPY_BACKUP) ≠ 0) task.error
  let task := { task with error := out.2.1, world := out.2.2 }
  if ¬ out.1 then g_vfs_ftp_task_done task
  else
    let src := env.new_from_gvfs source
    let task :=
      if progress_callback then (g_vfs_ftp_dir_cache_lookup_file env task src true).2
      else task
    let task := g_vfs_ftp_task_open_data_connection env task
    let r := g_vfs_ftp_task_send_and_check env task (env.hdr.PASS_100 ||| env.hdr.FAIL_200)
      [error_550_is_directory env] src "RETR %s" [some (env.get_ftp_path src)]
    if g_vfs_ftp_task_is_in_error r.2 then g_vfs_ftp_task_done r.2
    else
      let s := env.splice r.2.world r.2.error
      let task := { log r.2 Event.splice with error := s.1, world := s.2 }
      let task := g_vfs_ftp_task_close_data_connection env task
      let task := (g_vfs_ftp_task_receive env task 0).2
      let task :=
        if remove_source then
          (g_vfs_ftp_task_send env task env.hdr.PASS_500 "DELE %s"
            [some (env.get_ftp_path src)]).2
        else task
      g_vfs_ftp_task_done task

end Cache

/-! ## Mounting -/

/-- GLib's `G_MAXUINT`. -/
def G_MAXUINT : Nat := 2 ^ 32 - 1

/-- GLib's `G_ASK_PASSWORD_NEED_PASSWORD`. -/
def G_ASK_PASSWORD_NEED_PASSWORD : Nat := 1

/-- GLib's `G_ASK_PASSWORD_NEED_USERNAME`. -/
def G_ASK_PASSWORD_NEED_USERNAME : Nat := 2

/-- GLib's `G_ASK_PASSWORD_SAVING_SUPPORTED`. -/
def G_ASK_PASSWORD_SAVING_SUPPORTED : Nat := 8

/-- GLib's `G_ASK_PASSWORD_ANONYMOUS_SUPPORTED`. -/
def G_ASK_PASSWORD_ANONYMOUS_SUPPORTED : Nat := 16

/-- The local variables of `do_mount` that live across its login loop. -/
structure MountLocals where
  prompt : Option String
  username : Option String
  password : Option String
  anonymous : Bool
  break_on_fail : Bool
  deriving DecidableEq, Repr

/-- A call of `g_vfs_ftp_task_login (task, username, password)`. -/
def g_vfs_ftp_task_login (env : FtpEnv F W) (task : GVfsFtpTask F W) (username : String)
    (password : Option String) : Nat × GVfsFtpTask F W :=
  let r := env.login task.world task.error username password
  (r.1, { log task (Event.login username password) with world := r.2.2, error := r.2.1 })

/-- A call of `g_vfs_ftp_task_setup_connection (task)`. -/
def g_vfs_ftp_task_setup_connection (env : FtpEnv F W) (task : GVfsFtpTask F W) :
    GVfsFtpTask F W :=
  let r := env.setup_connection task.world task.backend.features task.error
  { log task Event.setup_connection with world := r.2, error := r.1 }

/-- The pre-login commands of `do_mount`: the greeting is received and the
features are asked for; when that fails the error is dropped, the
FEAT_AFTER_LOGIN workaround is switched on and the features are zeroed. -/
def do_mount_pre_login (env : FtpEnv F W) (fuel : Nat) (task : GVfsFtpTask F W) :
    Option (GVfsFtpTask F W) :=
  let task := (g_vfs_ftp_task_receive env task 0).2
  let r := gvfs_backend_ftp_determine_features env task
  if ¬ r.1 then
    let task := g_vfs_ftp_task_clear_error r.2
    match g_vfs_backend_ftp_use_workaround fuel task.backend
        env.hdr.WORKAROUND_FEAT_AFTER_LOGIN with
    | none => none
    | some ftp => some (set_features { task with backend := ftp } 0)
  else some r.2

/-- The body of the login loop of `do_mount` from the label `try_login` on.
The flag says whether the loop goes round again. -/
def do_mount_try_login (env : FtpEnv F W) (l : MountLocals) (task : GVfsFtpTask F W) :
    Bool × MountLocals × GVfsFtpTask F W :=
  let attempt : Bool × GVfsFtpTask F W :=
    if l.anonymous then
      let task : GVfsFtpTask F W :=
        { task with backend := { task.backend with user := some "anonymous", password := some "" } }
      let r := g_vfs_ftp_task_login env task "anonymous" (some "")
      if r.1 ≠ 0 then (true, r.2)
      else (false, { r.2 with backend := { r.2.backend with user := none, password := none } })
    else
      let user := l.username.getD ""
      let task : GVfsFtpTask F W :=
        { task with backend := { task.backend with user := some user, password := l.password } }
      let r := g_vfs_ftp_task_login env task user l.password
      (r.1 ≠ 0, r.2)
  if attempt.1 then (false, l, attempt.2)
  else if l.break_on_fail ∨ ¬ g_error_matches attempt.2.error GIOErrorEnum.PERMISSION_DENIED then
    (false, l, attempt.2)
  else (true, l, g_vfs_ftp_task_clear_error attempt.2)

/-- The head of the login loop of `do_mount`, down to the label `try_login`:
the prompt is made once, the password is asked for, and a dialog that was not
handled or was aborted leaves the loop with PERMISSION_DENIED. The flag says
whether the loop is left. -/
def do_mount_ask_password (env : FtpEnv F W) (l : MountLocals) (task : GVfsFtpTask F W) :
    Bool × MountLocals × GVfsFtpTask F W :=
  let prompt : String :=
    match l.prompt with
    | some p => p
    | none =>
      if task.backend.has_initial_user then
        "Enter password for ftp as " ++ task.backend.user.getD "(null)" ++ " on " ++
          task.backend.host_display_name
      else "Enter password for ftp on " ++ task.backend.host_display_name
  let flags := G_ASK_PASSWORD_NEED_PASSWORD
  let flags :=
    if ¬ task.backend.has_initial_user then
      flags ||| G_ASK_PASSWORD_NEED_USERNAME ||| G_ASK_PASSWORD_ANONYMOUS_SUPPORTED
    else flags
  let flags :=
    if env.keyring_is_available task.world then flags ||| G_ASK_PASSWORD_SAVING_SUPPORTED
    else flags
  let a := env.ask_password task.world prompt task.backend.user flags
  let task : GVfsFtpTask F W := { log task (Event.ask_password prompt) with world := a.2 }
  let l : MountLocals :=
    { l with prompt := some prompt, password := a.1.password, username := a.1.username,
             anonymous := a.1.anonymous }
  if ¬ a.1.handled ∨ a.1.aborted then
    (true, l, task_set_error task GIOErrorEnum.PERMISSION_DENIED "Password dialog cancelled")
  else
    let l : MountLocals :=
      if task.backend.has_initial_user then { l with username := task.backend.user } else l
    (false, l, task)

/-- The `while (TRUE)` loop of `do_mount`, entered at its head: each turn asks
for a password and tries to log in. `none` when the fuel is used up before the
loop is left. -/
def do_mount_login_loop (env : FtpEnv F W) :
    Nat → MountLocals → GVfsFtpTask F W → Option (MountLocals × GVfsFtpTask F W)
  | 0, _, _ => none
  | fuel + 1, l, task =>
    let a := do_mount_ask_password env l task
    if a.1 then some a.2
    else
      let r := do_mount_try_login env a.2.1 a.2.2
      if r.1 then do_mount_login_loop env fuel r.2.1 r.2.2 else some r.2

/-- The login part of `do_mount`: an anonymous user and a password found in
the keyring jump to `try_login`, anything else enters the loop at its head. -/
def do_mount_login (env : FtpEnv F W) (fuel : Nat) (task : GVfsFtpTask F W) :
    Option (MountLocals × GVfsFtpTask F W) :=
  let l : MountLocals :=
    { prompt := none, username := none, password := none, anonymous := false,
      break_on_fail := false }
  let entry : Option MountLocals :=
    if task.backend.user = some "anonymous" then
      some { l with anonymous := true, break_on_fail := true }
    else
      match env.keyring_lookup_password task.world task.backend.user with
      | some found => some { l with username := found.1, password := found.2, anonymous := false }
      | none => none
  match entry with
  | some l =>
    let r := do_mount_try_login env l task
    if r.1 then do_mount_login_loop env fuel r.2.1 r.2.2 else some r.2
  | none => do_mount_login_loop env fuel l task

/-- The post-login commands of `do_mount` up to the choice of the directory
cache: the features are asked for again when the workaround is on and the task
is not in error, then the connection is set up and the system determined. -/
def do_mount_post_login (env : FtpEnv F W) (task : GVfsFtpTask F W) : GVfsFtpTask F W :=
  let task :=
    if g_vfs_backend_ftp_uses_workaround task.backend env.hdr.WORKAROUND_FEAT_AFTER_LOGIN ∧
        ¬ g_vfs_ftp_task_is_in_error task then
      let r := gvfs_backend_ftp_determine_features env task
      if ¬ r.1 then set_features (g_vfs_ftp_task_clear_error r.2) env.hdr.FEATURES_DEFAULT
      else r.2
    else task
  let task := g_vfs_ftp_task_setup_connection env task
  let task := gvfs_backend_ftp_determine_system env task
  { task with backend := gvfs_backend_ftp_setup_directory_cache task.backend }

/-- The end of `do_mount`: the address of the live connection replaces the
one asked for, a task in error frees the connection and fails the job,
otherwise the mount is announced and the pool fields are initialised. -/
def do_mount_finish (env : FtpEnv F W) (addr : Option GSocketConnectable) (l : MountLocals)
    (task : GVfsFtpTask F W) : GVfsFtpTask F W :=
  let task : GVfsFtpTask F W :=
    if ¬ g_vfs_ftp_task_is_in_error task then
      match env.connection_get_address task.world task.conn with
      | Except.ok a => { task with backend := { task.backend with addr := some a } }
      | Except.error e =>
        let task := task_set_error task e.code e.message
        let task := g_vfs_ftp_task_clear_error task
        { task with backend := { task.backend with addr := addr } }
    else task
  if g_vfs_ftp_task_is_in_error task then
    g_vfs_ftp_task_done { log task (Event.connection_free task.conn) with conn := none }
  else
    let task :=
      if l.prompt.isSome ∧ ¬ l.anonymous then
        log task (Event.save_password task.backend.user task.backend.password)
      else task
    let display_name :=
      if task.backend.user = some "anonymous" then "ftp on " ++ task.backend.host_display_name
      else
        "ftp as " ++ task.backend.user.getD "(null)" ++ " on " ++ task.backend.host_display_name
    let task := log task (Event.mounted display_name)
    let task : GVfsFtpTask F W :=
      { task with backend := { task.backend with
          connections := 1, max_connections := G_MAXUINT, queue := some [] } }
    g_vfs_ftp_task_done task

/-- The start of `do_mount`: a task is set up and
`g_vfs_ftp_connection_new (ftp->addr, ...)` gives it its connection. -/
def do_mount_connect (env : FtpEnv F W) (ftp : GVfsBackendFtp F) (world : W) :
    GVfsFtpTask F W :=
  let task : GVfsFtpTask F W := G_VFS_FTP_TASK_INIT ftp world
  let c := env.connection_new task.world task.backend.addr
  { task with conn := c.1, error := c.2.1, world := c.2.2 }

/-- The function `do_mount`. `none` when the fuel does not cover the loops that were run. -/
def do_mount (env : FtpEnv F W) (fuel : Nat) (ftp : GVfsBackendFtp F) (world : W) :
    Option (GVfsFtpTask F W) :=
  let task := do_mount_connect env ftp world
  if task.conn = none then some (g_vfs_ftp_task_done task)
  else
    match do_mount_pre_login env fuel task with
    | none => none
    | some task =>
      let addr := task.backend.addr
      match do_mount_login env fuel task with
      | none => none
      | some r => some (do_mount_finish env addr r.1 (do_mount_post_login env r.2))

/-! ## The mount specification and unmounting -/

/-- GLib's `g_network_address_new (hostname, port)`; its `port` parameter is a
`guint16`. -/
def g_network_address_new (hostname : String) (port : Nat) : GSocketConnectable :=
  GSocketConnectable.network hostname (port % 2 ^ 16)

/-- The function `try_mount` of `gvfsbackendftp.c`. The mount specification is
what `g_mount_spec_get` answers for a key, `strtoul` is the C library's; the
result is the return value, the backend and the calls made on the job. -/
def try_mount (strtoul : String → Nat) (ftp : GVfsBackendFtp F)
    (mount_spec : String → Option String) : Bool × GVfsBackendFtp F × List (Event F) :=
  match mount_spec "host" with
  | none =>
    (true, ftp, [Event.job_failed ⟨GIOErrorEnum.INVALID_ARGUMENT, "No hostname specified"⟩])
  | some host =>
    let port : Nat :=
      match mount_spec "port" with
      | none => 21
      | some port_str => strtoul port_str % 2 ^ 32
    let user := mount_spec "user"
    let ftp : GVfsBackendFtp F :=
      { ftp with
        addr := some (g_network_address_new host port)
        user := user
        has_initial_user := user.isSome
        host_display_name := if port = 21 then host else host ++ ":" ++ toString port }
    (false, ftp, [])

/-- The fields of `GVfsBackendAfp` that `try_mount` of `gvfsbackendafp.c`
writes. -/
structure GVfsBackendAfp where
  volume : Option String
  user : Option String
  addr : Option GSocketConnectable
  deriving DecidableEq, Repr

/-- The function `try_mount` of `gvfsbackendafp.c`; `port` is a `guint16` that
starts as 548, and `atoi` is the C library's. -/
def Afp.try_mount (atoi : String → Int) (afp_backend : GVfsBackendAfp)
    (mount_spec : String → Option String) : Bool × GVfsBackendAfp × List (Event Unit) :=
  let port : Nat := 548
  match mount_spec "host" with
  | none =>
    (true, afp_backend,
      [Event.job_failed ⟨GIOErrorEnum.INVALID_ARGUMENT, "No hostname specified"⟩])
  | some host =>
    match mount_spec "volume" with
    | none =>
      (true, afp_backend,
        [Event.job_failed ⟨GIOErrorEnum.INVALID_ARGUMENT, "No volume specified"⟩])
    | some volume =>
      let afp_backend := { afp_backend with volume := some volume }
      let port : Nat :=
        match mount_spec "port" with
        | some portstr => (atoi portstr % 2 ^ 16).toNat
        | none => port
      let afp_backend := { afp_backend with addr := some (g_network_address_new host port) }
      let user := mount_spec "user"
      let afp_backend := { afp_backend with user := user }
      (false, afp_backend, [])

/-- The `while` loop of `do_unmount`: each connection popped off the head of
the queue is freed. -/
def do_unmount_loop : List GVfsFtpConnection → List (Event F) → List (Event F)
  | [], trace => trace
  | conn :: queue, trace =>
    do_unmount_loop queue (trace ++ [Event.connection_free (some conn)])

/-- The function `do_unmount`: the backend it leaves and the calls it made. A
queue that is NULL gives `g_queue_pop_head` nothing to pop. -/
def do_unmount (ftp : GVfsBackendFtp F) : GVfsBackendFtp F × List (Event F) :=
  let trace := do_unmount_loop (ftp.queue.getD []) []
  let ftp : GVfsBackendFtp F := { ftp with queue := none }
  let trace := trace ++ [Event.cond_broadcast]
  (ftp, trace ++ [Event.job_succeeded])

/-- The assertion `g_assert (ftp->queue == NULL)` of
`g_vfs_backend_ftp_finalize`: `none` when it fails. -/
def g_vfs_backend_ftp_finalize (ftp : GVfsBackendFtp F) : Option Unit :=
  if ftp.queue = none then some () else none

/-! ## Calls of `g_vfs_backend_ftp_use_workaround` that run at the same time -/

/-- Where a call of `g_vfs_backend_ftp_use_workaround` stands: before the
`g_atomic_int_get` of a turn of its loop, between that and the
`g_atomic_int_compare_and_exchange` with the value `cur` it read, or back at
its caller. -/
inductive UseWorkaroundPc
  | get
  | exchange (cur : Nat)
  | returned
  deriving DecidableEq, Repr

/-- A call of `g_vfs_backend_ftp_use_workaround` in progress: its argument, its
local `set` and where it stands. -/
structure UseWorkaroundCall where
  workaround : Nat
  set : Nat
  pc : UseWorkaroundPc
  deriving DecidableEq, Repr

/-- The entry of `g_vfs_backend_ftp_use_workaround`: the guard
`g_return_if_fail (workaround < 32)` and `set = 1 << workaround`. -/
def use_workaround_enter (workaround : Nat) : UseWorkaroundCall :=
  if ¬ workaround < 32 then ⟨workaround, 0, UseWorkaroundPc.returned⟩
  else ⟨workaround, shl1 workaround, UseWorkaroundPc.get⟩

/-- One atomic step of a call on the shared word `ftp->workarounds`: either
the read and the test `(cur & set) == 0`, or the compare and exchange and the
test of its result. -/
def use_workaround_step (workarounds : Nat) (call : UseWorkaroundCall) :
    Nat × UseWorkaroundCall :=
  match call.pc with
  | UseWorkaroundPc.get =>
    let cur := workarounds
    if (cur &&& call.set) = 0 then (workarounds, { call with pc := UseWorkaroundPc.exchange cur })
    else (workarounds, { call with pc := UseWorkaroundPc.returned })
  | UseWorkaroundPc.exchange cur =>
    let r := g_atomic_int_compare_and_exchange workarounds cur (cur ||| call.set)
    if ¬ r.1 then (r.2, { call with pc := UseWorkaroundPc.get })
    else (r.2, { call with pc := UseWorkaroundPc.returned })
  | UseWorkaroundPc.returned => (workarounds, call)

/-- The calls run interleaved: the schedule names, step by step, the call
that takes the next atomic step. -/
def use_workaround_run :
    List Nat → Nat × List UseWorkaroundCall → Nat × List UseWorkaroundCall
  | [], state => state
  | i :: schedule, state =>
    match state.2[i]? with
    | none => use_workaround_run schedule state
    | some call =>
      let r := use_workaround_step state.1 call
      use_workaround_run schedule (r.1, state.2.set i r.2)

/-- What holds of the calls and the word at every point of a run: a call
with an index below 32 has `1 << workaround` for its `set`, and if it has
returned, its bit is set in the word. -/
def ReturnedBitsSet (state : Nat × List UseWorkaroundCall) : Prop :=
  ∀ call ∈ state.2,
    (call.workaround < 32 → call.set = shl1 call.workaround) ∧
    (call.pc = UseWorkaroundPc.returned → call.workaround < 32 →
      state.1.testBit call.workaround = true)


/-! ## The AFP backend: path names and dates -/

/-- The function `is_root` of `gvfsbackendafp.c`. A C string is the list of
its chars before the terminating NUL. -/
def is_root (filename : List Char) : Bool :=
  let p := filename.dropWhile (fun c => c = '/')
  p.isEmpty

/-- The second `while` loop of `filename_to_afp_pathname`: `strchr` finds the
end of the segment, a zero byte and the segment are appended, and the
slashes after it are stepped over. `none` when the fuel is used up before the
end of the string. -/
def filename_to_afp_pathname_loop : Nat → List Char → List Char → Option (List Char)
  | 0, _, _ => none
  | fuel + 1, filename, pathname =>
    if filename.isEmpty then some pathname
    else
      let segment := filename.takeWhile (fun c => c ≠ '/')
      let pathname := pathname ++ [Char.ofNat 0]
      let pathname := pathname ++ segment
      let filename := filename.dropWhile (fun c => c ≠ '/')
      let filename := filename.dropWhile (fun c => c = '/')
      filename_to_afp_pathname_loop fuel filename pathname

/-- The function `filename_to_afp_pathname` of `gvfsbackendafp.c`: the bytes of
the `GString` that is handed to `g_vfs_afp_name_new_from_gstring`. -/
def filename_to_afp_pathname (fuel : Nat) (filename : List Char) : Option (List Char) :=
  let pathname : List Char := []
  let pathname := pathname ++ [Char.ofNat 0]
  let filename := filename.dropWhile (fun c => c = '/')
  filename_to_afp_pathname_loop fuel filename pathname

/-- The AFP result code `AFP_RESULT_NO_ERROR`. -/
def AFP_RESULT_NO_ERROR : Nat := 0

/-- What `get_vol_parms_cb` reads off a `GVfsAfpReply`: the result code and the
two `guint32` that `g_vfs_afp_reply_read_uint32` yields in turn. -/
structure GVfsAfpReply where
  result_code : Nat
  create_date : Nat
  mod_date : Nat
  deriving DecidableEq, Repr

/-- The attributes of the `GFileInfo` of the job that `get_vol_parms_cb`
sets; the two times are `guint64` attributes. -/
structure AfpVolumeInfo where
  name : Option String
  time_created : Option Nat
  time_modified : Option Nat
  deriving DecidableEq, Repr

/-- The function `get_vol_parms_cb` of `gvfsbackendafp.c`: the file info it
leaves and the call it makes on the job. The dates are `guint32`, from which
the `int` constant is subtracted in unsigned 32-bit arithmetic before the
result is widened to the `guint64` of the attribute. -/
def get_vol_parms_cb (afp_backend : GVfsBackendAfp) (reply : Option GVfsAfpReply)
    (error : GError) (info : AfpVolumeInfo) : AfpVolumeInfo × List (Event Unit) :=
  match reply with
  | none => (info, [Event.job_failed error])
  | some reply =>
    let res_code := reply.result_code
    if res_code ≠ AFP_RESULT_NO_ERROR then
      (info, [Event.job_failed
        ⟨GIOErrorEnum.FAILED, "Fetching of volume parameters failed"⟩])
    else
      let info := { info with name := afp_backend.volume }
      let create_date : Int := reply.create_date % 2 ^ 32
      let info := { info with
        time_created := some (((create_date - 2082844800) % 2 ^ 32).toNat % 2 ^ 64) }
      let mod_date : Int := reply.mod_date % 2 ^ 32
      let info := { info with
        time_modified := some (((mod_date - 2082844800) % 2 ^ 32).toNat % 2 ^ 64) }
      (info, [Event.job_succeeded])


/-! ## The copy loop of `do_pull` -/

/-- What a call of `g_input_stream_read` gives: the bytes it put in the
buffer, none at the end of the stream, or -1; with a failure come its error
and the state of the timer's and of the caller's cancellable as the code finds
them right after. -/
inductive SpliceRead
  | data (bytes : List Nat)
  | failed (error : GError) (timer_cancelled cancelled : Bool)
  deriving DecidableEq, Repr

/-- What a call of `g_output_stream_write` gives: the number of bytes the
stream is ready to take, of which it takes no more than it is offered, or -1,
as for a read. -/
inductive SpliceWrite
  | accepted (count : Nat)
  | failed (error : GError) (timer_cancelled cancelled : Bool)
  deriving DecidableEq, Repr

/-- The local `timer_cancel` of `ftp_output_stream_splice`: NULL, the object
that `g_cancellable_new` made, or a value that is no object at all. -/
inductive TimerCancel
  | null
  | created
  | stale
  deriving DecidableEq, Repr

/-- The local `current` of `ftp_output_stream_splice`: it points to the
caller's cancellable or to the timer's. -/
inductive SpliceCurrent
  | cancellable
  | timer_cancel
  deriving DecidableEq, Repr

/-- What `ftp_output_stream_splice` did, in order. -/
inductive SpliceEvent
  | connect
  | read (current : SpliceCurrent)
  | write (bytes : List Nat) (current : SpliceCurrent)
  | reset
  | progress (bytes_copied : Int)
  | timeout_add
  | disconnect
  deriving DecidableEq, Repr

/-- The arguments of `ftp_output_stream_splice` and what it finds: the results
of the reads and of the writes by the number of the call, whether a progress
callback is given, and the value that the local `timer_cancel`, which is
declared without an initialiser, holds when nothing is assigned to it (`none`
for a NULL pointer). -/
structure SpliceArgs where
  input : Nat → SpliceRead
  output : Nat → SpliceWrite
  progress_callback : Bool
  stack : Option Nat

/-- The locals of `ftp_output_stream_splice` and the caller's error, with the
number of reads and writes made, the bytes the output has taken and the
calls made. -/
structure SpliceState where
  reads : Nat
  writes : Nat
  error : Option GError
  bytes_copied : Int
  current : SpliceCurrent
  written : List Nat
  trace : List SpliceEvent
  deriving DecidableEq, Repr

/-- How a run ends: with a value, or, where it has left what the source
defines, in the state it had then. -/
inductive SpliceRun (α : Type)
  | ok (value : α)
  | undefined (state : SpliceState)
  deriving DecidableEq, Repr

/-- The value a run ended with, if it did. -/
def SpliceRun.returned {α : Type} : SpliceRun α → Option α
  | SpliceRun.ok value => some value
  | SpliceRun.undefined _ => none

/-- The value of `timer_cancel`: it is assigned only `if (progress_callback)`. -/
def splice_timer_cancel (args : SpliceArgs) : TimerCancel :=
  if args.progress_callback then TimerCancel.created
  else
    match args.stack with
    | none => TimerCancel.null
    | some _ => TimerCancel.stale

/-- The test `g_cancellable_is_cancelled (timer_cancel) &&
!g_cancellable_is_cancelled (cancellable)`, which is FALSE of a NULL pointer;
`none` when `timer_cancel` is no object. -/
def splice_timer_fired (timer_cancel : TimerCancel) (timer_cancelled cancelled : Bool) :
    Option Bool :=
  match timer_cancel with
  | TimerCancel.null => some false
  | TimerCancel.created => some (timer_cancelled && !cancelled)
  | TimerCancel.stale => none

/-- The branch taken when the timer has fired: the timer is reset, `current`
is the caller's cancellable again, the error is cleared and the progress is
reported. -/
def splice_interrupted (st : SpliceState) : SpliceState :=
  { st with
    current := SpliceCurrent.cancellable
    error := none
    trace := st.trace ++ [SpliceEvent.reset, SpliceEvent.progress st.bytes_copied] }

/-- The statement `if (progress_callback && current != timer_cancel)` at the
end of the inner loop: the one-second timer is started. -/
def splice_start_timer (args : SpliceArgs) (st : SpliceState) : SpliceState :=
  if args.progress_callback ∧ st.current ≠ SpliceCurrent.timer_cancel then
    { st with
      current := SpliceCurrent.timer_cancel
      trace := st.trace ++ [SpliceEvent.timeout_add] }
  else st

/-- The inner loop `while (n_read > 0)` of `ftp_output_stream_splice`, with
`p` as an offset into the buffer. Its `break` leaves this loop only. The
run is undefined when it has left what the source defines: a write
from before the buffer, or a call on a `timer_cancel` that is no object.
`none` when the fuel is used up. -/
def splice_write_loop (args : SpliceArgs) (buffer : List Nat) :
    Nat → Int → Int → SpliceState → Option (SpliceRun SpliceState)
  | 0, _, _, _ => none
  | fuel + 1, p, n_read, st =>
    if ¬ n_read > 0 then some (SpliceRun.ok st)
    else if p < 0 then some (SpliceRun.undefined st)
    else
      let offered := (buffer.drop p.toNat).take n_read.toNat
      let result := args.output st.writes
      let st := { st with
        writes := st.writes + 1
        trace := st.trace ++ [SpliceEvent.write offered st.current] }
      match result with
      | SpliceWrite.accepted count =>
        let n_written := min count offered.length
        let st := { st with written := st.written ++ offered.take n_written }
        let st := { st with bytes_copied := st.bytes_copied + n_written }
        let st := splice_start_timer args st
        splice_write_loop args buffer fuel (p + n_written) (n_read - n_written) st
      | SpliceWrite.failed error timer_cancelled cancelled =>
        let st := { st with error := g_set_error_literal st.error error.code error.message }
        match splice_timer_fired (splice_timer_cancel args) timer_cancelled cancelled with
        | none => some (SpliceRun.undefined st)
        | some true =>
          let st := splice_interrupted st
          let n_written : Int := -1
          let st := { st with bytes_copied := st.bytes_copied + n_written }
          let st := splice_start_timer args st
          splice_write_loop args buffer fuel (p + n_written) (n_read - n_written) st
        | some false => some (SpliceRun.ok { st with bytes_copied := -1 })

/-- The loop `for (;;)` of `ftp_output_stream_splice`. -/
def splice_loop (args : SpliceArgs) :
    Nat → SpliceState → Option (SpliceRun SpliceState)
  | 0, _ => none
  | fuel + 1, st =>
    let result := args.input st.reads
    let st := { st with
      reads := st.reads + 1
      trace := st.trace ++ [SpliceEvent.read st.current] }
    match result with
    | SpliceRead.failed error timer_cancelled cancelled =>
      let st := { st with error := g_set_error_literal st.error error.code error.message }
      match splice_timer_fired (splice_timer_cancel args) timer_cancelled cancelled with
      | none => some (SpliceRun.undefined st)
      | some true => splice_loop args fuel (splice_interrupted st)
      | some false => some (SpliceRun.ok { st with bytes_copied := -1 })
    | SpliceRead.data bytes =>
      if bytes.isEmpty then some (SpliceRun.ok st)
      else
        match splice_write_loop args bytes fuel 0 bytes.length st with
        | none => none
        | some (SpliceRun.undefined st) => some (SpliceRun.undefined st)
        | some (SpliceRun.ok st) => splice_loop args fuel st

/-- The function `ftp_output_stream_splice`, called as `do_pull` calls it, with
no error set: the value it returns and the state it leaves, or an undefined
run. `none` when the fuel is used up. -/
def ftp_output_stream_splice (args : SpliceArgs) (fuel : Nat) :
    Option (SpliceRun (Int × SpliceState)) :=
  let st : SpliceState :=
    { reads := 0, writes := 0, error := none, bytes_copied := 0,
      current := SpliceCurrent.cancellable, written := [], trace := [] }
  let st :=
    if args.progress_callback then { st with trace := st.trace ++ [SpliceEvent.connect] }
    else st
  match splice_loop args fuel st with
  | none => none
  | some (SpliceRun.undefined st) => some (SpliceRun.undefined st)
  | some (SpliceRun.ok st) =>
    match splice_timer_cancel args with
    | TimerCancel.stale => some (SpliceRun.undefined st)
    | TimerCancel.created =>
      let st := { st with trace := st.trace ++ [SpliceEvent.disconnect] }
      let st :=
        if st.bytes_copied ≥ 0 ∧ args.progress_callback then
          { st with trace := st.trace ++ [SpliceEvent.progress st.bytes_copied] }
        else st
      some (SpliceRun.ok (st.bytes_copied, st))
    | TimerCancel.null =>
      let st :=
        if st.bytes_copied ≥ 0 ∧ args.progress_callback then
          { st with trace := st.trace ++ [SpliceEvent.progress st.bytes_copied] }
        else st
      some (SpliceRun.ok (st.bytes_copied, st))

/-- The state in which a run of one of the loops ended. -/
def SpliceRun.state : SpliceRun SpliceState → SpliceState
  | SpliceRun.ok st => st
  | SpliceRun.undefined st => st


/-! ## The words of the specification -/

/-- A reply line announces the feature `name`: it begins with a space and,
once all its leading ASCII whitespace is dropped, equals `name` up to ASCII
case. -/
def announces (line name : List Char) : Bool :=
  line.head? == some ' ' &&
    (line.dropWhile g_ascii_isspace).map g_ascii_tolower == name.map g_ascii_tolower

/-- The string `s` starts with `id`, up to ASCII case. -/
def starts_with_ignoring_case (s id : List Char) : Bool :=
  (s.take id.length).map g_ascii_tolower == id.map g_ascii_tolower

/-- The five feature flags of the header are values of one enum that number
the bits of an int: below 32 and distinct. -/
def Header.features_wf (hdr : Header) : Prop :=
  [hdr.FEATURE_MDTM, hdr.FEATURE_SIZE, hdr.FEATURE_TVFS, hdr.FEATURE_EPSV,
    hdr.FEATURE_UTF8].Nodup ∧
  ∀ f ∈ [hdr.FEATURE_MDTM, hdr.FEATURE_SIZE, hdr.FEATURE_TVFS, hdr.FEATURE_EPSV,
    hdr.FEATURE_UTF8], f < 32

instance (hdr : Header) : Decidable hdr.features_wf := by
  unfold Header.features_wf
  infer_instance

/-- The values assigned to `ftp->features`, oldest first. -/
def features_written (trace : List (Event F)) : List Nat :=
  trace.filterMap (fun e =>
    match e with
    | Event.features value => some value
    | _ => none)

/-- Every bit that is set in `a` is set in `b`. -/
def bits_subset (a b : Nat) : Prop :=
  ∀ i, a.testBit i = true → b.testBit i = true

/-- The feature word never lost a bit: of the value the mount started with and
the values written since, each is contained in every later one, and the last
one is the word the backend holds. -/
def FeaturesGrow (start : Nat) (task : GVfsFtpTask F W) : Prop :=
  List.Chain' bits_subset (start :: features_written task.trace) ∧
    (start :: features_written task.trace).getLast? = some task.backend.features

/-- The step from `task` to `task1` wrote neither the feature word nor the
workaround word. -/
def SameFlags (task task1 : GVfsFtpTask F W) : Prop :=
  task1.backend.features = task.backend.features ∧
    features_written task1.trace = features_written task.trace ∧
    task1.backend.workarounds = task.backend.workarounds

/-- The run `task` sent `command`, then, as its last step before reporting to
the job, called `g_vfs_ftp_dir_cache_purge_file` on `file`, and ends with
no cached listing of the parent directory of `file`. -/
def purged_after [DecidableEq F] (env : FtpEnv F W) (command : Command) (file : F)
    (task : GVfsFtpTask F W) : Prop :=
  (∃ before, task.trace = before ++ [Event.purge_file file, Event.done task.error] ∧
    ∃ flags, Event.send flags command ∈ before) ∧
  dir_cache_entry task.backend.dir_cache (env.new_parent file) = none

/-- The event is a call that drops a cache entry. -/
def is_purge : Event F → Bool
  | Event.purge_file _ => true
  | Event.purge_dir _ => true
  | _ => false

/-! ## A scripted server

A concrete environment on which the embedding runs: file names are lists of
segments, and the world is the list of answers the server will give together
with the files it holds. -/

/-- The world of the scripted server. -/
structure Server where
  replies : List Reply
  files : List (List String × GFileInfo)
  deriving DecidableEq, Repr

/-- The `/`-separated pieces of a path, empty ones included. -/
def path_pieces : List Char → List (List Char)
  | [] => [[]]
  | c :: cs =>
    if c = '/' then [] :: path_pieces cs
    else
      match path_pieces cs with
      | [] => [[c]]
      | piece :: pieces => (c :: piece) :: pieces

/-- The segments of a path. -/
def path_segments (path : String) : List String :=
  ((path_pieces path.toList).filter (fun piece => piece ≠ [])).map String.mk

/-- The header values of the scripted server: the enums count from 0, the
default feature set is the EPSV bit, and the response flags are bits of their
own. -/
def server_hdr : Header :=
  { FEATURE_MDTM := 0, FEATURE_SIZE := 1, FEATURE_TVFS := 2, FEATURE_EPSV := 3,
    FEATURE_UTF8 := 4, FEATURES_DEFAULT := 8, WORKAROUND_FEAT_AFTER_LOGIN := 2,
    PASS_100 := 1, PASS_300 := 2, PASS_500 := 8, PASS_550 := 16, FAIL_200 := 32 }

/-- The next scripted answer; a server with nothing left to say fails the
task. -/
def server_answer (w : Server) (error : Option GError) : Reply × Server :=
  match error, w.replies with
  | some e, _ => (⟨0, [], some e⟩, w)
  | none, [] => (⟨0, [], some ⟨GIOErrorEnum.CLOSED, "Connection closed"⟩⟩, w)
  | none, r :: rest => (r, { w with replies := rest })

/-- The files of the server that lie directly in `dir`. -/
def server_listing (w : Server) (dir : List String) : List GFileInfo :=
  (w.files.filter (fun e => e.1 ≠ [] ∧ e.1.dropLast = dir)).map (fun e => e.2)

/-- The scripted server as an environment. A lookup lists the directory
concerned into the cache. -/
def server_env : FtpEnv (List String) Server :=
  { hdr := server_hdr
    new_from_gvfs := path_segments
    new_parent := List.dropLast
    new_child := fun dir name =>
      if name.toList.elem '/' then
        Except.error ⟨GIOErrorEnum.INVALID_ARGUMENT, "Invalid filename"⟩
      else Except.ok (dir ++ [name])
    file_equal := fun a b => a == b
    get_ftp_path := fun file => "/" ++ "/".intercalate file
    get_gvfs_path := fun file => "/" ++ "/".intercalate file
    path_get_basename := fun path => (path_segments path).getLastD "/"
    sendv := fun w error _ _ => server_answer w error
    receive := fun w error _ => server_answer w error
    open_data_connection := fun w error => (error, w)
    close_data_connection := fun w error => (error, w)
    error_from_response := fun _ => ⟨GIOErrorEnum.FAILED, "Unexpected server response"⟩
    lookup_file := fun w cache error file _ =>
      let cache := (file.dropLast, server_listing w file.dropLast) :: cache
      match error, w.files.find? (fun e => e.1 = file) with
      | some e, _ => (Lookup.missing (some e), cache, w)
      | none, some e => (Lookup.found e.2, cache, w)
      | none, none => (Lookup.missing none, cache, w)
    lookup_dir := fun w cache error dir _ _ =>
      let cache := (dir, server_listing w dir) :: cache
      match error with
      | some e => (Lookup.missing (some e), cache, w)
      | none => (Lookup.found (server_listing w dir), cache, w)
    connection_new := fun w _ => (some 1, none, w)
    connection_get_address := fun _ _ => Except.ok (GSocketConnectable.socket "192.0.2.1:21")
    login := fun w error _ _ =>
      let r := server_answer w error
      (r.1.response, r.1.error, r.2)
    setup_connection := fun w _ error => (error, w)
    keyring_lookup_password := fun _ _ => none
    keyring_is_available := fun _ => false
    ask_password := fun w _ _ _ =>
      (⟨true, false, some "secret", some "alice", false⟩, w)
    splice := fun w error => (error, w)
    open_output := fun w _ _ _ error => (true, error, w) }

/-- A backend as `g_vfs_backend_ftp_init` and `try_mount` leave it. -/
def fresh_backend (user : Option String) : GVfsBackendFtp (List String) :=
  { addr := some (GSocketConnectable.network "ftp.example.org" 21)
    user := user
    password := none
    has_initial_user := user.isSome
    host_display_name := "ftp.example.org"
    features := 0
    workarounds := 0
    system := GVfsFtpSystem.UNKNOWN
    dir_funcs := none
    dir_cache := []
    connections := 0
    max_connections := 0
    queue := none }

/-- A regular file of the scripted server. -/
def regular_file (name : String) : GFileInfo := ⟨name, GFileType.REGULAR, 0⟩

/-- A directory of the scripted server. -/
def directory (name : String) : GFileInfo := ⟨name, GFileType.DIRECTORY, 0⟩

/-- The files of the scripted server: `/pub`, `/pub/a.txt` and `/pub/b`. -/
def server_files : List (List String × GFileInfo) :=
  [ (["pub"], directory "pub"),
    (["pub", "a.txt"], regular_file "a.txt"),
    (["pub", "b"], directory "b") ]

/-- A backend that has the listing of `/pub` in its cache. -/
def cached_backend : GVfsBackendFtp (List String) :=
  { fresh_backend none with
    system := GVfsFtpSystem.UNIX
    dir_funcs := some GVfsFtpDirFuncs.funcs_unix
    dir_cache := [(["pub"], [regular_file "a.txt", directory "b"])]
    connections := 1
    max_connections := G_MAXUINT
    queue := some [] }

/-- The reply `550` with the generic error recorded. -/
def reply_550 : Reply :=
  ⟨550, ["550 Failed.".toList], some ⟨GIOErrorEnum.FAILED, "550 Failed."⟩⟩

/-- The greeting of the scripted server. -/
def reply_greeting : Reply := ⟨220, ["220 Welcome".toList], none⟩

/-- A FEAT reply of the scripted server, with two spaces before one feature
and a feature the table does not know. -/
def reply_feat : Reply :=
  ⟨211, ["211-Features:".toList, " MDTM".toList, "  utf8".toList, " REST STREAM".toList,
    "211 End".toList], none⟩

/-- A FEAT that the server refuses: the send returns 0 and records the error. -/
def reply_feat_refused : Reply :=
  ⟨0, [], some ⟨GIOErrorEnum.FAILED, "500 Unknown command."⟩⟩

/-- A login that is accepted. -/
def reply_login : Reply := ⟨230, ["230 Login successful.".toList], none⟩

/-- The answer to SYST of a Unix server. -/
def reply_syst : Reply := ⟨215, ["215 UNIX Type: L8".toList], none⟩

/-- A server that refuses FEAT before the login and answers it afterwards. -/
def server_feat_after_login : Server :=
  ⟨[reply_greeting, reply_feat_refused, reply_login, reply_feat, reply_syst], server_files⟩

/-- A server on which RETR, the end of the transfer and DELE all succeed. -/
def server_pull : Server :=
  ⟨[⟨150, ["150 Opening BINARY mode data connection.".toList], none⟩,
    ⟨226, ["226 Transfer complete.".toList], none⟩,
    ⟨250, ["250 Delete operation successful.".toList], none⟩], server_files⟩

/-- A backend that has the listing of `/pub` and the empty listing of `/pub/b`
in its cache. -/
def cached_backend_b : GVfsBackendFtp (List String) :=
  { cached_backend with
    dir_cache := [(["pub"], [regular_file "a.txt", directory "b"]), (["pub", "b"], [])] }

/-- A server that refuses DELE with 550, passed to the caller without an error,
and accepts RMD. -/
def server_rmdir : Server :=
  ⟨[⟨550, ["550 Delete operation failed.".toList], none⟩,
    ⟨250, ["250 Remove directory operation successful.".toList], none⟩], server_files⟩

/-- A server that answers 550 to both DELE and RMD, passed to the caller
without an error. -/
def server_rmdir_refused : Server :=
  ⟨[⟨550, ["550 Delete operation failed.".toList], none⟩,
    ⟨550, ["550 Remove directory operation failed.".toList], none⟩], server_files⟩

/-- A backend with two connections open: connection 1 is idle in the queue,
connection 2 is with a task. -/
def busy_backend : GVfsBackendFtp (List String) :=
  { cached_backend with connections := 2, queue := some [1] }

/-- A mount specification, as `g_mount_spec_get` answers for it. -/
def mount_spec_of (entries : List (String × String)) (key : String) : Option String :=
  (entries.find? (fun e => e.1 = key)).map (fun e => e.2)


/-- A reply that refuses a command for want of a login: the status is handed to
the caller and the failure is recorded on the task. -/
def reply_530 : Reply :=
  ⟨530, ["530 Please login with USER and PASS.".toList],
    some ⟨GIOErrorEnum.FAILED, "530 Please login with USER and PASS."⟩⟩

/-- A backend on which the FEAT_AFTER_LOGIN workaround is in use. -/
def workaround_backend : GVfsBackendFtp (List String) :=
  { fresh_backend (some "anonymous") with workarounds := 4 }

/-- The scripted server with a cache that answers from a listing it holds
whatever the state of the task: a lookup "returns cached metadata for a single
entry if its parent directory listing is fresh", and only a lookup that has to
fetch the listing goes by the task, as on `server_env`. -/
def cached_server_env : FtpEnv (List String) Server :=
  { server_env with
    lookup_file := fun w cache error file resolve_symlinks =>
      match (cache.find? (fun e => e.1 = file.dropLast)).bind
          (fun e => e.2.find? (fun info => some info.name = file.getLast?)) with
      | some info => (Lookup.found info, cache, w)
      | none => server_env.lookup_file w cache error file resolve_symlinks }

/-! ## More words of the specification -/

/-- The step from `task` to `task1` left the pool fields of the backend alone:
the idle queue, the count of connections and its maximum. -/
def SamePool (task task1 : GVfsFtpTask F W) : Prop :=
  task1.backend.queue = task.backend.queue ∧
    task1.backend.connections = task.backend.connections ∧
    task1.backend.max_connections = task.backend.max_connections


/-- The non-empty `/`-separated segments of a file name, in order. -/
def filename_segments (filename : List Char) : List (List Char) :=
  (path_pieces filename).filter (fun piece => piece ≠ [])

/-- Whether a year of the Gregorian calendar is a leap year. -/
def is_leap_year (year : Nat) : Bool :=
  (year % 4 = 0 ∧ year % 100 ≠ 0) ∨ year % 400 = 0

/-- The seconds from the start of the year `first` to the start of the year
`last`, at 86400 seconds a day. -/
def seconds_between_years (first last : Nat) : Nat :=
  86400 * ((List.range (last - first)).map
    (fun i => if is_leap_year (first + i) then 366 else 365)).sum

/-- For each segment in order, a zero byte and the chars of the segment. -/
def afp_pathname_of_segments : List (List Char) → List Char
  | [] => []
  | segment :: segments => Char.ofNat 0 :: segment ++ afp_pathname_of_segments segments


/-- The results of the reads or writes of a run, from a list: beyond the
list the calls get `rest`. -/
def scripted {α : Type} (script : List α) (rest : α) (call : Nat) : α :=
  script.getD call rest

/-- An input stream that gives two bytes, then three, then ends, into an
output stream whose first write fails with an I/O error, no cancellable being
cancelled, and whose later writes take all they are offered. -/
def splice_write_error (progress_callback : Bool) : SpliceArgs :=
  { input := scripted [SpliceRead.data [1, 2], SpliceRead.data [3, 4, 5]] (SpliceRead.data [])
    output := scripted [SpliceWrite.failed ⟨GIOErrorEnum.FAILED, "No space left on device"⟩
      false false] (SpliceWrite.accepted 8192)
    progress_callback := progress_callback
    stack := none }

/-- An input stream that gives three bytes, then two, then ends, into an
output stream that takes two bytes at a time; `stack` is what the local
`timer_cancel` holds when nothing is assigned to it. -/
def splice_short_writes (progress_callback : Bool) (stack : Option Nat) : SpliceArgs :=
  { input := scripted [SpliceRead.data [1, 2, 3], SpliceRead.data [4, 5]] (SpliceRead.data [])
    output := scripted [] (SpliceWrite.accepted 2)
    progress_callback := progress_callback
    stack := stack }

/-- The bytes a read put in the buffer. -/
def SpliceRead.bytes : SpliceRead → List Nat
  | SpliceRead.data bytes => bytes
  | SpliceRead.failed _ _ _ => []

/-- The bytes that `count` reads in a row give, from the read number `start`
on. -/
def splice_input_bytes (input : Nat → SpliceRead) : Nat → Nat → List Nat
  | _, 0 => []
  | start, count + 1 => (input start).bytes ++ splice_input_bytes input (start + 1) count


/-! ## Lemmas on the primitives -/

theorem lookup_file_world (env : FtpEnv F W) (task : GVfsFtpTask F W) (file : F) (b : Bool) :
    (g_vfs_ftp_dir_cache_lookup_file env task file b).2.world =
      (env.lookup_file task.world task.backend.dir_cache task.error file b).2.2 := by
  unfold g_vfs_ftp_dir_cache_lookup_file
  generalize env.lookup_file task.world task.backend.dir_cache task.error file b = r
  rcases r with ⟨(info | e), c, w⟩ <;> rfl

theorem lookup_file_cache (env : FtpEnv F W) (task : GVfsFtpTask F W) (file : F) (b : Bool) :
    (g_vfs_ftp_dir_cache_lookup_file env task file b).2.backend.dir_cache =
      (env.lookup_file task.world task.backend.dir_cache task.error file b).2.1 := by
  unfold g_vfs_ftp_dir_cache_lookup_file
  generalize env.lookup_file task.world task.backend.dir_cache task.error file b = r
  rcases r with ⟨(info | e), c, w⟩ <;> rfl

theorem error_550_is_directory_error (env : FtpEnv F W) (task : GVfsFtpTask F W) (file : F)
    (h : task.error = none) :
    (error_550_is_directory env task file).error =
      match (env.lookup_file task.world task.backend.dir_cache none file true).1 with
      | Lookup.found info =>
        if info.file_type = GFileType.DIRECTORY then
          some ⟨GIOErrorEnum.IS_DIRECTORY, "File is directory"⟩
        else none
      | Lookup.missing _ => none := by
  unfold error_550_is_directory g_vfs_ftp_dir_cache_lookup_file
  rw [h]
  generalize env.lookup_file task.world task.backend.dir_cache none file true = r
  rcases r with ⟨(info | e), c, w⟩
  · by_cases hd : info.file_type = GFileType.DIRECTORY
    · simp [hd, task_set_error, g_set_error_literal, log, h]
    · simp [hd, g_vfs_ftp_task_clear_error]
  · simp [g_vfs_ftp_task_clear_error]

theorem error_550_is_directory_world (env : FtpEnv F W) (task : GVfsFtpTask F W) (file : F) :
    (error_550_is_directory env task file).world =
      (env.lookup_file task.world task.backend.dir_cache task.error file true).2.2 := by
  unfold error_550_is_directory g_vfs_ftp_dir_cache_lookup_file
  generalize env.lookup_file task.world task.backend.dir_cache task.error file true = r
  rcases r with ⟨(info | e), c, w⟩
  · by_cases hd : info.file_type = GFileType.DIRECTORY
    · simp [hd, task_set_error, log]
    · simp [hd, g_vfs_ftp_task_clear_error, log]
  · simp [g_vfs_ftp_task_clear_error, log]

theorem error_550_is_directory_cache (env : FtpEnv F W) (task : GVfsFtpTask F W) (file : F) :
    (error_550_is_directory env task file).backend.dir_cache =
      (env.lookup_file task.world task.backend.dir_cache task.error file true).2.1 := by
  unfold error_550_is_directory g_vfs_ftp_dir_cache_lookup_file
  generalize env.lookup_file task.world task.backend.dir_cache task.error file true = r
  rcases r with ⟨(info | e), c, w⟩
  · by_cases hd : info.file_type = GFileType.DIRECTORY
    · simp [hd, task_set_error, log]
    · simp [hd, g_vfs_ftp_task_clear_error, log]
  · simp [g_vfs_ftp_task_clear_error, log]

theorem error_550_permission_or_not_found_error (env : FtpEnv F W) (task : GVfsFtpTask F W)
    (file : F) (h : task.error = none) :
    (error_550_permission_or_not_found env task file).error =
      match (env.lookup_file task.world task.backend.dir_cache none file false).1 with
      | Lookup.found _ => some ⟨GIOErrorEnum.PERMISSION_DENIED, "Insufficient permissions"⟩
      | Lookup.missing _ => some ⟨GIOErrorEnum.NOT_FOUND, "File does not exist"⟩ := by
  unfold error_550_permission_or_not_found g_vfs_ftp_dir_cache_lookup_file
  rw [h]
  generalize env.lookup_file task.world task.backend.dir_cache none file false = r
  rcases r with ⟨(info | e), c, w⟩
  · simp [task_set_error, g_set_error_literal, log, h]
  · simp [task_set_error, g_set_error_literal, g_vfs_ftp_task_clear_error]

/-! ## Error-handler chains -/

/-- C1. A command answered with status 550 and checked with the handler chain
`[error_550_is_directory, error_550_permission_or_not_found]` leaves the task
with one error: IS_DIRECTORY when the lookup of the target that follows
symlinks yields a directory; otherwise PERMISSION_DENIED when the lookup that
does not follow symlinks yields an entry, and NOT_FOUND when it yields none. -/
theorem send_and_check_550_open_read_handlers
    (env : FtpEnv F W) (task : GVfsFtpTask F W) (flags : Nat) (file : F)
    (format : String) (args : List (Option String))
    (h550 : (g_vfs_ftp_task_send env task flags format args).1 = 550)
    (herr : g_vfs_ftp_task_is_in_error (g_vfs_ftp_task_send env task flags format args).2 = true) :
    let sent := (g_vfs_ftp_task_send env task flags format args).2
    let first := env.lookup_file sent.world sent.backend.dir_cache none file true
    let second := env.lookup_file first.2.2 first.2.1 none file false
    let is_dir := ∃ info, first.1 = Lookup.found info ∧ info.file_type = GFileType.DIRECTORY
    let final := (g_vfs_ftp_task_send_and_check env task flags
      [error_550_is_directory env, error_550_permission_or_not_found env] file format args).2
    (is_dir → final.error = some ⟨GIOErrorEnum.IS_DIRECTORY, "File is directory"⟩) ∧
    (¬ is_dir → (∃ info, second.1 = Lookup.found info) →
      final.error = some ⟨GIOErrorEnum.PERMISSION_DENIED, "Insufficient permissions"⟩) ∧
    (¬ is_dir → (∀ info, second.1 ≠ Lookup.found info) →
      final.error = some ⟨GIOErrorEnum.NOT_FOUND, "File does not exist"⟩) := by
  intro sent first second is_dir final
  obtain ⟨e0, he0⟩ := Option.isSome_iff_exists.mp herr
  have hclear : (g_vfs_ftp_task_clear_error sent).error = none := rfl
  have h1e := error_550_is_directory_error env (g_vfs_ftp_task_clear_error sent) file hclear
  have h1w := error_550_is_directory_world env (g_vfs_ftp_task_clear_error sent) file
  have h1c := error_550_is_directory_cache env (g_vfs_ftp_task_clear_error sent) file
  have hwalk : (run_error_handlers
      [error_550_is_directory env, error_550_permission_or_not_found env]
      (g_vfs_ftp_task_clear_error sent) file) =
      if (error_550_is_directory env (g_vfs_ftp_task_clear_error sent) file).error.isSome then
        error_550_is_directory env (g_vfs_ftp_task_clear_error sent) file
      else error_550_permission_or_not_found env
        (error_550_is_directory env (g_vfs_ftp_task_clear_error sent) file) file := by
    simp only [run_error_handlers, g_vfs_ftp_task_is_in_error, hclear, Option.isSome_none]
    split <;> simp_all
  have hfinal : final.error =
      if (run_error_handlers
        [error_550_is_directory env, error_550_permission_or_not_found env]
        (g_vfs_ftp_task_clear_error sent) file).error.isSome then
        (run_error_handlers
        [error_550_is_directory env, error_550_permission_or_not_found env]
        (g_vfs_ftp_task_clear_error sent) file).error
      else some e0 := by
    simp only [final, g_vfs_ftp_task_send_and_check, sent, he0, h550, if_true,
      g_vfs_ftp_task_is_in_error]
    split <;> rfl
  rw [hwalk] at hfinal
  have h2e := error_550_permission_or_not_found_error env
    (error_550_is_directory env (g_vfs_ftp_task_clear_error sent) file) file
  rw [h1w, h1c] at h2e
  change _ → _ = (match second.1 with
      | Lookup.found _ => some (GError.mk GIOErrorEnum.PERMISSION_DENIED "Insufficient permissions")
      | Lookup.missing _ => some (GError.mk GIOErrorEnum.NOT_FOUND "File does not exist")) at h2e
  change _ = (match first.1 with
      | Lookup.found info =>
        if info.file_type = GFileType.DIRECTORY then
          some (GError.mk GIOErrorEnum.IS_DIRECTORY "File is directory")
        else none
      | Lookup.missing _ => none) at h1e
  generalize error_550_is_directory env (g_vfs_ftp_task_clear_error sent) file = g at *
  generalize error_550_permission_or_not_found env g file = p at *
  clear_value second
  refine ⟨?_, ?_, ?_⟩
  · rintro ⟨info, hi, hd⟩
    rw [hi] at h1e
    simp only [hd, if_true] at h1e
    rw [hfinal]; simp [h1e]
  · intro hnd ⟨info, hi⟩
    have hg : g.error = none := by
      rw [h1e]
      rcases hf : first.1 with info1 | e1
      · have : ¬ info1.file_type = GFileType.DIRECTORY := fun hd => hnd ⟨info1, hf, hd⟩
        simp [this]
      · rfl
    rw [hi] at h2e
    rw [hfinal, hg]
    simp [h2e hg]
  · intro hnd hmiss
    have hg : g.error = none := by
      rw [h1e]
      rcases hf : first.1 with info1 | e1
      · have : ¬ info1.file_type = GFileType.DIRECTORY := fun hd => hnd ⟨info1, hf, hd⟩
        simp [this]
      · rfl
    rw [hfinal, hg]
    rcases hs : second.1 with info2 | e2
    · exact absurd hs (hmiss info2)
    · rw [hs] at h2e
      simp [h2e hg]

/-- C1 on the scripted server: RETR of the directory `/pub/b` is answered 550
with the generic error recorded, and the chain ends in IS_DIRECTORY. -/
theorem send_and_check_550_open_read_handlers_witness :
    (g_vfs_ftp_task_send server_env
      (G_VFS_FTP_TASK_INIT (fresh_backend none) ⟨[reply_550], server_files⟩)
      33 "RETR %s" [some "/pub/b"]).1 = 550 ∧
    g_vfs_ftp_task_is_in_error (g_vfs_ftp_task_send server_env
      (G_VFS_FTP_TASK_INIT (fresh_backend none) ⟨[reply_550], server_files⟩)
      33 "RETR %s" [some "/pub/b"]).2 = true ∧
    (g_vfs_ftp_task_send_and_check server_env
      (G_VFS_FTP_TASK_INIT (fresh_backend none) ⟨[reply_550], server_files⟩) 33
      [error_550_is_directory server_env, error_550_permission_or_not_found server_env]
      ["pub", "b"] "RETR %s" [some "/pub/b"]).2.error =
        some ⟨GIOErrorEnum.IS_DIRECTORY, "File is directory"⟩ :=
  ⟨by decide, by decide,
    (send_and_check_550_open_read_handlers server_env
      (G_VFS_FTP_TASK_INIT (fresh_backend none) ⟨[reply_550], server_files⟩) 33
      ["pub", "b"] "RETR %s" [some "/pub/b"] (by decide) (by decide)).1
      ⟨directory "b", by decide, by decide⟩⟩

/-! ## Workaround and feature bits -/

theorem shl1_of_lt {n : Nat} (h : n < 32) : shl1 n = 2 ^ n := by
  unfold shl1
  rw [Nat.one_shiftLeft]
  exact Nat.mod_eq_of_lt (Nat.pow_lt_pow_right (by norm_num) h)

theorem shl1_of_ge {n : Nat} (h : 32 ≤ n) : shl1 n = 0 := by
  unfold shl1
  rw [Nat.one_shiftLeft]
  exact Nat.mod_eq_zero_of_dvd (Nat.pow_dvd_pow 2 h)

theorem testBit_shl1 (n i : Nat) : (shl1 n).testBit i = decide (n < 32 ∧ n = i) := by
  by_cases h : n < 32
  · rw [shl1_of_lt h, Nat.testBit_two_pow]
    simp [h]
  · rw [shl1_of_ge (Nat.le_of_not_lt h)]
    simp [h]

theorem and_shl1_ne_zero (x : Nat) {n : Nat} (h : n < 32) :
    ((x &&& shl1 n) != 0) = x.testBit n := by
  rw [shl1_of_lt h, Nat.and_two_pow]
  cases x.testBit n <;> simp

theorem has_feature_eq (ftp : GVfsBackendFtp F) (feature : Nat) :
    g_vfs_backend_ftp_has_feature ftp feature =
      (decide (feature < 32) && ftp.features.testBit feature) := by
  unfold g_vfs_backend_ftp_has_feature
  by_cases h : feature < 32
  · simp [h, and_shl1_ne_zero]
  · simp [h]

theorem uses_workaround_eq (ftp : GVfsBackendFtp F) (workaround : Nat) :
    g_vfs_backend_ftp_uses_workaround ftp workaround =
      (decide (workaround < 32) && ftp.workarounds.testBit workaround) := by
  unfold g_vfs_backend_ftp_uses_workaround
  by_cases h : workaround < 32
  · simp [h, and_shl1_ne_zero]
  · simp [h]

theorem or_shl1_of_testBit {x n : Nat} (hb : x.testBit n = true) :
    x ||| shl1 n = x := by
  apply Nat.eq_of_testBit_eq
  intro i
  rw [Nat.testBit_or, testBit_shl1]
  by_cases hi : n = i
  · subst hi; simp [hb]
  · simp [hi]

theorem use_workaround_loop_eq (fuel workarounds : Nat) {n : Nat} (h : n < 32) :
    use_workaround_loop (shl1 n) (fuel + 1) workarounds = some (workarounds ||| shl1 n) := by
  unfold use_workaround_loop
  by_cases hz : workarounds &&& shl1 n = 0
  · simp [hz, g_atomic_int_compare_and_exchange]
  · simp only [hz, if_false]
    have hb : workarounds.testBit n = true := by
      have := and_shl1_ne_zero workarounds h
      rw [← this]
      simpa using hz
    rw [or_shl1_of_testBit hb]

theorem use_workaround_eq (fuel : Nat) (ftp : GVfsBackendFtp F) {n : Nat} (h : n < 32) :
    g_vfs_backend_ftp_use_workaround (fuel + 1) ftp n =
      some { ftp with workarounds := ftp.workarounds ||| shl1 n } := by
  unfold g_vfs_backend_ftp_use_workaround
  simp [h, use_workaround_loop_eq]

/-- C5. For every workaround index below 32, 31 included, and every earlier
state of the workaround word, the workaround is reported as used once
`g_vfs_backend_ftp_use_workaround` has returned. -/
theorem uses_workaround_after_use_workaround (fuel : Nat) (ftp : GVfsBackendFtp F)
    (workaround : Nat) (h : workaround < 32) :
    ∃ ftp1, g_vfs_backend_ftp_use_workaround (fuel + 1) ftp workaround = some ftp1 ∧
      g_vfs_backend_ftp_uses_workaround ftp1 workaround = true := by
  refine ⟨_, use_workaround_eq fuel ftp h, ?_⟩
  rw [uses_workaround_eq]
  simp [h, testBit_shl1]

/-- C5 on a fresh backend and on one whose word is full, at index 31. -/
theorem uses_workaround_after_use_workaround_witness :
    31 < 32 ∧
    ∃ ftp1, g_vfs_backend_ftp_use_workaround (0 + 1) (fresh_backend none) 31 = some ftp1 ∧
      g_vfs_backend_ftp_uses_workaround ftp1 31 = true :=
  ⟨by decide, uses_workaround_after_use_workaround 0 (fresh_backend none) 31 (by decide)⟩

/-- C6. With an index below 32, `g_vfs_backend_ftp_use_workaround` ends after
one turn of its loop, whatever fuel it is given beyond that, and leaves the
word equal to the old one or-ed with `1 << workaround`: the bits that were set
stay set, no bit other than `workaround` changes, and a second call changes
nothing. -/
theorem use_workaround_sets_one_bit (fuel : Nat) (ftp : GVfsBackendFtp F)
    (workaround : Nat) (h : workaround < 32) :
    ∃ ftp1, g_vfs_backend_ftp_use_workaround (fuel + 1) ftp workaround = some ftp1 ∧
      ftp1.workarounds = ftp.workarounds ||| shl1 workaround ∧
      shl1 workaround = 2 ^ workaround ∧
      (∀ i, ftp.workarounds.testBit i = true → ftp1.workarounds.testBit i = true) ∧
      (∀ i, i ≠ workaround → ftp1.workarounds.testBit i = ftp.workarounds.testBit i) ∧
      ftp1.workarounds.testBit workaround = true ∧
      g_vfs_backend_ftp_use_workaround (fuel + 1) ftp1 workaround = some ftp1 := by
  refine ⟨_, use_workaround_eq fuel ftp h, rfl, shl1_of_lt h, ?_, ?_, ?_, ?_⟩
  · intro i hi
    simp [hi]
  · intro i hi
    simp [testBit_shl1, Ne.symm hi]
  · simp [testBit_shl1, h]
  · rw [use_workaround_eq fuel _ h]
    simp only [Option.some.injEq]
    have : (ftp.workarounds ||| shl1 workaround) ||| shl1 workaround =
        ftp.workarounds ||| shl1 workaround := by
      rw [Nat.lor_assoc, Nat.or_self]
    simp [this]

/-- C6 at index 31 on a word that has bit 0 set. -/
theorem use_workaround_sets_one_bit_witness :
    31 < 32 ∧
    ∃ ftp1, g_vfs_backend_ftp_use_workaround (0 + 1)
        { fresh_backend none with workarounds := 1 } 31 = some ftp1 ∧
      ftp1.workarounds = 1 ||| shl1 31 ∧
      shl1 31 = 2 ^ 31 ∧
      (∀ i, (1 : Nat).testBit i = true → ftp1.workarounds.testBit i = true) ∧
      (∀ i, i ≠ 31 → ftp1.workarounds.testBit i = (1 : Nat).testBit i) ∧
      ftp1.workarounds.testBit 31 = true ∧
      g_vfs_backend_ftp_use_workaround (0 + 1) ftp1 31 = some ftp1 :=
  ⟨by decide, use_workaround_sets_one_bit 0 { fresh_backend none with workarounds := 1 } 31
    (by decide)⟩

/-! ## Feature discovery -/

theorem char_toNat_inj {a b : Char} (h : a.toNat = b.toNat) : a = b := by
  apply Char.ext
  exact UInt32.ext (by simpa [Char.toNat, UInt32.toNat] using h)

theorem char_toNat_ne_zero {c : Char} (h : c ≠ Char.ofNat 0) : (c.toNat : Int) ≠ 0 := by
  intro hz
  apply h
  apply char_toNat_inj
  have : c.toNat = 0 := by exact_mod_cast hz
  rw [this]; rfl

theorem strcasecmp_eq_zero_iff (a b : List Char) (ha : Char.ofNat 0 ∉ a)
    (hb : Char.ofNat 0 ∉ b) :
    g_ascii_strcasecmp a b = 0 ↔ a.map g_ascii_tolower = b.map g_ascii_tolower := by
  induction a generalizing b with
  | nil =>
    cases b with
    | nil => simp [g_ascii_strcasecmp]
    | cons c2 s2 =>
      have h2 : c2 ≠ Char.ofNat 0 := fun h => hb (by simp [h])
      have := char_toNat_ne_zero h2
      simp only [g_ascii_strcasecmp, List.map_nil, List.map_cons]
      constructor
      · intro h; omega
      · intro h; cases h
  | cons c1 s1 ih =>
    cases b with
    | nil =>
      have h1 : c1 ≠ Char.ofNat 0 := fun h => ha (by simp [h])
      have := char_toNat_ne_zero h1
      simp only [g_ascii_strcasecmp, List.map_nil, List.map_cons]
      constructor
      · intro h; omega
      · intro h; cases h
    | cons c2 s2 =>
      have ha1 : Char.ofNat 0 ∉ s1 := fun h => ha (List.mem_cons_of_mem _ h)
      have hb1 : Char.ofNat 0 ∉ s2 := fun h => hb (List.mem_cons_of_mem _ h)
      by_cases hc : g_ascii_tolower c1 = g_ascii_tolower c2
      · simp [g_ascii_strcasecmp, hc, ih s2 ha1 hb1]
      · simp only [g_ascii_strcasecmp, ne_eq, hc, not_false_eq_true, if_true, List.map_cons,
          List.cons.injEq, false_and, iff_false]
        intro h
        apply hc
        apply char_toNat_inj
        omega

theorem determine_features_match_testBit (feature : List Char) (table : List (List Char × Nat))
    (task : GVfsFtpTask F W) (i : Nat) :
    (determine_features_match feature table task).backend.features.testBit i =
      (task.backend.features.testBit i ||
        table.any (fun e => decide (g_ascii_strcasecmp feature e.1 = 0) &&
          (shl1 e.2).testBit i)) := by
  induction table generalizing task with
  | nil => simp [determine_features_match]
  | cons e rest ih =>
    unfold determine_features_match
    by_cases h : g_ascii_strcasecmp feature e.1 = 0
    · simp only [h, if_true, ih, List.any_cons, decide_True, Bool.true_and]
      simp [set_features, Bool.or_assoc]
    · simp [h, ih]

theorem determine_features_lines_testBit (hdr : Header) (lines : List (List Char))
    (task : GVfsFtpTask F W) (i : Nat) :
    (determine_features_lines hdr lines task).backend.features.testBit i =
      (task.backend.features.testBit i ||
        lines.any (fun line => decide (line.head? = some ' ') &&
          (features hdr).any (fun e =>
            decide (g_ascii_strcasecmp ((line.drop 1).dropWhile g_ascii_isspace) e.1 = 0) &&
              (shl1 e.2).testBit i))) := by
  induction lines generalizing task with
  | nil => simp [determine_features_lines]
  | cons line rest ih =>
    unfold determine_features_lines
    by_cases h : line.head? = some ' '
    · simp only [h, ne_eq, not_true_eq_false, if_false, ih, determine_features_match_testBit,
        List.any_cons, decide_True, Bool.true_and, Bool.or_assoc]
    · simp [h, ih]

theorem dropWhile_isspace_of_head {line : List Char} (h : line.head? = some ' ') :
    (line.drop 1).dropWhile g_ascii_isspace = line.dropWhile g_ascii_isspace := by
  cases line with
  | nil => simp at h
  | cons c rest =>
    simp only [List.head?_cons, Option.some.injEq] at h
    subst h
    simp [List.dropWhile, g_ascii_isspace]

theorem features_names_no_nul (hdr : Header) :
    ∀ e ∈ features hdr, Char.ofNat 0 ∉ e.1 := by
  intro e he
  simp only [features, List.mem_cons, List.mem_singleton, List.not_mem_nil, or_false] at he
  rcases he with h | h | h | h | h <;> subst h <;> show Char.ofNat 0 ∉ String.toList _ <;> decide

theorem matched_iff_announces {line name : List Char} (hl : Char.ofNat 0 ∉ line)
    (hn : Char.ofNat 0 ∉ name) :
    (line.head? = some ' ' ∧
      g_ascii_strcasecmp ((line.drop 1).dropWhile g_ascii_isspace) name = 0) ↔
      announces line name = true := by
  unfold announces
  simp only [Bool.and_eq_true, beq_iff_eq]
  constructor
  · rintro ⟨hh, hc⟩
    refine ⟨hh, ?_⟩
    rw [dropWhile_isspace_of_head hh] at hc
    exact (strcasecmp_eq_zero_iff _ _
      (fun h => hl ((List.dropWhile_sublist _).subset h)) hn).mp hc
  · rintro ⟨hh, hc⟩
    refine ⟨hh, ?_⟩
    rw [dropWhile_isspace_of_head hh]
    exact (strcasecmp_eq_zero_iff _ _
      (fun h => hl ((List.dropWhile_sublist _).subset h)) hn).mpr hc

theorem determine_features_testBit (env : FtpEnv F W) (task : GVfsFtpTask F W)
    (hnul : ∀ line ∈ (g_vfs_ftp_task_sendv env task 0 "FEAT" []).2.1, Char.ofNat 0 ∉ line)
    (hok : (gvfs_backend_ftp_determine_features env task).1 = true) (i : Nat) :
    (gvfs_backend_ftp_determine_features env task).2.backend.features.testBit i = true ↔
      ∃ e ∈ features env.hdr, e.2 < 32 ∧ e.2 = i ∧
        ∃ line ∈ (g_vfs_ftp_task_sendv env task 0 "FEAT" []).2.1.drop 1,
          announces line e.1 = true := by
  unfold gvfs_backend_ftp_determine_features at hok ⊢
  by_cases hr : (g_vfs_ftp_task_sendv env task 0 "FEAT" []).1 = 0
  · simp [hr] at hok
  · simp only [hr, if_false, determine_features_lines_testBit]
    have hz : (set_features (g_vfs_ftp_task_sendv env task 0 "FEAT" []).2.2 0).backend.features
        = 0 := rfl
    rw [hz]
    simp only [Nat.zero_testBit, Bool.false_or, List.any_eq_true, Bool.and_eq_true,
      decide_eq_true_eq, testBit_shl1]
    constructor
    · rintro ⟨line, hline, hh, e, he, hc, hlt, hi⟩
      have hl := hnul line (List.mem_of_mem_drop hline)
      exact ⟨e, he, hlt, hi, line, hline,
        (matched_iff_announces hl (features_names_no_nul _ e he)).mp ⟨hh, hc⟩⟩
    · rintro ⟨e, he, hlt, hi, line, hline, ha⟩
      have hl := hnul line (List.mem_of_mem_drop hline)
      have := (matched_iff_announces hl (features_names_no_nul _ e he)).mpr ha
      exact ⟨line, hline, this.1, e, he, this.2, hlt, hi⟩

theorem features_flag_inj {hdr : Header} (h : hdr.features_wf) {e1 e2 : List Char × Nat}
    (h1 : e1 ∈ features hdr) (h2 : e2 ∈ features hdr) (heq : e1.2 = e2.2) : e1 = e2 := by
  have hnodup : ((features hdr).map Prod.snd).Nodup := h.1
  exact List.inj_on_of_nodup_map hnodup h1 h2 heq

theorem features_flag_lt {hdr : Header} (h : hdr.features_wf) {e : List Char × Nat}
    (he : e ∈ features hdr) : e.2 < 32 :=
  h.2 e.2 (List.mem_map_of_mem Prod.snd he)

/-- C3. In `do_mount`, when the pre-login FEAT fails, the mount goes on: the
pre-login block ends with the task's error cleared, the feature word 0, so
that no feature is reported, and the FEAT_AFTER_LOGIN workaround in use, and
`do_mount` continues with the login from that state. -/
theorem do_mount_pre_login_feat_failure (env : FtpEnv F W) (fuel : Nat)
    (ftp : GVfsBackendFtp F) (world : W)
    (hw : env.hdr.WORKAROUND_FEAT_AFTER_LOGIN < 32)
    (hconn : (do_mount_connect env ftp world).conn ≠ none)
    (hfail : (gvfs_backend_ftp_determine_features env
      (g_vfs_ftp_task_receive env (do_mount_connect env ftp world) 0).2).1 = false) :
    ∃ task, do_mount_pre_login env (fuel + 1) (do_mount_connect env ftp world) = some task ∧
      g_vfs_ftp_task_is_in_error task = false ∧
      task.backend.features = 0 ∧
      (∀ feature, g_vfs_backend_ftp_has_feature task.backend feature = false) ∧
      g_vfs_backend_ftp_uses_workaround task.backend env.hdr.WORKAROUND_FEAT_AFTER_LOGIN
        = true ∧
      do_mount env (fuel + 1) ftp world =
        (do_mount_login env (fuel + 1) task).map (fun r =>
          do_mount_finish env task.backend.addr r.1 (do_mount_post_login env r.2)) := by
  have hpre : do_mount_pre_login env (fuel + 1) (do_mount_connect env ftp world) =
      some (set_features
        { g_vfs_ftp_task_clear_error (gvfs_backend_ftp_determine_features env
            (g_vfs_ftp_task_receive env (do_mount_connect env ftp world) 0).2).2 with
          backend := { (gvfs_backend_ftp_determine_features env
            (g_vfs_ftp_task_receive env (do_mount_connect env ftp world) 0).2).2.backend with
            workarounds := (gvfs_backend_ftp_determine_features env
              (g_vfs_ftp_task_receive env (do_mount_connect env ftp world) 0).2).2.backend.workarounds
                ||| shl1 env.hdr.WORKAROUND_FEAT_AFTER_LOGIN } } 0) := by
    unfold do_mount_pre_login
    simp only [hfail, Bool.false_eq_true, not_false_eq_true, if_true]
    rw [use_workaround_eq fuel _ hw]
    rfl
  refine ⟨_, hpre, rfl, rfl, ?_, ?_, ?_⟩
  · intro feature
    rw [has_feature_eq]
    simp [set_features]
  · rw [uses_workaround_eq]
    simp [set_features, log, g_vfs_ftp_task_clear_error, testBit_shl1, hw]
  · unfold do_mount
    simp only [hconn, if_false, hpre]
    cases do_mount_login env (fuel + 1) _ <;> rfl

/-- C3 on the scripted server: FEAT is refused before the login of the
anonymous user, the pre-login block ends as stated, and the mount succeeds. -/
theorem do_mount_pre_login_feat_failure_witness :
    server_env.hdr.WORKAROUND_FEAT_AFTER_LOGIN < 32 ∧
    (do_mount_connect server_env (fresh_backend (some "anonymous"))
      server_feat_after_login).conn ≠ none ∧
    (gvfs_backend_ftp_determine_features server_env
      (g_vfs_ftp_task_receive server_env (do_mount_connect server_env
        (fresh_backend (some "anonymous")) server_feat_after_login) 0).2).1 = false ∧
    (do_mount server_env (0 + 1) (fresh_backend (some "anonymous"))
      server_feat_after_login).map (fun task => task.error) = some none ∧
    ∃ task, do_mount_pre_login server_env (0 + 1) (do_mount_connect server_env
        (fresh_backend (some "anonymous")) server_feat_after_login) = some task ∧
      g_vfs_ftp_task_is_in_error task = false ∧
      task.backend.features = 0 ∧
      (∀ feature, g_vfs_backend_ftp_has_feature task.backend feature = false) ∧
      g_vfs_backend_ftp_uses_workaround task.backend
        server_env.hdr.WORKAROUND_FEAT_AFTER_LOGIN = true ∧
      do_mount server_env (0 + 1) (fresh_backend (some "anonymous")) server_feat_after_login =
        (do_mount_login server_env (0 + 1) task).map (fun r =>
          do_mount_finish server_env task.backend.addr r.1
            (do_mount_post_login server_env r.2)) :=
  ⟨by decide, by decide, by decide, by decide,
    do_mount_pre_login_feat_failure server_env 0 (fresh_backend (some "anonymous"))
      server_feat_after_login (by decide) (by decide) (by decide)⟩

/-! ## Dialect detection -/

theorem strncasecmp_eq_zero_iff (s id : List Char) (hid : Char.ofNat 0 ∉ id) :
    g_ascii_strncasecmp s id (strlen id) = 0 ↔ starts_with_ignoring_case s id = true := by
  unfold starts_with_ignoring_case strlen
  induction id generalizing s with
  | nil => cases s <;> simp [g_ascii_strncasecmp]
  | cons c2 s2 ih =>
    have h2 : c2 ≠ Char.ofNat 0 := fun h => hid (by simp [h])
    have hid2 : Char.ofNat 0 ∉ s2 := fun h => hid (List.mem_cons_of_mem _ h)
    cases s with
    | nil =>
      have := char_toNat_ne_zero h2
      simp only [List.length_cons, g_ascii_strncasecmp, List.take_nil, List.map_nil,
        List.map_cons, beq_iff_eq]
      constructor
      · intro h; omega
      · intro h; cases h
    | cons c1 s1 =>
      by_cases hc : g_ascii_tolower c1 = g_ascii_tolower c2
      · have := ih s1 hid2
        simp only [beq_iff_eq] at this
        simp [g_ascii_strncasecmp, hc, this]
      · simp only [List.length_cons, g_ascii_strncasecmp, ne_eq, hc, not_false_eq_true,
          if_true, List.take_succ_cons, List.map_cons, beq_iff_eq, List.cons.injEq, false_and,
          iff_false]
        intro h
        apply hc
        apply char_toNat_inj
        omega

theorem determine_system_loop_system (system_name : List Char) (table : List KnownSystem)
    (htable : ∀ e ∈ table, Char.ofNat 0 ∉ e.id) (task : GVfsFtpTask F W) :
    (determine_system_loop system_name table task).backend.system =
      match table.find? (fun e => starts_with_ignoring_case system_name e.id) with
      | some e => e.system
      | none => task.backend.system := by
  induction table with
  | nil => rfl
  | cons e rest ih =>
    unfold determine_system_loop
    have he := strncasecmp_eq_zero_iff system_name e.id (htable e (by simp))
    by_cases h : starts_with_ignoring_case system_name e.id = true
    · simp [he.mpr h, h, List.find?]
    · have h0 : ¬ g_ascii_strncasecmp system_name e.id (strlen e.id) = 0 := fun hz => h (he.mp hz)
      simp only [h0, if_false]
      rw [ih (fun e1 h1 => htable e1 (List.mem_cons_of_mem _ h1))]
      simp [List.find?, h]

/-- C4. When SYST is answered, `gvfs_backend_ftp_determine_system` sets the
system to UNIX if the first reply line, after its 4-character status, starts
with "UNIX " up to ASCII case; otherwise to WINDOWS if it starts with
"WINDOWS_NT " so; otherwise it leaves the system as it was. This is the first
entry of `known_systems` that matches, later ones not being looked at. -/
theorem determine_system_first_match (env : FtpEnv F W) (task : GVfsFtpTask F W)
    (herr : g_vfs_ftp_task_is_in_error task = false)
    (hok : (env.sendv task.world task.error 0 ⟨"SYST", []⟩).1.response ≠ 0) :
    let system_name := ((env.sendv task.world task.error 0 ⟨"SYST", []⟩).1.lines.headD []).drop 4
    (gvfs_backend_ftp_determine_system env task).backend.system =
      (match known_systems.find? (fun e => starts_with_ignoring_case system_name e.id) with
        | some e => e.system
        | none => task.backend.system) ∧
    (gvfs_backend_ftp_determine_system env task).backend.system =
      (if starts_with_ignoring_case system_name "UNIX ".toList then GVfsFtpSystem.UNIX
        else if starts_with_ignoring_case system_name "WINDOWS_NT ".toList then
          GVfsFtpSystem.WINDOWS
        else task.backend.system) := by
  intro system_name
  have hloop : (gvfs_backend_ftp_determine_system env task).backend.system =
      (determine_system_loop system_name known_systems
        (g_vfs_ftp_task_sendv env task 0 "SYST" []).2.2).backend.system := by
    unfold gvfs_backend_ftp_determine_system
    simp only [herr, Bool.false_eq_true, if_false]
    have : ¬ (g_vfs_ftp_task_sendv env task 0 "SYST" []).1 = 0 := hok
    simp only [this, if_false]
    rfl
  have htable : ∀ e ∈ known_systems, Char.ofNat 0 ∉ e.id := by
    intro e he
    simp only [known_systems, List.mem_cons, List.mem_singleton, List.not_mem_nil,
      or_false] at he
    rcases he with h | h <;> subst h <;> show Char.ofNat 0 ∉ String.toList _ <;> decide
  have hfind := determine_system_loop_system system_name known_systems htable
    (g_vfs_ftp_task_sendv env task 0 "SYST" []).2.2
  have hsame : (g_vfs_ftp_task_sendv env task 0 "SYST" []).2.2.backend.system =
      task.backend.system := rfl
  rw [hsame] at hfind
  refine ⟨hloop.trans hfind, ?_⟩
  rw [hloop, hfind]
  have hfirst : List.find? (fun e => starts_with_ignoring_case system_name e.id) known_systems =
      (match starts_with_ignoring_case system_name "UNIX ".toList with
        | true => some ⟨"UNIX ".toList, GVfsFtpSystem.UNIX, "Unix"⟩
        | false =>
          match starts_with_ignoring_case system_name "WINDOWS_NT ".toList with
          | true => some ⟨"WINDOWS_NT ".toList, GVfsFtpSystem.WINDOWS, "Windows NT"⟩
          | false => none) := rfl
  rw [hfirst]
  generalize starts_with_ignoring_case system_name "UNIX ".toList = u1
  generalize starts_with_ignoring_case system_name "WINDOWS_NT ".toList = u2
  cases u1 <;> cases u2 <;> rfl

/-- C4 on the scripted server: the reply `215 Unix Type: L8` makes the system
UNIX. -/
theorem determine_system_first_match_witness :
    g_vfs_ftp_task_is_in_error (G_VFS_FTP_TASK_INIT (fresh_backend none)
      (⟨[⟨215, ["215 Unix Type: L8".toList], none⟩], server_files⟩ : Server)) = false ∧
    (server_env.sendv (⟨[⟨215, ["215 Unix Type: L8".toList], none⟩], server_files⟩ : Server)
      none 0 ⟨"SYST", []⟩).1.response ≠ 0 ∧
    (gvfs_backend_ftp_determine_system server_env (G_VFS_FTP_TASK_INIT (fresh_backend none)
      (⟨[⟨215, ["215 Unix Type: L8".toList], none⟩], server_files⟩ : Server))).backend.system
      = GVfsFtpSystem.UNIX :=
  ⟨by decide, by decide,
    (determine_system_first_match server_env (G_VFS_FTP_TASK_INIT (fresh_backend none)
      (⟨[⟨215, ["215 Unix Type: L8".toList], none⟩], server_files⟩ : Server))
      (by decide) (by decide)).2.trans (by decide)⟩

/-! ## Mounting: the feature word only grows -/

theorem bits_subset_refl (a : Nat) : bits_subset a a := fun _ h => h

theorem bits_subset_trans {a b c : Nat} (h1 : bits_subset a b) (h2 : bits_subset b c) :
    bits_subset a c := fun i h => h2 i (h1 i h)

theorem bits_subset_or (a b : Nat) : bits_subset a (a ||| b) := by
  intro i h
  simp [h]

theorem zero_bits_subset (a : Nat) : bits_subset 0 a := by
  intro i h
  simp at h

theorem features_written_append (t1 t2 : List (Event F)) :
    features_written (t1 ++ t2) = features_written t1 ++ features_written t2 := by
  simp [features_written, List.filterMap_append]

theorem SameFlags.refl (task : GVfsFtpTask F W) : SameFlags task task := ⟨rfl, rfl, rfl⟩

theorem SameFlags.trans {t1 t2 t3 : GVfsFtpTask F W} (h1 : SameFlags t1 t2)
    (h2 : SameFlags t2 t3) : SameFlags t1 t3 :=
  ⟨h2.1.trans h1.1, h2.2.1.trans h1.2.1, h2.2.2.trans h1.2.2⟩

theorem FeaturesGrow.same {start : Nat} {t1 t2 : GVfsFtpTask F W} (h : FeaturesGrow start t1)
    (hs : SameFlags t1 t2) : FeaturesGrow start t2 := by
  unfold FeaturesGrow at *
  rw [hs.1, hs.2.1]
  exact h

theorem FeaturesGrow.write {start : Nat} {task : GVfsFtpTask F W}
    (h : FeaturesGrow start task) {value : Nat}
    (hv : bits_subset task.backend.features value) :
    FeaturesGrow start (set_features task value) := by
  unfold FeaturesGrow at *
  have htrace : features_written (set_features task value).trace =
      features_written task.trace ++ [value] := by
    simp [set_features, log, features_written_append, features_written]
  rw [htrace, ← List.cons_append]
  constructor
  · rw [List.chain'_append]
    refine ⟨h.1, List.chain'_singleton _, ?_⟩
    intro x hx y hy
    rw [h.2] at hx
    simp only [Option.mem_def, Option.some.injEq, List.head?_cons] at hx hy
    subst hx; subst hy
    exact hv
  · rw [List.getLast?_concat]
    rfl

theorem set_features_workarounds (task : GVfsFtpTask F W) (value : Nat) :
    (set_features task value).backend.workarounds = task.backend.workarounds := rfl

theorem determine_features_match_grow {start : Nat} (feature : List Char)
    (table : List (List Char × Nat)) (task : GVfsFtpTask F W) (h : FeaturesGrow start task) :
    FeaturesGrow start (determine_features_match feature table task) ∧
      (determine_features_match feature table task).backend.workarounds =
        task.backend.workarounds := by
  induction table generalizing task with
  | nil => exact ⟨h, rfl⟩
  | cons e rest ih =>
    unfold determine_features_match
    by_cases hc : g_ascii_strcasecmp feature e.1 = 0
    · simp only [hc, if_true]
      exact ih _ (h.write (bits_subset_or _ _))
    · simp only [hc, if_false]
      exact ih _ h

theorem determine_features_lines_grow {start : Nat} (hdr : Header) (lines : List (List Char))
    (task : GVfsFtpTask F W) (h : FeaturesGrow start task) :
    FeaturesGrow start (determine_features_lines hdr lines task) ∧
      (determine_features_lines hdr lines task).backend.workarounds =
        task.backend.workarounds := by
  induction lines generalizing task with
  | nil => exact ⟨h, rfl⟩
  | cons line rest ih =>
    unfold determine_features_lines
    by_cases hh : line.head? = some ' '
    · simp only [hh, ne_eq, not_true_eq_false, if_false]
      have hm := determine_features_match_grow
        ((line.drop 1).dropWhile g_ascii_isspace) (features hdr) task h
      have := ih _ hm.1
      exact ⟨this.1, this.2.trans hm.2⟩
    · simp only [hh, ne_eq, not_false_eq_true, if_true]
      exact ih _ h

theorem sendv_same (env : FtpEnv F W) (task : GVfsFtpTask F W) (flags : Nat) (format : String)
    (args : List (Option String)) :
    SameFlags task (g_vfs_ftp_task_sendv env task flags format args).2.2 := by
  refine ⟨rfl, ?_, rfl⟩
  simp [g_vfs_ftp_task_sendv, log, features_written_append, features_written]

theorem receive_same (env : FtpEnv F W) (task : GVfsFtpTask F W) (flags : Nat) :
    SameFlags task (g_vfs_ftp_task_receive env task flags).2 := by
  refine ⟨rfl, ?_, rfl⟩
  simp [g_vfs_ftp_task_receive, log, features_written_append, features_written]

theorem determine_features_grow {start : Nat} (env : FtpEnv F W) (task : GVfsFtpTask F W)
    (h : FeaturesGrow start task) (hz : task.backend.features = 0) :
    FeaturesGrow start (gvfs_backend_ftp_determine_features env task).2 ∧
      (gvfs_backend_ftp_determine_features env task).2.backend.workarounds =
        task.backend.workarounds := by
  unfold gvfs_backend_ftp_determine_features
  have hs := sendv_same env task 0 "FEAT" []
  by_cases hr : (g_vfs_ftp_task_sendv env task 0 "FEAT" []).1 = 0
  · simp only [hr, if_true]
    exact ⟨h.same hs, hs.2.2⟩
  · simp only [hr, if_false]
    have h0 : FeaturesGrow start (set_features (g_vfs_ftp_task_sendv env task 0 "FEAT" []).2.2 0) := by
      apply (h.same hs).write
      rw [hs.1, hz]
      exact bits_subset_refl 0
    have := determine_features_lines_grow env.hdr
      ((g_vfs_ftp_task_sendv env task 0 "FEAT" []).2.1.drop 1) _ h0
    exact ⟨this.1, this.2.trans hs.2.2⟩

theorem determine_features_failed_same (env : FtpEnv F W) (task : GVfsFtpTask F W)
    (hfail : (gvfs_backend_ftp_determine_features env task).1 = false) :
    SameFlags task (gvfs_backend_ftp_determine_features env task).2 := by
  unfold gvfs_backend_ftp_determine_features at hfail ⊢
  by_cases hr : (g_vfs_ftp_task_sendv env task 0 "FEAT" []).1 = 0
  · simp only [hr, if_true]
    exact sendv_same env task 0 "FEAT" []
  · simp [hr] at hfail

theorem login_same (env : FtpEnv F W) (task : GVfsFtpTask F W) (username : String)
    (password : Option String) :
    SameFlags task (g_vfs_ftp_task_login env task username password).2 := by
  refine ⟨rfl, ?_, rfl⟩
  simp [g_vfs_ftp_task_login, log, features_written_append, features_written]

theorem do_mount_try_login_same (env : FtpEnv F W) (l : MountLocals) (task : GVfsFtpTask F W) :
    SameFlags task (do_mount_try_login env l task).2.2 := by
  unfold do_mount_try_login
  by_cases ha : l.anonymous = true
  · simp only [ha, if_true]
    split_ifs <;>
      exact ⟨rfl, by simp [g_vfs_ftp_task_login, log, features_written_append, features_written,
        g_vfs_ftp_task_clear_error], rfl⟩
  · simp only [ha, Bool.false_eq_true, if_false]
    split_ifs <;>
      exact ⟨rfl, by simp [g_vfs_ftp_task_login, log, features_written_append, features_written,
        g_vfs_ftp_task_clear_error], rfl⟩

theorem do_mount_ask_password_same (env : FtpEnv F W) (l : MountLocals)
    (task : GVfsFtpTask F W) : SameFlags task (do_mount_ask_password env l task).2.2 := by
  unfold do_mount_ask_password
  simp only
  split_ifs <;>
    exact ⟨rfl, by simp [task_set_error, log, features_written_append, features_written], rfl⟩

theorem do_mount_login_loop_same (env : FtpEnv F W) (fuel : Nat) (l : MountLocals)
    (task : GVfsFtpTask F W) (r : MountLocals × GVfsFtpTask F W)
    (h : do_mount_login_loop env fuel l task = some r) : SameFlags task r.2 := by
  induction fuel generalizing l task with
  | zero => simp [do_mount_login_loop] at h
  | succ fuel ih =>
    unfold do_mount_login_loop at h
    simp only at h
    have ha := do_mount_ask_password_same env l task
    have ht := do_mount_try_login_same env (do_mount_ask_password env l task).2.1
      (do_mount_ask_password env l task).2.2
    split_ifs at h with h1 h2
    · cases h
      exact ha
    · exact (ha.trans ht).trans (ih _ _ h)
    · cases h
      exact ha.trans ht

theorem do_mount_login_same (env : FtpEnv F W) (fuel : Nat) (task : GVfsFtpTask F W)
    (r : MountLocals × GVfsFtpTask F W) (h : do_mount_login env fuel task = some r) :
    SameFlags task r.2 := by
  unfold do_mount_login at h
  simp only at h
  split at h
  · have ht := do_mount_try_login_same env (by assumption) task
    split_ifs at h with h1
    · exact ht.trans (do_mount_login_loop_same env _ _ _ _ h)
    · cases h
      exact ht
  · exact do_mount_login_loop_same env _ _ _ _ h

theorem use_workaround_features (fuel : Nat) (ftp : GVfsBackendFtp F) (workaround : Nat)
    (ftp1 : GVfsBackendFtp F)
    (h : g_vfs_backend_ftp_use_workaround fuel ftp workaround = some ftp1) :
    ftp1.features = ftp.features := by
  unfold g_vfs_backend_ftp_use_workaround at h
  by_cases hn : workaround < 32
  · simp only [hn, not_true_eq_false, if_false, Option.map_eq_some'] at h
    obtain ⟨w, _, hw⟩ := h
    rw [← hw]
  · simp only [hn, not_false_eq_true, if_true, Option.some.injEq] at h
    rw [← h]

theorem do_mount_pre_login_grow (env : FtpEnv F W) (fuel : Nat) (task task1 : GVfsFtpTask F W)
    (hgrow : FeaturesGrow 0 task) (hf : task.backend.features = 0)
    (hw : task.backend.workarounds = 0)
    (h : do_mount_pre_login env fuel task = some task1) :
    FeaturesGrow 0 task1 ∧ (task1.backend.workarounds = 0 ∨ task1.backend.features = 0) := by
  unfold do_mount_pre_login at h
  simp only at h
  have hrecv := receive_same env task 0
  have hg1 : FeaturesGrow 0 (g_vfs_ftp_task_receive env task 0).2 := hgrow.same hrecv
  have hf1 : (g_vfs_ftp_task_receive env task 0).2.backend.features = 0 := hrecv.1.trans hf
  have hd := determine_features_grow env _ hg1 hf1
  by_cases hok : (gvfs_backend_ftp_determine_features env
      (g_vfs_ftp_task_receive env task 0).2).1 = true
  · simp only [hok, not_true_eq_false, if_false, Option.some.injEq] at h
    subst h
    exact ⟨hd.1, Or.inl (hd.2.trans (hrecv.2.2.trans hw))⟩
  · have hfalse : (gvfs_backend_ftp_determine_features env
        (g_vfs_ftp_task_receive env task 0).2).1 = false := by simpa using hok
    simp only [hfalse, Bool.false_eq_true, not_false_eq_true, if_true] at h
    have hsame := determine_features_failed_same env _ hfalse
    cases hu : g_vfs_backend_ftp_use_workaround fuel
        (g_vfs_ftp_task_clear_error (gvfs_backend_ftp_determine_features env
          (g_vfs_ftp_task_receive env task 0).2).2).backend
        env.hdr.WORKAROUND_FEAT_AFTER_LOGIN with
    | none => rw [hu] at h; cases h
    | some ftp1 =>
      rw [hu] at h
      simp only [Option.some.injEq] at h
      subst h
      refine ⟨?_, Or.inr rfl⟩
      have hws : ftp1.features = 0 :=
        (use_workaround_features _ _ _ _ hu).trans (hsame.1.trans hf1)
      have hbase : FeaturesGrow 0
          ({ g_vfs_ftp_task_clear_error (gvfs_backend_ftp_determine_features env
            (g_vfs_ftp_task_receive env task 0).2).2 with backend := ftp1 } :
            GVfsFtpTask F W) := by
        unfold FeaturesGrow
        have := hd.1
        unfold FeaturesGrow at this
        rw [hsame.1, hf1] at this
        simpa [g_vfs_ftp_task_clear_error, hws] using this
      apply hbase.write
      show bits_subset ftp1.features 0
      rw [hws]
      exact bits_subset_refl 0

theorem setup_connection_same (env : FtpEnv F W) (task : GVfsFtpTask F W) :
    SameFlags task (g_vfs_ftp_task_setup_connection env task) := by
  refine ⟨rfl, ?_, rfl⟩
  simp [g_vfs_ftp_task_setup_connection, log, features_written_append, features_written]

theorem determine_system_loop_same (system_name : List Char) (table : List KnownSystem)
    (task : GVfsFtpTask F W) :
    SameFlags task (determine_system_loop system_name table task) := by
  induction table with
  | nil => exact SameFlags.refl _
  | cons e rest ih =>
    unfold determine_system_loop
    split_ifs
    · exact ⟨rfl, rfl, rfl⟩
    · exact ih

theorem determine_system_same (env : FtpEnv F W) (task : GVfsFtpTask F W) :
    SameFlags task (gvfs_backend_ftp_determine_system env task) := by
  unfold gvfs_backend_ftp_determine_system
  have hs := sendv_same env task 0 "SYST" []
  simp only
  split_ifs
  · exact SameFlags.refl _
  · exact hs.trans ⟨rfl, rfl, rfl⟩
  · exact hs.trans (determine_system_loop_same _ _ _)

theorem do_mount_post_login_grow (env : FtpEnv F W) (task : GVfsFtpTask F W)
    (hgrow : FeaturesGrow 0 task)
    (h : task.backend.workarounds = 0 ∨ task.backend.features = 0) :
    FeaturesGrow 0 (do_mount_post_login env task) := by
  unfold do_mount_post_login
  simp only
  have hrest : ∀ t : GVfsFtpTask F W, FeaturesGrow 0 t →
      FeaturesGrow 0
        { gvfs_backend_ftp_determine_system env (g_vfs_ftp_task_setup_connection env t) with
          backend := gvfs_backend_ftp_setup_directory_cache
            (gvfs_backend_ftp_determine_system env
              (g_vfs_ftp_task_setup_connection env t)).backend } := by
    intro t ht
    have h1 := (setup_connection_same env t).trans (determine_system_same env _)
    exact (ht.same h1).same ⟨rfl, rfl, rfl⟩
  apply hrest
  have hzero : g_vfs_backend_ftp_uses_workaround task.backend
      env.hdr.WORKAROUND_FEAT_AFTER_LOGIN = true → task.backend.features = 0 := by
    intro hu
    rcases h with h | h
    · exfalso
      rw [uses_workaround_eq, h] at hu
      simp at hu
    · exact h
  split_ifs with hcond hok
  · exact (determine_features_grow env task hgrow (hzero hcond.1)).1
  · have hfalse : (gvfs_backend_ftp_determine_features env task).1 = false := by
      simpa using hok
    have hsame := determine_features_failed_same env task hfalse
    have hbase : FeaturesGrow 0
        (g_vfs_ftp_task_clear_error (gvfs_backend_ftp_determine_features env task).2) :=
      (hgrow.same hsame).same ⟨rfl, rfl, rfl⟩
    apply hbase.write
    show bits_subset (gvfs_backend_ftp_determine_features env task).2.backend.features _
    rw [hsame.1, hzero hcond.1]
    exact zero_bits_subset _
  · exact hgrow

theorem do_mount_finish_same (env : FtpEnv F W) (addr : Option GSocketConnectable)
    (l : MountLocals) (task : GVfsFtpTask F W) :
    SameFlags task (do_mount_finish env addr l task) := by
  unfold do_mount_finish
  simp only
  split_ifs <;> (try split) <;>
    exact ⟨rfl, by simp [g_vfs_ftp_task_done, log, features_written_append, features_written,
      task_set_error, g_vfs_ftp_task_clear_error], rfl⟩

theorem FeaturesGrow.pairwise {start : Nat} {task : GVfsFtpTask F W}
    (h : FeaturesGrow start task) :
    List.Pairwise bits_subset (start :: features_written task.trace) ∧
      (start :: features_written task.trace).getLast? = some task.backend.features := by
  haveI : IsTrans Nat bits_subset := ⟨fun _ _ _ h1 h2 => bits_subset_trans h1 h2⟩
  exact ⟨List.chain'_iff_pairwise.mp h.1, h.2⟩

theorem do_mount_connect_grow (env : FtpEnv F W) (ftp : GVfsBackendFtp F) (world : W) :
    FeaturesGrow ftp.features (do_mount_connect env ftp world) := by
  unfold FeaturesGrow
  simp [do_mount_connect, G_VFS_FTP_TASK_INIT, features_written]

/-- C7. Capability bits only turn on during a mount. When `do_mount` starts
from a backend whose feature word is 0 and that has no workaround enabled,
the values written to `ftp->features`, through the pre-login and the
post-login discovery and their failure paths, are such that each value, the
starting one included, is contained bit by bit in every later one, and the
last one is the word the backend ends with. This holds of the run up to the
end of the pre-login commands and of every completed run. -/
theorem do_mount_features_only_grow (env : FtpEnv F W) (fuel : Nat) (ftp : GVfsBackendFtp F)
    (world : W) (hf : ftp.features = 0) (hw : ftp.workarounds = 0) :
    (∀ task, do_mount_pre_login env fuel (do_mount_connect env ftp world) = some task →
      List.Pairwise bits_subset (ftp.features :: features_written task.trace) ∧
        (ftp.features :: features_written task.trace).getLast? = some task.backend.features) ∧
    (∀ task, do_mount env fuel ftp world = some task →
      List.Pairwise bits_subset (ftp.features :: features_written task.trace) ∧
        (ftp.features :: features_written task.trace).getLast? = some task.backend.features) := by
  have hconn := do_mount_connect_grow env ftp world
  rw [hf] at hconn ⊢
  have hcf : (do_mount_connect env ftp world).backend.features = 0 := hf
  have hcw : (do_mount_connect env ftp world).backend.workarounds = 0 := hw
  constructor
  · intro task h
    exact (do_mount_pre_login_grow env fuel _ task hconn hcf hcw h).1.pairwise
  · intro task h
    unfold do_mount at h
    simp only at h
    split_ifs at h with hc
    · cases h
      have : FeaturesGrow 0 (g_vfs_ftp_task_done (do_mount_connect env ftp world)) :=
        hconn.same ⟨rfl, by simp [g_vfs_ftp_task_done, log, features_written_append,
          features_written], rfl⟩
      exact this.pairwise
    · cases hpre : do_mount_pre_login env fuel (do_mount_connect env ftp world) with
      | none => rw [hpre] at h; cases h
      | some task1 =>
        rw [hpre] at h
        simp only at h
        have h1 := do_mount_pre_login_grow env fuel _ task1 hconn hcf hcw hpre
        cases hlogin : do_mount_login env fuel task1 with
        | none => rw [hlogin] at h; cases h
        | some r =>
          rw [hlogin] at h
          simp only [Option.some.injEq] at h
          subst h
          have hs := do_mount_login_same env fuel task1 r hlogin
          have h2 : FeaturesGrow 0 r.2 := h1.1.same hs
          have h3 : r.2.backend.workarounds = 0 ∨ r.2.backend.features = 0 := by
            rcases h1.2 with h | h
            · exact Or.inl (hs.2.2.trans h)
            · exact Or.inr (hs.1.trans h)
          have h4 := do_mount_post_login_grow env r.2 h2 h3
          exact (h4.same (do_mount_finish_same env _ _ _)).pairwise

/-- C7 on the scripted server that answers FEAT only after the login: the
feature word is written 0, 0, 1 and 17, and the mount ends with 17. -/
theorem do_mount_features_only_grow_witness :
    (fresh_backend (some "anonymous")).features = 0 ∧
    (fresh_backend (some "anonymous")).workarounds = 0 ∧
    ∃ task, do_mount server_env 1 (fresh_backend (some "anonymous")) server_feat_after_login
        = some task ∧
      features_written task.trace = [0, 0, 1, 17] ∧
      List.Pairwise bits_subset
        ((fresh_backend (some "anonymous")).features :: features_written task.trace) ∧
      ((fresh_backend (some "anonymous")).features :: features_written task.trace).getLast? =
        some task.backend.features :=
  ⟨rfl, rfl, _, rfl, by decide,
    (do_mount_features_only_grow server_env 1 (fresh_backend (some "anonymous"))
      server_feat_after_login rfl rfl).2 _ rfl⟩

/-! ## Cache invalidation -/

theorem do_start_write_sent (env : FtpEnv F W) (task : GVfsFtpTask F W) (format : String)
    (args : List (Option String)) :
    ∃ flags, Event.send flags ⟨format, args⟩ ∈ (do_start_write env task format args).trace := by
  refine ⟨env.hdr.PASS_100 ||| env.hdr.FAIL_200, ?_⟩
  unfold do_start_write
  simp only
  split_ifs <;>
    simp [g_vfs_ftp_task_sendv, g_vfs_ftp_task_open_data_connection,
      g_vfs_ftp_task_take_connection, log]

theorem send_trace (env : FtpEnv F W) (task : GVfsFtpTask F W) (flags : Nat) (format : String)
    (args : List (Option String)) :
    (g_vfs_ftp_task_send env task flags format args).2.trace =
      task.trace ++ [Event.send flags ⟨format, args⟩] := rfl

theorem lookup_file_trace (env : FtpEnv F W) (task : GVfsFtpTask F W) (file : F) (b : Bool) :
    (g_vfs_ftp_dir_cache_lookup_file env task file b).2.trace =
      task.trace ++ [Event.lookup_file file b] := by
  unfold g_vfs_ftp_dir_cache_lookup_file
  generalize env.lookup_file task.world task.backend.dir_cache task.error file b = r
  rcases r with ⟨(info | e), c, w⟩ <;> rfl

theorem lookup_dir_trace (env : FtpEnv F W) (task : GVfsFtpTask F W) (dir : F) (b1 b2 : Bool) :
    (g_vfs_ftp_dir_cache_lookup_dir env task dir b1 b2).2.trace =
      task.trace ++ [Event.lookup_dir dir b1 b2] := by
  unfold g_vfs_ftp_dir_cache_lookup_dir
  generalize env.lookup_dir task.world task.backend.dir_cache task.error dir b1 b2 = r
  rcases r with ⟨(info | e), c, w⟩ <;> rfl

theorem try_cd_trace (env : FtpEnv F W) (task : GVfsFtpTask F W) (file : F) :
    task.trace ⊆ (g_vfs_ftp_task_try_cd env task file).2.trace := by
  unfold g_vfs_ftp_task_try_cd g_vfs_ftp_task_cd
  simp only
  split_ifs <;>
    simp [send_trace, task_set_error, g_vfs_ftp_task_clear_error]

theorem error_550_exists_trace (env : FtpEnv F W) (task : GVfsFtpTask F W) (file : F) :
    task.trace ⊆ (error_550_exists env task file).trace := by
  unfold error_550_exists
  simp only
  split <;> simp [lookup_file_trace, task_set_error, g_vfs_ftp_task_clear_error]

theorem error_550_parent_not_found_trace (env : FtpEnv F W) (task : GVfsFtpTask F W)
    (file : F) : task.trace ⊆ (error_550_parent_not_found env task file).trace := by
  unfold error_550_parent_not_found
  simp only
  have := try_cd_trace env task (env.new_parent file)
  split_ifs <;> simp [task_set_error, this]

theorem run_error_handlers_trace (funcs : List (GVfsFtpErrorFunc F W))
    (hfuncs : ∀ func ∈ funcs, ∀ (t : GVfsFtpTask F W) (d : F), t.trace ⊆ (func t d).trace)
    (task : GVfsFtpTask F W) (data : F) :
    task.trace ⊆ (run_error_handlers funcs task data).trace := by
  induction funcs generalizing task with
  | nil => exact List.Subset.refl _
  | cons func rest ih =>
    unfold run_error_handlers
    split_ifs
    · exact List.Subset.refl _
    · exact List.Subset.trans (hfuncs func (by simp) task data)
        (ih (fun f hf => hfuncs f (List.mem_cons_of_mem _ hf)) _)

theorem send_and_check_sent (env : FtpEnv F W) (task : GVfsFtpTask F W) (flags : Nat)
    (funcs : List (GVfsFtpErrorFunc F W))
    (hfuncs : ∀ func ∈ funcs, ∀ (t : GVfsFtpTask F W) (d : F), t.trace ⊆ (func t d).trace)
    (data : F) (format : String) (args : List (Option String)) :
    Event.send flags ⟨format, args⟩ ∈
      (g_vfs_ftp_task_send_and_check env task flags funcs data format args).2.trace := by
  have hsent : Event.send flags ⟨format, args⟩ ∈
      (g_vfs_ftp_task_send env task flags format args).2.trace := by
    simp [send_trace]
  have hwalk := run_error_handlers_trace funcs hfuncs
    (g_vfs_ftp_task_clear_error (g_vfs_ftp_task_send env task flags format args).2) data
  unfold g_vfs_ftp_task_send_and_check
  simp only
  split
  · exact hsent
  · split_ifs
    · exact hwalk hsent
    · exact hwalk hsent
    · exact hsent

theorem try_cd_trace_eq (env : FtpEnv F W) (task : GVfsFtpTask F W) (file : F) :
    (g_vfs_ftp_task_try_cd env task file).2.trace =
      if g_vfs_ftp_task_is_in_error task then task.trace
      else task.trace ++ [Event.send env.hdr.PASS_550 ⟨"CWD %s", [some (env.get_ftp_path file)]⟩]
      := by
  unfold g_vfs_ftp_task_try_cd g_vfs_ftp_task_cd
  simp only
  split_ifs <;> simp [send_trace, task_set_error, g_vfs_ftp_task_clear_error]

section Purge

variable [DecidableEq F]

theorem dir_cache_entry_purge_dir (cache : GVfsFtpDirCache F) (dir : F) :
    dir_cache_entry (g_vfs_ftp_dir_cache_purge_dir cache dir) dir = none := by
  unfold dir_cache_entry g_vfs_ftp_dir_cache_purge_dir
  rw [Option.map_eq_none', List.find?_eq_none]
  intro e he
  have := (List.mem_filter.mp he).2
  simpa using this

theorem dir_cache_entry_purge_dir_of_none (cache : GVfsFtpDirCache F) (dir other : F)
    (h : dir_cache_entry cache dir = none) :
    dir_cache_entry (g_vfs_ftp_dir_cache_purge_dir cache other) dir = none := by
  unfold dir_cache_entry g_vfs_ftp_dir_cache_purge_dir at *
  rw [Option.map_eq_none', List.find?_eq_none] at *
  intro e he
  exact h e (List.mem_filter.mp he).1

theorem purged_after_of_send (env : FtpEnv F W) (command : Command) (file : F)
    (task : GVfsFtpTask F W) (h : ∃ flags, Event.send flags command ∈ task.trace) :
    purged_after env command file (g_vfs_ftp_task_done (purge_file env task file)) := by
  refine ⟨⟨task.trace, ?_, h⟩, ?_⟩
  · simp [g_vfs_ftp_task_done, purge_file, log]
  · exact dir_cache_entry_purge_dir _ _

theorem do_delete_sent (env : FtpEnv F W) (ftp : GVfsBackendFtp F) (world : W)
    (filename : String) :
    purged_after env ⟨"DELE %s", [some (env.get_ftp_path (env.new_from_gvfs filename))]⟩
      (env.new_from_gvfs filename) (do_delete env ftp world filename) := by
  unfold do_delete
  simp only
  apply purged_after_of_send
  refine ⟨env.hdr.PASS_500, ?_⟩
  split_ifs <;>
    simp [send_trace, lookup_dir_trace, task_set_error, g_vfs_ftp_task_clear_error,
      g_vfs_ftp_task_set_error_from_response]

/-- C8. `do_create` on a target the cache lookup does not find, `do_append`,
`do_replace` without backup, `do_make_directory` and `do_delete` each send
their command and then, whatever the answers were, call
`g_vfs_ftp_dir_cache_purge_file` on the target as the last step before the job
is told the outcome; the run ends with no cached listing of the target's
parent directory. -/
theorem write_operations_purge_file (env : FtpEnv F W) (ftp : GVfsBackendFtp F) (world : W)
    (filename : String) :
    ((g_vfs_ftp_dir_cache_lookup_file env (G_VFS_FTP_TASK_INIT ftp world)
        (env.new_from_gvfs filename) false).1 = none →
      purged_after env ⟨"STOR %s", [some (env.get_ftp_path (env.new_from_gvfs filename))]⟩
        (env.new_from_gvfs filename) (do_create env ftp world filename)) ∧
    purged_after env ⟨"APPE %s", [some (env.get_ftp_path (env.new_from_gvfs filename))]⟩
      (env.new_from_gvfs filename) (do_append env ftp world filename) ∧
    purged_after env ⟨"STOR %s", [some (env.get_ftp_path (env.new_from_gvfs filename))]⟩
      (env.new_from_gvfs filename) (do_replace env ftp world filename false) ∧
    purged_after env ⟨"MKD %s", [some (env.get_ftp_path (env.new_from_gvfs filename))]⟩
      (env.new_from_gvfs filename) (do_make_directory env ftp world filename) ∧
    purged_after env ⟨"DELE %s", [some (env.get_ftp_path (env.new_from_gvfs filename))]⟩
      (env.new_from_gvfs filename) (do_delete env ftp world filename) := by
  refine ⟨?_, ?_, ?_, ?_, do_delete_sent env ftp world filename⟩
  · intro hmissing
    unfold do_create
    simp only [hmissing]
    exact purged_after_of_send env _ _ _ (do_start_write_sent env _ _ _)
  · unfold do_append
    exact purged_after_of_send env _ _ _ (do_start_write_sent env _ _ _)
  · unfold do_replace
    simp only [Bool.false_eq_true, if_false]
    exact purged_after_of_send env _ _ _ (do_start_write_sent env _ _ _)
  · unfold do_make_directory
    apply purged_after_of_send
    refine ⟨0, send_and_check_sent env _ 0 _ ?_ _ _ _⟩
    intro func hfunc t d
    simp only [List.mem_cons, List.mem_singleton, List.not_mem_nil, or_false] at hfunc
    rcases hfunc with h | h
    · subst h; exact error_550_exists_trace env t d
    · subst h; exact error_550_parent_not_found_trace env t d

theorem do_move_rename_trace (env : FtpEnv F W) (task : GVfsFtpTask F W) (srcfile destfile : F)
    (flags : Nat) :
    (do_move_rename env task srcfile destfile flags).trace = task.trace ∨
    (do_move_rename env task srcfile destfile flags).trace =
      task.trace ++ [Event.lookup_file destfile false] ∨
    ∃ before, (before = task.trace ∨ before = task.trace ++ [Event.lookup_file destfile false]) ∧
      (do_move_rename env task srcfile destfile flags).trace = before ++
        [Event.send (env.hdr.PASS_300 ||| env.hdr.FAIL_200)
            ⟨"RNFR %s", [some (env.get_ftp_path srcfile)]⟩,
          Event.send 0 ⟨"RNTO %s", [some (env.get_ftp_path destfile)]⟩,
          Event.purge_file srcfile, Event.purge_file destfile] ∧
      dir_cache_entry (do_move_rename env task srcfile destfile flags).backend.dir_cache
        (env.new_parent srcfile) = none ∧
      dir_cache_entry (do_move_rename env task srcfile destfile flags).backend.dir_cache
        (env.new_parent destfile) = none := by
  have hreach : ∀ t : GVfsFtpTask F W,
      (purge_file env (purge_file env (g_vfs_ftp_task_send env (g_vfs_ftp_task_send env t
        (env.hdr.PASS_300 ||| env.hdr.FAIL_200) "RNFR %s"
          [some (env.get_ftp_path srcfile)]).2 0 "RNTO %s"
          [some (env.get_ftp_path destfile)]).2 srcfile) destfile).trace = t.trace ++
        [Event.send (env.hdr.PASS_300 ||| env.hdr.FAIL_200)
            ⟨"RNFR %s", [some (env.get_ftp_path srcfile)]⟩,
          Event.send 0 ⟨"RNTO %s", [some (env.get_ftp_path destfile)]⟩,
          Event.purge_file srcfile, Event.purge_file destfile] ∧
      dir_cache_entry (purge_file env (purge_file env (g_vfs_ftp_task_send env
        (g_vfs_ftp_task_send env t (env.hdr.PASS_300 ||| env.hdr.FAIL_200) "RNFR %s"
          [some (env.get_ftp_path srcfile)]).2 0 "RNTO %s"
          [some (env.get_ftp_path destfile)]).2 srcfile) destfile).backend.dir_cache
        (env.new_parent srcfile) = none ∧
      dir_cache_entry (purge_file env (purge_file env (g_vfs_ftp_task_send env
        (g_vfs_ftp_task_send env t (env.hdr.PASS_300 ||| env.hdr.FAIL_200) "RNFR %s"
          [some (env.get_ftp_path srcfile)]).2 0 "RNTO %s"
          [some (env.get_ftp_path destfile)]).2 srcfile) destfile).backend.dir_cache
        (env.new_parent destfile) = none := by
    intro t
    refine ⟨by simp [purge_file, log, send_trace], ?_, ?_⟩
    · exact dir_cache_entry_purge_dir_of_none _ _ _ (dir_cache_entry_purge_dir _ _)
    · exact dir_cache_entry_purge_dir _ _
  unfold do_move_rename
  simp only
  by_cases hflag : flags &&& G_FILE_COPY_OVERWRITE = 0
  · simp only [hflag, if_true]
    cases hl : (g_vfs_ftp_dir_cache_lookup_file env task destfile false).1 with
    | some info =>
      right; left
      simp [task_set_error, lookup_file_trace]
    | none =>
      right; right
      simp only [Bool.false_eq_true, if_false]
      exact ⟨(g_vfs_ftp_dir_cache_lookup_file env task destfile false).2.trace,
        Or.inr (lookup_file_trace env task destfile false), hreach _⟩
  · right; right
    simp only [hflag, if_false, Bool.false_eq_true]
    exact ⟨_, Or.inl rfl, hreach task⟩

/-- C9. Whenever `do_move` gets to its RNFR command, its run ends with RNFR,
RNTO, the purge of the source file, the purge of the final destination file
and the report to the job, whatever the two commands were answered, and no
listing of the parent of either file is cached afterwards.
`do_set_display_name` always ends with RNFR, RNTO, the new path, the purge of
the directory of the renamed file and the report, and no listing of that
directory is cached afterwards. -/
theorem rename_operations_purge (env : FtpEnv F W) (ftp : GVfsBackendFtp F) (world : W)
    (source destination : String) (flags : Nat) (filename display_name : String) :
    ((∃ flags1 args, Event.send flags1 ⟨"RNFR %s", args⟩ ∈
        (do_move env ftp world source destination flags).trace) →
      ∃ destfile before,
        (destfile = env.new_from_gvfs destination ∨
          env.new_child (env.new_from_gvfs destination) (env.path_get_basename source) =
            Except.ok destfile) ∧
        (do_move env ftp world source destination flags).trace = before ++
          [Event.send (env.hdr.PASS_300 ||| env.hdr.FAIL_200)
              ⟨"RNFR %s", [some (env.get_ftp_path (env.new_from_gvfs source))]⟩,
            Event.send 0 ⟨"RNTO %s", [some (env.get_ftp_path destfile)]⟩,
            Event.purge_file (env.new_from_gvfs source), Event.purge_file destfile,
            Event.done (do_move env ftp world source destination flags).error] ∧
        dir_cache_entry (do_move env ftp world source destination flags).backend.dir_cache
          (env.new_parent (env.new_from_gvfs source)) = none ∧
        dir_cache_entry (do_move env ftp world source destination flags).backend.dir_cache
          (env.new_parent destfile) = none) ∧
    (∃ (now : Option F) (before : List (Event F)),
      (do_set_display_name env ftp world filename display_name).trace = before ++
        [Event.send (env.hdr.PASS_300 ||| env.hdr.FAIL_200)
            ⟨"RNFR %s", [some (env.get_ftp_path (env.new_from_gvfs filename))]⟩,
          Event.send 0 ⟨"RNTO %s", [now.map env.get_ftp_path]⟩,
          Event.set_new_path (now.map env.get_gvfs_path),
          Event.purge_dir (env.new_parent (env.new_from_gvfs filename)),
          Event.done (do_set_display_name env ftp world filename display_name).error] ∧
      dir_cache_entry (do_set_display_name env ftp world filename display_name).backend.dir_cache
        (env.new_parent (env.new_from_gvfs filename)) = none) := by
  constructor
  · intro hreach
    unfold do_move at hreach ⊢
    simp only at hreach ⊢
    have hcd : (g_vfs_ftp_task_try_cd env (G_VFS_FTP_TASK_INIT ftp world)
        (env.new_from_gvfs destination)).2.trace =
        [Event.send env.hdr.PASS_550
          ⟨"CWD %s", [some (env.get_ftp_path (env.new_from_gvfs destination))]⟩] := by
      rw [try_cd_trace_eq]
      rfl
    have hfinish : ∀ (task : GVfsFtpTask F W) (destfile : F),
        (task.trace = [] ∨ task.trace =
          [Event.send env.hdr.PASS_550
            ⟨"CWD %s", [some (env.get_ftp_path (env.new_from_gvfs destination))]⟩]) →
        (∃ flags1 args, Event.send flags1 ⟨"RNFR %s", args⟩ ∈
          (g_vfs_ftp_task_done (do_move_rename env task (env.new_from_gvfs source) destfile
            flags)).trace) →
        ∃ before,
          (g_vfs_ftp_task_done (do_move_rename env task (env.new_from_gvfs source) destfile
            flags)).trace = before ++
            [Event.send (env.hdr.PASS_300 ||| env.hdr.FAIL_200)
                ⟨"RNFR %s", [some (env.get_ftp_path (env.new_from_gvfs source))]⟩,
              Event.send 0 ⟨"RNTO %s", [some (env.get_ftp_path destfile)]⟩,
              Event.purge_file (env.new_from_gvfs source), Event.purge_file destfile,
              Event.done (g_vfs_ftp_task_done (do_move_rename env task
                (env.new_from_gvfs source) destfile flags)).error] ∧
          dir_cache_entry (g_vfs_ftp_task_done (do_move_rename env task
            (env.new_from_gvfs source) destfile flags)).backend.dir_cache
            (env.new_parent (env.new_from_gvfs source)) = none ∧
          dir_cache_entry (g_vfs_ftp_task_done (do_move_rename env task
            (env.new_from_gvfs source) destfile flags)).backend.dir_cache
            (env.new_parent destfile) = none := by
      intro task destfile htask hr
      obtain ⟨flags1, args, hmem⟩ := hr
      rcases do_move_rename_trace env task (env.new_from_gvfs source) destfile flags with
        h | h | ⟨before, _, h, hc1, hc2⟩
      · exfalso
        rcases htask with ht | ht <;>
          simp [g_vfs_ftp_task_done, log, h, ht] at hmem
      · exfalso
        rcases htask with ht | ht <;>
          simp [g_vfs_ftp_task_done, log, h, ht] at hmem
      · exact ⟨before, by simp [g_vfs_ftp_task_done, log, h], hc1, hc2⟩
    split_ifs at hreach ⊢ with hbackup hcdok
    · exfalso
      obtain ⟨flags1, args, hmem⟩ := hreach
      simp [g_vfs_ftp_task_done, log, task_set_error, G_VFS_FTP_TASK_INIT] at hmem
    · cases hchild : env.new_child (env.new_from_gvfs destination)
          (env.path_get_basename source) with
      | error e =>
        exfalso
        rw [hchild] at hreach
        obtain ⟨flags1, args, hmem⟩ := hreach
        simp [g_vfs_ftp_task_done, log, task_set_error, hcd] at hmem
      | ok real =>
        rw [hchild] at hreach
        obtain ⟨before, h1, h2, h3⟩ := hfinish _ real (Or.inr hcd) hreach
        exact ⟨real, before, Or.inr rfl, h1, h2, h3⟩
    · obtain ⟨before, h1, h2, h3⟩ := hfinish _ (env.new_from_gvfs destination) (Or.inr hcd) hreach
      exact ⟨_, before, Or.inl rfl, h1, h2, h3⟩
  · unfold do_set_display_name
    simp only
    refine ⟨match env.new_child (env.new_parent (env.new_from_gvfs filename)) display_name with
      | Except.ok f => some f
      | Except.error _ => none, [], ?_, ?_⟩
    · cases env.new_child (env.new_parent (env.new_from_gvfs filename)) display_name <;>
        simp [g_vfs_ftp_task_done, purge_dir, log, send_trace, task_set_error,
          G_VFS_FTP_TASK_INIT]
    · exact dir_cache_entry_purge_dir _ _

end Purge

/-- C8 on the scripted server, with the listing of `/pub` cached: `do_create`
of `/pub/new.txt`, which the lookup does not find, sends STOR and purges. -/
theorem write_operations_purge_file_witness :
    (g_vfs_ftp_dir_cache_lookup_file server_env
      (G_VFS_FTP_TASK_INIT cached_backend (⟨[⟨150, [], none⟩], server_files⟩ : Server))
      (server_env.new_from_gvfs "/pub/new.txt") false).1 = none ∧
    purged_after server_env
      ⟨"STOR %s", [some (server_env.get_ftp_path (server_env.new_from_gvfs "/pub/new.txt"))]⟩
      (server_env.new_from_gvfs "/pub/new.txt")
      (do_create server_env cached_backend ⟨[⟨150, [], none⟩], server_files⟩ "/pub/new.txt") :=
  ⟨by decide,
    (write_operations_purge_file server_env cached_backend ⟨[⟨150, [], none⟩], server_files⟩
      "/pub/new.txt").1 (by decide)⟩

/-- C9 on the scripted server: `do_move` of `/pub/a.txt` to `/pub/c.txt`, which
is not a directory and does not exist, gets to RNFR and purges. -/
theorem rename_operations_purge_witness :
    (∃ flags1 args, Event.send flags1 ⟨"RNFR %s", args⟩ ∈
      (do_move server_env cached_backend
        ⟨[⟨550, [], none⟩, ⟨350, [], none⟩, ⟨250, [], none⟩], server_files⟩
        "/pub/a.txt" "/pub/c.txt" 0).trace) ∧
    ∃ destfile before,
      (destfile = server_env.new_from_gvfs "/pub/c.txt" ∨
        server_env.new_child (server_env.new_from_gvfs "/pub/c.txt")
          (server_env.path_get_basename "/pub/a.txt") = Except.ok destfile) ∧
      (do_move server_env cached_backend
        ⟨[⟨550, [], none⟩, ⟨350, [], none⟩, ⟨250, [], none⟩], server_files⟩
        "/pub/a.txt" "/pub/c.txt" 0).trace = before ++
        [Event.send (server_env.hdr.PASS_300 ||| server_env.hdr.FAIL_200)
            ⟨"RNFR %s", [some (server_env.get_ftp_path (server_env.new_from_gvfs "/pub/a.txt"))]⟩,
          Event.send 0 ⟨"RNTO %s", [some (server_env.get_ftp_path destfile)]⟩,
          Event.purge_file (server_env.new_from_gvfs "/pub/a.txt"), Event.purge_file destfile,
          Event.done (do_move server_env cached_backend
            ⟨[⟨550, [], none⟩, ⟨350, [], none⟩, ⟨250, [], none⟩], server_files⟩
            "/pub/a.txt" "/pub/c.txt" 0).error] ∧
      dir_cache_entry (do_move server_env cached_backend
          ⟨[⟨550, [], none⟩, ⟨350, [], none⟩, ⟨250, [], none⟩], server_files⟩
          "/pub/a.txt" "/pub/c.txt" 0).backend.dir_cache
        (server_env.new_parent (server_env.new_from_gvfs "/pub/a.txt")) = none ∧
      dir_cache_entry (do_move server_env cached_backend
          ⟨[⟨550, [], none⟩, ⟨350, [], none⟩, ⟨250, [], none⟩], server_files⟩
          "/pub/a.txt" "/pub/c.txt" 0).backend.dir_cache
        (server_env.new_parent destfile) = none :=
  ⟨⟨34, [some "/pub/a.txt"], by decide⟩,
    (rename_operations_purge server_env cached_backend
      ⟨[⟨550, [], none⟩, ⟨350, [], none⟩, ⟨250, [], none⟩], server_files⟩
      "/pub/a.txt" "/pub/c.txt" 0 "/pub/a.txt" "c.txt").1 ⟨34, [some "/pub/a.txt"], by decide⟩⟩

theorem error_550_is_directory_trace (env : FtpEnv F W) (task : GVfsFtpTask F W) (file : F) :
    (error_550_is_directory env task file).trace = task.trace ++ [Event.lookup_file file true] := by
  unfold error_550_is_directory
  simp only
  split
  · split_ifs <;> simp [lookup_file_trace, task_set_error, g_vfs_ftp_task_clear_error]
  · simp [lookup_file_trace, g_vfs_ftp_task_clear_error]

theorem send_and_check_is_directory_no_purge (env : FtpEnv F W) (task : GVfsFtpTask F W)
    (flags : Nat) (data : F) (format : String) (args : List (Option String)) :
    (g_vfs_ftp_task_send_and_check env task flags [error_550_is_directory env] data format
      args).2.trace.all (fun e => !is_purge e) = task.trace.all (fun e => !is_purge e) := by
  unfold g_vfs_ftp_task_send_and_check
  simp only [run_error_handlers]
  split
  · simp [send_trace, is_purge]
  · split_ifs <;>
      simp [send_trace, is_purge, error_550_is_directory_trace, g_vfs_ftp_task_clear_error]

/-- Whatever the server answers, `do_pull` makes no call that drops a cache
entry. -/
theorem do_pull_never_purges [DecidableEq F] (env : FtpEnv F W) (ftp : GVfsBackendFtp F)
    (world : W) (source local_path : String) (flags : Nat)
    (remove_source progress_callback : Bool) :
    ∀ e ∈ (do_pull env ftp world source local_path flags remove_source progress_callback).trace,
      is_purge e = false := by
  have hall : (do_pull env ftp world source local_path flags remove_source
      progress_callback).trace.all (fun e => !is_purge e) = true := by
    unfold do_pull
    simp only
    split_ifs <;>
      simp only [g_vfs_ftp_task_done, log, send_trace, lookup_file_trace,
        send_and_check_is_directory_no_purge, g_vfs_ftp_task_receive,
        g_vfs_ftp_task_close_data_connection, g_vfs_ftp_task_open_data_connection,
        G_VFS_FTP_TASK_INIT, List.all_append, List.all_cons, List.all_nil, Bool.and_true] <;>
      rfl
  intro e he
  have := List.all_eq_true.mp hall e he
  simpa using this

/-- C10 at a failing input: `do_pull` of `/pub/a.txt` with `remove_source`
set, on a backend that has the listing of `/pub` cached and a server that
accepts every command. The task ends without error, DELE was sent and is the
last call before the report, no purge was made, and the cache still lists
`a.txt` in `/pub`. -/
theorem do_pull_remove_source_keeps_listing :
    (do_pull server_env cached_backend server_pull "/pub/a.txt" "/tmp/a.txt" 0 true false).error
      = none ∧
    (do_pull server_env cached_backend server_pull "/pub/a.txt" "/tmp/a.txt" 0 true false).trace
      = [Event.open_data_connection,
          Event.send 33 ⟨"RETR %s", [some "/pub/a.txt"]⟩,
          Event.splice,
          Event.close_data_connection,
          Event.receive 0,
          Event.send 8 ⟨"DELE %s", [some "/pub/a.txt"]⟩,
          Event.done none] ∧
    dir_cache_entry
      (do_pull server_env cached_backend server_pull "/pub/a.txt" "/tmp/a.txt" 0 true
        false).backend.dir_cache
      (server_env.new_parent (server_env.new_from_gvfs "/pub/a.txt")) =
        some [regular_file "a.txt", directory "b"] ∧
    dir_cache_entry
      (do_delete server_env cached_backend ⟨[⟨250, [], none⟩], server_files⟩
        "/pub/a.txt").backend.dir_cache
      (server_env.new_parent (server_env.new_from_gvfs "/pub/a.txt")) = none := by
  decide

/-! ## Deleting -/

section Delete

variable [DecidableEq F]

theorem dir_cache_entry_purge_dir_of_ne (cache : GVfsFtpDirCache F) (dir other : F)
    (h : dir ≠ other) :
    dir_cache_entry (g_vfs_ftp_dir_cache_purge_dir cache other) dir =
      dir_cache_entry cache dir := by
  unfold dir_cache_entry g_vfs_ftp_dir_cache_purge_dir
  congr 1
  rw [List.find?_filter]
  congr 1
  funext a
  by_cases hd : a.1 = dir
  · simp [hd, h]
  · simp [hd]

theorem do_delete_cache_no_550 (env : FtpEnv F W) (ftp : GVfsBackendFtp F) (world : W)
    (filename : String)
    (hrmd : (g_vfs_ftp_task_send env
      (g_vfs_ftp_task_send env (G_VFS_FTP_TASK_INIT ftp world) env.hdr.PASS_500 "DELE %s"
        [some (env.get_ftp_path (env.new_from_gvfs filename))]).2
      env.hdr.PASS_550 "RMD %s" [some (env.get_ftp_path (env.new_from_gvfs filename))]).1
        ≠ 550) :
    (do_delete env ftp world filename).backend.dir_cache =
      g_vfs_ftp_dir_cache_purge_dir ftp.dir_cache
        (env.new_parent (env.new_from_gvfs filename)) := by
  unfold do_delete
  simp only [hrmd, if_false]
  split_ifs <;> rfl

/-- C11, as amended. When `do_delete` removes a directory, DELE being answered
with a 5xx status and RMD with anything but 550, the cache it leaves is the
one it found without the listing of the parent of the directory: no listing of
the parent is cached, and the entry of the directory itself, where the
directory is not its own parent, is what it was before. -/
theorem do_delete_directory_purges_parent (env : FtpEnv F W) (ftp : GVfsBackendFtp F)
    (world : W) (filename : String)
    (_hdele : G_VFS_FTP_RESPONSE_GROUP
      (g_vfs_ftp_task_send env (G_VFS_FTP_TASK_INIT ftp world) env.hdr.PASS_500 "DELE %s"
        [some (env.get_ftp_path (env.new_from_gvfs filename))]).1 = 5)
    (hrmd : (g_vfs_ftp_task_send env
      (g_vfs_ftp_task_send env (G_VFS_FTP_TASK_INIT ftp world) env.hdr.PASS_500 "DELE %s"
        [some (env.get_ftp_path (env.new_from_gvfs filename))]).2
      env.hdr.PASS_550 "RMD %s" [some (env.get_ftp_path (env.new_from_gvfs filename))]).1
        ≠ 550) :
    (do_delete env ftp world filename).backend.dir_cache =
      g_vfs_ftp_dir_cache_purge_dir ftp.dir_cache
        (env.new_parent (env.new_from_gvfs filename)) ∧
    dir_cache_entry (do_delete env ftp world filename).backend.dir_cache
      (env.new_parent (env.new_from_gvfs filename)) = none ∧
    (env.new_from_gvfs filename ≠ env.new_parent (env.new_from_gvfs filename) →
      dir_cache_entry (do_delete env ftp world filename).backend.dir_cache
        (env.new_from_gvfs filename) =
        dir_cache_entry ftp.dir_cache (env.new_from_gvfs filename)) := by
  have hcache := do_delete_cache_no_550 env ftp world filename hrmd
  refine ⟨hcache, ?_, ?_⟩
  · rw [hcache]
    exact dir_cache_entry_purge_dir _ _
  · intro hne
    rw [hcache]
    exact dir_cache_entry_purge_dir_of_ne _ _ _ hne

end Delete

/-- C11 refuted on the scripted server: `/pub/b` is removed, DELE being
answered 550 and RMD 250, the task ends without error, the listing of `/pub`
is dropped, and the cache still holds the listing of `/pub/b`. -/
theorem do_delete_directory_keeps_own_listing :
    G_VFS_FTP_RESPONSE_GROUP 550 = 5 ∧
    (do_delete server_env cached_backend_b server_rmdir "/pub/b").trace =
      [Event.send 8 ⟨"DELE %s", [some "/pub/b"]⟩,
        Event.send 16 ⟨"RMD %s", [some "/pub/b"]⟩,
        Event.purge_file ["pub", "b"],
        Event.done none] ∧
    dir_cache_entry (do_delete server_env cached_backend_b server_rmdir "/pub/b").backend.dir_cache
      ["pub"] = none ∧
    dir_cache_entry (do_delete server_env cached_backend_b server_rmdir "/pub/b").backend.dir_cache
      ["pub", "b"] = some [] := by
  decide

/-- C11, as amended, on the scripted server. -/
theorem do_delete_directory_purges_parent_witness :
    G_VFS_FTP_RESPONSE_GROUP
      (g_vfs_ftp_task_send server_env (G_VFS_FTP_TASK_INIT cached_backend_b server_rmdir)
        server_env.hdr.PASS_500 "DELE %s"
        [some (server_env.get_ftp_path (server_env.new_from_gvfs "/pub/b"))]).1 = 5 ∧
    (g_vfs_ftp_task_send server_env
      (g_vfs_ftp_task_send server_env (G_VFS_FTP_TASK_INIT cached_backend_b server_rmdir)
        server_env.hdr.PASS_500 "DELE %s"
        [some (server_env.get_ftp_path (server_env.new_from_gvfs "/pub/b"))]).2
      server_env.hdr.PASS_550 "RMD %s"
      [some (server_env.get_ftp_path (server_env.new_from_gvfs "/pub/b"))]).1 ≠ 550 ∧
    dir_cache_entry (do_delete server_env cached_backend_b server_rmdir "/pub/b").backend.dir_cache
      (server_env.new_parent (server_env.new_from_gvfs "/pub/b")) = none :=
  ⟨by decide, by decide,
    (do_delete_directory_purges_parent server_env cached_backend_b server_rmdir "/pub/b"
      (by decide) (by decide)).2.1⟩

section DeleteFlow

variable [DecidableEq F]

theorem do_delete_error_done (env : FtpEnv F W) (ftp : GVfsBackendFtp F) (world : W)
    (filename : String) :
    ∃ before, (do_delete env ftp world filename).trace =
      before ++ [Event.done (do_delete env ftp world filename).error] := by
  unfold do_delete
  exact ⟨_, rfl⟩

theorem do_delete_trace (env : FtpEnv F W) (ftp : GVfsBackendFtp F) (world : W)
    (filename : String) :
    (do_delete env ftp world filename).trace =
      Event.send env.hdr.PASS_500
          ⟨"DELE %s", [some (env.get_ftp_path (env.new_from_gvfs filename))]⟩ ::
        ((if G_VFS_FTP_RESPONSE_GROUP
            (g_vfs_ftp_task_send env (G_VFS_FTP_TASK_INIT ftp world) env.hdr.PASS_500 "DELE %s"
              [some (env.get_ftp_path (env.new_from_gvfs filename))]).1 = 5 then
          Event.send env.hdr.PASS_550
              ⟨"RMD %s", [some (env.get_ftp_path (env.new_from_gvfs filename))]⟩ ::
            (if (g_vfs_ftp_task_send env
                (g_vfs_ftp_task_send env (G_VFS_FTP_TASK_INIT ftp world) env.hdr.PASS_500
                  "DELE %s" [some (env.get_ftp_path (env.new_from_gvfs filename))]).2
                env.hdr.PASS_550 "RMD %s"
                [some (env.get_ftp_path (env.new_from_gvfs filename))]).1 = 550 then
              [Event.lookup_dir (env.new_from_gvfs filename) false false]
            else [])
        else []) ++
        [Event.purge_file (env.new_from_gvfs filename),
          Event.done (do_delete env ftp world filename).error]) := by
  unfold do_delete
  simp only
  split_ifs <;>
    simp [g_vfs_ftp_task_done, purge_file, log, send_trace, lookup_dir_trace, task_set_error,
      g_vfs_ftp_task_clear_error, g_vfs_ftp_task_set_error_from_response,
      G_VFS_FTP_TASK_INIT]

/-- C12. The function `do_delete` calls the send of `DELE` before anything else,
and it calls a send of `RMD` exactly when the response group of the answer to
`DELE`, its first digit, is 5: the call is the second event of the run for
every answer from 500 to 599, and no `RMD` is sent for an answer from 100 to
499. -/
theorem do_delete_rmd_iff_group_5 (env : FtpEnv F W) (ftp : GVfsBackendFtp F) (world : W)
    (filename : String) :
    (do_delete env ftp world filename).trace.head? =
      some (Event.send env.hdr.PASS_500
        ⟨"DELE %s", [some (env.get_ftp_path (env.new_from_gvfs filename))]⟩) ∧
    ((∃ flags args, Event.send flags ⟨"RMD %s", args⟩ ∈
        (do_delete env ftp world filename).trace) ↔
      G_VFS_FTP_RESPONSE_GROUP
        (g_vfs_ftp_task_send env (G_VFS_FTP_TASK_INIT ftp world) env.hdr.PASS_500 "DELE %s"
          [some (env.get_ftp_path (env.new_from_gvfs filename))]).1 = 5) ∧
    (500 ≤ (g_vfs_ftp_task_send env (G_VFS_FTP_TASK_INIT ftp world) env.hdr.PASS_500 "DELE %s"
          [some (env.get_ftp_path (env.new_from_gvfs filename))]).1 ∧
      (g_vfs_ftp_task_send env (G_VFS_FTP_TASK_INIT ftp world) env.hdr.PASS_500 "DELE %s"
          [some (env.get_ftp_path (env.new_from_gvfs filename))]).1 ≤ 599 →
      (do_delete env ftp world filename).trace[1]? =
        some (Event.send env.hdr.PASS_550
          ⟨"RMD %s", [some (env.get_ftp_path (env.new_from_gvfs filename))]⟩)) ∧
    (100 ≤ (g_vfs_ftp_task_send env (G_VFS_FTP_TASK_INIT ftp world) env.hdr.PASS_500 "DELE %s"
          [some (env.get_ftp_path (env.new_from_gvfs filename))]).1 ∧
      (g_vfs_ftp_task_send env (G_VFS_FTP_TASK_INIT ftp world) env.hdr.PASS_500 "DELE %s"
          [some (env.get_ftp_path (env.new_from_gvfs filename))]).1 ≤ 499 →
      ∀ flags args, Event.send flags ⟨"RMD %s", args⟩ ∉
        (do_delete env ftp world filename).trace) := by
  have htrace := do_delete_trace env ftp world filename
  generalize (g_vfs_ftp_task_send env (G_VFS_FTP_TASK_INIT ftp world) env.hdr.PASS_500 "DELE %s"
    [some (env.get_ftp_path (env.new_from_gvfs filename))]).1 = dele at htrace ⊢
  have hnot : ¬ G_VFS_FTP_RESPONSE_GROUP dele = 5 → ∀ flags args,
      Event.send flags ⟨"RMD %s", args⟩ ∉ (do_delete env ftp world filename).trace := by
    intro h flags args
    rw [htrace]
    simp [h]
  have hsent : G_VFS_FTP_RESPONSE_GROUP dele = 5 →
      (do_delete env ftp world filename).trace[1]? =
        some (Event.send env.hdr.PASS_550
          ⟨"RMD %s", [some (env.get_ftp_path (env.new_from_gvfs filename))]⟩) := by
    intro h
    rw [htrace]
    simp [h]
  refine ⟨by rw [htrace]; rfl, ⟨?_, ?_⟩, ?_, ?_⟩
  · rintro ⟨flags, args, hmem⟩
    by_contra h
    exact hnot h flags args hmem
  · intro h
    exact ⟨_, _, List.getElem?_mem (hsent h)⟩
  · rintro ⟨h1, h2⟩
    apply hsent
    unfold G_VFS_FTP_RESPONSE_GROUP
    omega
  · rintro ⟨h1, h2⟩
    apply hnot
    unfold G_VFS_FTP_RESPONSE_GROUP
    omega

/-- C13. In `do_delete`, when `DELE` is answered in the 5xx group and `RMD`
returns 550, the task ends in error: with the error built from the response
550 when the cache's listing of the target is empty, whatever error the lookup
of that listing raised, and, the send of `RMD` having passed the 550 on without
an error, with `G_IO_ERROR_NOT_EMPTY` when the listing is not empty. -/
theorem do_delete_rmd_550_error (env : FtpEnv F W) (ftp : GVfsBackendFtp F) (world : W)
    (filename : String)
    (hdele : G_VFS_FTP_RESPONSE_GROUP
      (g_vfs_ftp_task_send env (G_VFS_FTP_TASK_INIT ftp world) env.hdr.PASS_500 "DELE %s"
        [some (env.get_ftp_path (env.new_from_gvfs filename))]).1 = 5)
    (hrmd : (g_vfs_ftp_task_send env
      (g_vfs_ftp_task_send env (G_VFS_FTP_TASK_INIT ftp world) env.hdr.PASS_500 "DELE %s"
        [some (env.get_ftp_path (env.new_from_gvfs filename))]).2
      env.hdr.PASS_550 "RMD %s" [some (env.get_ftp_path (env.new_from_gvfs filename))]).1
        = 550) :
    g_vfs_ftp_task_is_in_error (do_delete env ftp world filename) = true ∧
    ((g_vfs_ftp_dir_cache_lookup_dir env
        (g_vfs_ftp_task_send env
          (g_vfs_ftp_task_send env (G_VFS_FTP_TASK_INIT ftp world) env.hdr.PASS_500 "DELE %s"
            [some (env.get_ftp_path (env.new_from_gvfs filename))]).2
          env.hdr.PASS_550 "RMD %s"
          [some (env.get_ftp_path (env.new_from_gvfs filename))]).2
        (env.new_from_gvfs filename) false false).1 = [] →
      (do_delete env ftp world filename).error = some (env.error_from_response 550)) ∧
    ((g_vfs_ftp_dir_cache_lookup_dir env
        (g_vfs_ftp_task_send env
          (g_vfs_ftp_task_send env (G_VFS_FTP_TASK_INIT ftp world) env.hdr.PASS_500 "DELE %s"
            [some (env.get_ftp_path (env.new_from_gvfs filename))]).2
          env.hdr.PASS_550 "RMD %s"
          [some (env.get_ftp_path (env.new_from_gvfs filename))]).2
        (env.new_from_gvfs filename) false false).1 ≠ [] →
      (g_vfs_ftp_task_send env
          (g_vfs_ftp_task_send env (G_VFS_FTP_TASK_INIT ftp world) env.hdr.PASS_500 "DELE %s"
            [some (env.get_ftp_path (env.new_from_gvfs filename))]).2
          env.hdr.PASS_550 "RMD %s"
          [some (env.get_ftp_path (env.new_from_gvfs filename))]).2.error = none →
      (do_delete env ftp world filename).error =
        some ⟨GIOErrorEnum.NOT_EMPTY, "Directory not empty"⟩) := by
  have herr : (do_delete env ftp world filename).error =
      if (g_vfs_ftp_dir_cache_lookup_dir env
        (g_vfs_ftp_task_send env
          (g_vfs_ftp_task_send env (G_VFS_FTP_TASK_INIT ftp world) env.hdr.PASS_500 "DELE %s"
            [some (env.get_ftp_path (env.new_from_gvfs filename))]).2
          env.hdr.PASS_550 "RMD %s"
          [some (env.get_ftp_path (env.new_from_gvfs filename))]).2
        (env.new_from_gvfs filename) false false).1 ≠ [] then
        g_set_error_literal (g_vfs_ftp_dir_cache_lookup_dir env
          (g_vfs_ftp_task_send env
            (g_vfs_ftp_task_send env (G_VFS_FTP_TASK_INIT ftp world) env.hdr.PASS_500 "DELE %s"
              [some (env.get_ftp_path (env.new_from_gvfs filename))]).2
            env.hdr.PASS_550 "RMD %s"
            [some (env.get_ftp_path (env.new_from_gvfs filename))]).2
          (env.new_from_gvfs filename) false false).2.error
          GIOErrorEnum.NOT_EMPTY "Directory not empty"
      else some (env.error_from_response 550) := by
    unfold do_delete
    simp only [hdele, hrmd, if_true]
    split_ifs <;> rfl
  generalize g_vfs_ftp_task_send env
    (g_vfs_ftp_task_send env (G_VFS_FTP_TASK_INIT ftp world) env.hdr.PASS_500 "DELE %s"
      [some (env.get_ftp_path (env.new_from_gvfs filename))]).2
    env.hdr.PASS_550 "RMD %s" [some (env.get_ftp_path (env.new_from_gvfs filename))] = rmd
    at herr ⊢
  have hl : (g_vfs_ftp_dir_cache_lookup_dir env rmd.2 (env.new_from_gvfs filename)
        false false).1 ≠ [] →
      (g_vfs_ftp_dir_cache_lookup_dir env rmd.2 (env.new_from_gvfs filename)
        false false).2.error = rmd.2.error := by
    unfold g_vfs_ftp_dir_cache_lookup_dir
    generalize env.lookup_dir rmd.2.world rmd.2.backend.dir_cache rmd.2.error
      (env.new_from_gvfs filename) false false = r
    rcases r with ⟨(list | e), c, w⟩
    · intro _
      rfl
    · intro h
      exact absurd rfl h
  refine ⟨?_, ?_, ?_⟩
  · unfold g_vfs_ftp_task_is_in_error
    rw [herr]
    split_ifs
    · unfold g_set_error_literal
      split <;> rfl
    · rfl
  · intro h
    rw [herr]
    simp [h]
  · intro h hnone
    rw [herr, hl h, hnone]
    simp [h, g_set_error_literal]

end DeleteFlow

/-- C12 on the scripted server: `DELE` is answered 550, and `RMD` is the
second call. -/
theorem do_delete_rmd_iff_group_5_witness :
    (500 ≤ (g_vfs_ftp_task_send server_env (G_VFS_FTP_TASK_INIT cached_backend_b server_rmdir)
        server_env.hdr.PASS_500 "DELE %s"
        [some (server_env.get_ftp_path (server_env.new_from_gvfs "/pub/b"))]).1 ∧
      (g_vfs_ftp_task_send server_env (G_VFS_FTP_TASK_INIT cached_backend_b server_rmdir)
        server_env.hdr.PASS_500 "DELE %s"
        [some (server_env.get_ftp_path (server_env.new_from_gvfs "/pub/b"))]).1 ≤ 599) ∧
    (do_delete server_env cached_backend_b server_rmdir "/pub/b").trace[1]? =
      some (Event.send server_env.hdr.PASS_550
        ⟨"RMD %s", [some (server_env.get_ftp_path (server_env.new_from_gvfs "/pub/b"))]⟩) :=
  ⟨by decide,
    (do_delete_rmd_iff_group_5 server_env cached_backend_b server_rmdir "/pub/b").2.2.1
      (by decide)⟩

/-- C13 on the scripted server: `/pub` holds files, `DELE` and `RMD` are both
answered 550, and the task ends with `G_IO_ERROR_NOT_EMPTY`. -/
theorem do_delete_rmd_550_error_witness :
    G_VFS_FTP_RESPONSE_GROUP
      (g_vfs_ftp_task_send server_env (G_VFS_FTP_TASK_INIT cached_backend server_rmdir_refused)
        server_env.hdr.PASS_500 "DELE %s"
        [some (server_env.get_ftp_path (server_env.new_from_gvfs "/pub"))]).1 = 5 ∧
    (g_vfs_ftp_task_send server_env
      (g_vfs_ftp_task_send server_env (G_VFS_FTP_TASK_INIT cached_backend server_rmdir_refused)
        server_env.hdr.PASS_500 "DELE %s"
        [some (server_env.get_ftp_path (server_env.new_from_gvfs "/pub"))]).2
      server_env.hdr.PASS_550 "RMD %s"
      [some (server_env.get_ftp_path (server_env.new_from_gvfs "/pub"))]).1 = 550 ∧
    (do_delete server_env cached_backend server_rmdir_refused "/pub").error =
      some ⟨GIOErrorEnum.NOT_EMPTY, "Directory not empty"⟩ :=
  ⟨by decide, by decide,
    (do_delete_rmd_550_error server_env cached_backend server_rmdir_refused "/pub"
      (by decide) (by decide)).2.2 (by decide) (by decide)⟩

/-! ## Creating a file that exists -/

theorem lookup_file_found_error (env : FtpEnv F W) (task : GVfsFtpTask F W) (file : F)
    (b : Bool) (info : GFileInfo)
    (h : (g_vfs_ftp_dir_cache_lookup_file env task file b).1 = some info) :
    (g_vfs_ftp_dir_cache_lookup_file env task file b).2.error = task.error ∧
    (g_vfs_ftp_dir_cache_lookup_file env task file b).2.conn = task.conn := by
  revert h
  unfold g_vfs_ftp_dir_cache_lookup_file
  generalize env.lookup_file task.world task.backend.dir_cache task.error file b = r
  rcases r with ⟨(found | e), c, w⟩
  · intro _
    exact ⟨rfl, rfl⟩
  · intro h
    exact absurd h (by simp)

/-- C19. When the cache lookup of the target finds an entry, `do_create` ends
with `G_IO_ERROR_EXISTS`, and the lookup and the report of that error are all
it does: no command is sent, no connection is taken from the task as a handle,
no purge is called, and the backend with its cache and the world are as the
lookup left them. -/
theorem do_create_existing_target [DecidableEq F] (env : FtpEnv F W) (ftp : GVfsBackendFtp F)
    (world : W) (filename : String) (info : GFileInfo)
    (h : (g_vfs_ftp_dir_cache_lookup_file env (G_VFS_FTP_TASK_INIT ftp world)
      (env.new_from_gvfs filename) false).1 = some info) :
    (do_create env ftp world filename).error =
      some ⟨GIOErrorEnum.EXISTS, "Target file already exists"⟩ ∧
    (do_create env ftp world filename).trace =
      [Event.lookup_file (env.new_from_gvfs filename) false,
        Event.done (some ⟨GIOErrorEnum.EXISTS, "Target file already exists"⟩)] ∧
    (do_create env ftp world filename).backend =
      (g_vfs_ftp_dir_cache_lookup_file env (G_VFS_FTP_TASK_INIT ftp world)
        (env.new_from_gvfs filename) false).2.backend ∧
    (do_create env ftp world filename).world =
      (g_vfs_ftp_dir_cache_lookup_file env (G_VFS_FTP_TASK_INIT ftp world)
        (env.new_from_gvfs filename) false).2.world ∧
    (do_create env ftp world filename).conn = none := by
  have hl := lookup_file_found_error env (G_VFS_FTP_TASK_INIT ftp world)
    (env.new_from_gvfs filename) false info h
  have he : (g_vfs_ftp_dir_cache_lookup_file env (G_VFS_FTP_TASK_INIT ftp world)
      (env.new_from_gvfs filename) false).2.error = none := hl.1
  have hc : (g_vfs_ftp_dir_cache_lookup_file env (G_VFS_FTP_TASK_INIT ftp world)
      (env.new_from_gvfs filename) false).2.conn = none := hl.2
  have ht : (g_vfs_ftp_dir_cache_lookup_file env (G_VFS_FTP_TASK_INIT ftp world)
      (env.new_from_gvfs filename) false).2.trace =
      [Event.lookup_file (env.new_from_gvfs filename) false] :=
    lookup_file_trace env (G_VFS_FTP_TASK_INIT ftp world) (env.new_from_gvfs filename) false
  unfold do_create
  simp only [h]
  simp [g_vfs_ftp_task_done, log, task_set_error, g_set_error_literal, he, hc, ht]

/-- C19 on the scripted server: `/pub/a.txt` exists, and creating it fails with
`G_IO_ERROR_EXISTS` after the lookup alone. -/
theorem do_create_existing_target_witness :
    (g_vfs_ftp_dir_cache_lookup_file server_env
      (G_VFS_FTP_TASK_INIT cached_backend (Server.mk [] server_files))
      (server_env.new_from_gvfs "/pub/a.txt") false).1 = some (regular_file "a.txt") ∧
    (do_create server_env cached_backend (Server.mk [] server_files) "/pub/a.txt").trace =
      [Event.lookup_file (server_env.new_from_gvfs "/pub/a.txt") false,
        Event.done (some ⟨GIOErrorEnum.EXISTS, "Target file already exists"⟩)] :=
  ⟨by decide,
    (do_create_existing_target server_env cached_backend (Server.mk [] server_files)
      "/pub/a.txt" (regular_file "a.txt") (by decide)).2.1⟩

/-! ## The handler chain of `do_make_directory` -/

theorem run_error_handlers_pair (f g : GVfsFtpErrorFunc F W) (task : GVfsFtpTask F W)
    (data : F) (h : task.error = none) :
    run_error_handlers [f, g] task data =
      if g_vfs_ftp_task_is_in_error (f task data) then f task data
      else g (f task data) data := by
  simp [run_error_handlers, g_vfs_ftp_task_is_in_error, h]

theorem try_cd_failed_error (env : FtpEnv F W) (task : GVfsFtpTask F W) (file : F)
    (herr : task.error = none) (h : (g_vfs_ftp_task_try_cd env task file).1 = false) :
    (g_vfs_ftp_task_try_cd env task file).2.error = none := by
  revert h
  unfold g_vfs_ftp_task_try_cd
  simp only [g_vfs_ftp_task_is_in_error, herr, Option.isSome_none, Bool.false_eq_true, if_false]
  by_cases hcd : (g_vfs_ftp_task_cd env task file).1 = true
  · simp [hcd]
  · simp [hcd, g_vfs_ftp_task_clear_error]

section MakeDirectory

variable [DecidableEq F]

theorem do_make_directory_error (env : FtpEnv F W) (ftp : GVfsBackendFtp F) (world : W)
    (filename : String) (original : GError)
    (hresp : (g_vfs_ftp_task_send env (G_VFS_FTP_TASK_INIT ftp world) 0 "MKD %s"
      [some (env.get_ftp_path (env.new_from_gvfs filename))]).1 = 550)
    (herr : (g_vfs_ftp_task_send env (G_VFS_FTP_TASK_INIT ftp world) 0 "MKD %s"
      [some (env.get_ftp_path (env.new_from_gvfs filename))]).2.error = some original) :
    (do_make_directory env ftp world filename).error =
      match (error_550_exists env
          (g_vfs_ftp_task_clear_error
            (g_vfs_ftp_task_send env (G_VFS_FTP_TASK_INIT ftp world) 0 "MKD %s"
              [some (env.get_ftp_path (env.new_from_gvfs filename))]).2)
          (env.new_from_gvfs filename)).error with
      | some e => some e
      | none =>
        match (error_550_parent_not_found env
          (error_550_exists env
            (g_vfs_ftp_task_clear_error
              (g_vfs_ftp_task_send env (G_VFS_FTP_TASK_INIT ftp world) 0 "MKD %s"
                [some (env.get_ftp_path (env.new_from_gvfs filename))]).2)
            (env.new_from_gvfs filename))
          (env.new_from_gvfs filename)).error with
        | some e => some e
        | none => some original := by
  unfold do_make_directory g_vfs_ftp_task_send_and_check
  simp only [herr, hresp, if_true]
  rw [run_error_handlers_pair _ _ _ _ rfl]
  unfold g_vfs_ftp_task_is_in_error
  cases h1 : (error_550_exists env
    (g_vfs_ftp_task_clear_error
      (g_vfs_ftp_task_send env (G_VFS_FTP_TASK_INIT ftp world) 0 "MKD %s"
        [some (env.get_ftp_path (env.new_from_gvfs filename))]).2)
    (env.new_from_gvfs filename)).error with
  | some e => simp [h1, g_vfs_ftp_task_done, purge_file, log]
  | none =>
    cases h2 : (error_550_parent_not_found env
      (error_550_exists env
        (g_vfs_ftp_task_clear_error
          (g_vfs_ftp_task_send env (G_VFS_FTP_TASK_INIT ftp world) 0 "MKD %s"
            [some (env.get_ftp_path (env.new_from_gvfs filename))]).2)
        (env.new_from_gvfs filename))
      (env.new_from_gvfs filename)).error with
    | some e => simp [h1, h2, g_vfs_ftp_task_done, purge_file, log]
    | none => simp [h1, h2, g_vfs_ftp_task_done, purge_file, log]

end MakeDirectory

theorem determine_features_match_addr (feature : List Char) (table : List (List Char × Nat))
    (task : GVfsFtpTask F W) :
    (determine_features_match feature table task).backend.addr = task.backend.addr := by
  induction table generalizing task with
  | nil => rfl
  | cons entry rest ih =>
    unfold determine_features_match
    split_ifs
    · rw [ih]
      rfl
    · exact ih task

theorem determine_features_lines_addr (hdr : Header) (lines : List (List Char))
    (task : GVfsFtpTask F W) :
    (determine_features_lines hdr lines task).backend.addr = task.backend.addr := by
  induction lines generalizing task with
  | nil => rfl
  | cons line rest ih =>
    unfold determine_features_lines
    split_ifs
    · exact ih task
    · simp only
      rw [ih, determine_features_match_addr]

theorem determine_features_addr (env : FtpEnv F W) (task : GVfsFtpTask F W) :
    (gvfs_backend_ftp_determine_features env task).2.backend.addr = task.backend.addr := by
  unfold gvfs_backend_ftp_determine_features
  simp only
  split_ifs
  · rfl
  · simp only
    rw [determine_features_lines_addr]
    rfl

theorem use_workaround_addr (fuel : Nat) (ftp ftp1 : GVfsBackendFtp F) (workaround : Nat)
    (h : g_vfs_backend_ftp_use_workaround fuel ftp workaround = some ftp1) :
    ftp1.addr = ftp.addr := by
  unfold g_vfs_backend_ftp_use_workaround at h
  by_cases hn : workaround < 32
  · simp only [hn, not_true_eq_false, if_false, Option.map_eq_some'] at h
    obtain ⟨w, _, hw⟩ := h
    rw [← hw]
  · simp only [hn, not_false_eq_true, if_true, Option.some.injEq] at h
    rw [← h]

theorem do_mount_pre_login_addr (env : FtpEnv F W) (fuel : Nat) (task task1 : GVfsFtpTask F W)
    (h : do_mount_pre_login env fuel task = some task1) :
    task1.backend.addr = task.backend.addr := by
  unfold do_mount_pre_login at h
  simp only at h
  have hd := determine_features_addr env (g_vfs_ftp_task_receive env task 0).2
  have hr : (g_vfs_ftp_task_receive env task 0).2.backend.addr = task.backend.addr := rfl
  by_cases hf : (gvfs_backend_ftp_determine_features env
      (g_vfs_ftp_task_receive env task 0).2).1 = true
  · simp only [hf, not_true_eq_false, if_false, Option.some.injEq] at h
    rw [← h, hd, hr]
  · simp only [hf, Bool.false_eq_true, not_false_eq_true, if_true] at h
    cases hu : g_vfs_backend_ftp_use_workaround fuel
        (g_vfs_ftp_task_clear_error (gvfs_backend_ftp_determine_features env
          (g_vfs_ftp_task_receive env task 0).2).2).backend
        env.hdr.WORKAROUND_FEAT_AFTER_LOGIN with
    | none => rw [hu] at h; cases h
    | some ftp1 =>
      rw [hu] at h
      simp only [Option.some.injEq] at h
      rw [← h]
      have := use_workaround_addr fuel _ ftp1 _ hu
      simp only [set_features, log]
      rw [this]
      exact hd.trans hr

theorem do_mount_eq_finish (env : FtpEnv F W) (fuel : Nat) (ftp : GVfsBackendFtp F) (world : W)
    (task1 : GVfsFtpTask F W) (r : MountLocals × GVfsFtpTask F W)
    (hconn : (do_mount_connect env ftp world).conn ≠ none)
    (hpre : do_mount_pre_login env fuel (do_mount_connect env ftp world) = some task1)
    (hlogin : do_mount_login env fuel task1 = some r) :
    do_mount env fuel ftp world =
      some (do_mount_finish env ftp.addr r.1 (do_mount_post_login env r.2)) := by
  have haddr : task1.backend.addr = ftp.addr := do_mount_pre_login_addr env fuel _ task1 hpre
  unfold do_mount
  simp only [hconn, if_false, hpre, hlogin, haddr]

theorem do_mount_finish_of_error (env : FtpEnv F W) (addr : Option GSocketConnectable)
    (l : MountLocals) (task : GVfsFtpTask F W) (h : g_vfs_ftp_task_is_in_error task = true) :
    do_mount_finish env addr l task =
      g_vfs_ftp_task_done { log task (Event.connection_free task.conn) with conn := none } := by
  unfold do_mount_finish
  simp [h]

theorem do_mount_finish_of_address (env : FtpEnv F W) (addr : Option GSocketConnectable)
    (l : MountLocals) (task : GVfsFtpTask F W) (h : g_vfs_ftp_task_is_in_error task = false) :
    (do_mount_finish env addr l task).backend.addr =
      (match env.connection_get_address task.world task.conn with
        | Except.ok a => some a
        | Except.error _ => addr) ∧
    (do_mount_finish env addr l task).error = none ∧
    (do_mount_finish env addr l task).conn = task.conn ∧
    (do_mount_finish env addr l task).backend.queue = some [] ∧
    (do_mount_finish env addr l task).trace.getLast? = some (Event.done none) ∧
    ∃ name, Event.mounted name ∈ (do_mount_finish env addr l task).trace := by
  unfold do_mount_finish
  simp only [h, Bool.false_eq_true, not_false_eq_true, if_true]
  unfold g_vfs_ftp_task_is_in_error at h
  have hnone : task.error = none := by
    cases he : task.error with
    | none => rfl
    | some e => rw [he] at h; cases h
  cases env.connection_get_address task.world task.conn with
  | ok a =>
    simp only [g_vfs_ftp_task_is_in_error, hnone, Option.isSome_none, Bool.false_eq_true,
      if_false]
    refine ⟨?_, ?_, ?_, ?_, ?_, ?_⟩ <;>
      split_ifs <;> simp [g_vfs_ftp_task_done, log]
  | error e =>
    simp only [g_vfs_ftp_task_is_in_error, g_vfs_ftp_task_clear_error, task_set_error,
      Option.isSome_none, Bool.false_eq_true, if_false]
    refine ⟨?_, ?_, ?_, ?_, ?_, ?_⟩ <;>
      split_ifs <;> simp [g_vfs_ftp_task_done, log]

/-- C15. A run of `do_mount` that got its connection and came through the
pre-login commands and the login ends as follows. If the post-login commands
leave the task without error, the mount succeeds: the task ends without error,
the mount is announced and the job told of the success; the backend's address
is the remote address of the connection when that can be queried, and when
the query fails its error is dropped and the address is the one the backend
was given. If they leave the task in error, the connection is freed and the
job is told of that error, the backend staying as it was. -/
theorem do_mount_server_address (env : FtpEnv F W) (fuel : Nat) (ftp : GVfsBackendFtp F)
    (world : W) (task1 : GVfsFtpTask F W) (r : MountLocals × GVfsFtpTask F W)
    (hconn : (do_mount_connect env ftp world).conn ≠ none)
    (hpre : do_mount_pre_login env fuel (do_mount_connect env ftp world) = some task1)
    (hlogin : do_mount_login env fuel task1 = some r) :
    ∃ final, do_mount env fuel ftp world = some final ∧
      (g_vfs_ftp_task_is_in_error (do_mount_post_login env r.2) = false →
        final.error = none ∧
        final.trace.getLast? = some (Event.done none) ∧
        (∃ name, Event.mounted name ∈ final.trace) ∧
        final.conn = (do_mount_post_login env r.2).conn ∧
        final.backend.queue = some [] ∧
        (∀ a, env.connection_get_address (do_mount_post_login env r.2).world
            (do_mount_post_login env r.2).conn = Except.ok a →
          final.backend.addr = some a) ∧
        (∀ e, env.connection_get_address (do_mount_post_login env r.2).world
            (do_mount_post_login env r.2).conn = Except.error e →
          final.backend.addr = ftp.addr)) ∧
      (g_vfs_ftp_task_is_in_error (do_mount_post_login env r.2) = true →
        final.error = (do_mount_post_login env r.2).error ∧
        final.conn = none ∧
        final.trace = (do_mount_post_login env r.2).trace ++
          [Event.connection_free (do_mount_post_login env r.2).conn,
            Event.done (do_mount_post_login env r.2).error] ∧
        final.backend = (do_mount_post_login env r.2).backend) := by
  refine ⟨_, do_mount_eq_finish env fuel ftp world task1 r hconn hpre hlogin, ?_, ?_⟩
  · intro h
    obtain ⟨haddr, herror, hc, hq, hdone, hmounted⟩ :=
      do_mount_finish_of_address env ftp.addr r.1 (do_mount_post_login env r.2) h
    refine ⟨herror, hdone, hmounted, hc, hq, ?_, ?_⟩
    · intro a ha
      rw [haddr, ha]
    · intro e he
      rw [haddr, he]
  · intro h
    rw [do_mount_finish_of_error env ftp.addr r.1 (do_mount_post_login env r.2) h]
    exact ⟨rfl, rfl, by simp [g_vfs_ftp_task_done, log], rfl⟩

/-- C15 on the scripted server: the backend was given `ftp.example.org`, port
21, and the mount ends with the address of the connection. -/
theorem do_mount_server_address_witness :
    (do_mount_connect server_env (fresh_backend (some "anonymous"))
      server_feat_after_login).conn ≠ none ∧
    ∃ final, do_mount server_env 1 (fresh_backend (some "anonymous")) server_feat_after_login
        = some final ∧
      final.error = none ∧
      final.backend.addr = some (GSocketConnectable.socket "192.0.2.1:21") := by
  obtain ⟨final, hrun, hok, _⟩ := do_mount_server_address server_env 1
    (fresh_backend (some "anonymous")) server_feat_after_login _ _ (by decide) rfl rfl
  exact ⟨by decide, final, hrun, (hok rfl).1, (hok rfl).2.2.2.2.2.1 _ rfl⟩

/-! ## RNFR and RNTO -/

section Rename

variable [DecidableEq F]

theorem do_move_rename_reached (env : FtpEnv F W) (task : GVfsFtpTask F W)
    (srcfile destfile : F) (flags : Nat)
    (htask : ∀ flags1 args, Event.send flags1 ⟨"RNFR %s", args⟩ ∉ task.trace)
    (h : ∃ flags1 args, Event.send flags1 ⟨"RNFR %s", args⟩ ∈
      (do_move_rename env task srcfile destfile flags).trace) :
    ∃ reached : GVfsFtpTask F W,
      do_move_rename env task srcfile destfile flags =
        purge_file env
          (purge_file env
            (g_vfs_ftp_task_send env
              (g_vfs_ftp_task_send env reached (env.hdr.PASS_300 ||| env.hdr.FAIL_200)
                "RNFR %s" [some (env.get_ftp_path srcfile)]).2
              0 "RNTO %s" [some (env.get_ftp_path destfile)]).2
            srcfile)
          destfile := by
  unfold do_move_rename at h ⊢
  simp only at h ⊢
  by_cases hflag : flags &&& G_FILE_COPY_OVERWRITE = 0
  · simp only [hflag, if_true] at h ⊢
    cases hl : (g_vfs_ftp_dir_cache_lookup_file env task destfile false).1 with
    | some info =>
      exfalso
      rw [hl] at h
      obtain ⟨flags1, args, hmem⟩ := h
      simp only [if_true, task_set_error, lookup_file_trace, List.mem_append,
        List.mem_singleton] at hmem
      rcases hmem with hmem | hmem
      · exact htask flags1 args hmem
      · cases hmem
    | none =>
      simp only [Bool.false_eq_true, if_false]
      exact ⟨_, rfl⟩
  · simp only [hflag, if_false, Bool.false_eq_true]
    exact ⟨_, rfl⟩

/-- C17, as amended. Neither caller looks at the task between the two sends:
`do_set_display_name` always, and `do_move` whenever it gets to its RNFR
command, gives the task that the send of RNFR returns, in error or not,
straight to the send of RNTO, so that the call for RNTO is made in every such
run and it is the send that decides what a task in error puts on the wire. -/
theorem rnto_sent_after_rnfr (env : FtpEnv F W) (ftp : GVfsBackendFtp F) (world : W)
    (source destination : String) (flags : Nat) (filename display_name : String) :
    ((∃ flags1 args, Event.send flags1 ⟨"RNFR %s", args⟩ ∈
        (do_move env ftp world source destination flags).trace) →
      ∃ (reached : GVfsFtpTask F W) (destfile : F),
        do_move env ftp world source destination flags =
          g_vfs_ftp_task_done
            (purge_file env
              (purge_file env
                (g_vfs_ftp_task_send env
                  (g_vfs_ftp_task_send env reached (env.hdr.PASS_300 ||| env.hdr.FAIL_200)
                    "RNFR %s" [some (env.get_ftp_path (env.new_from_gvfs source))]).2
                  0 "RNTO %s" [some (env.get_ftp_path destfile)]).2
                (env.new_from_gvfs source))
              destfile) ∧
        Event.send 0 ⟨"RNTO %s", [some (env.get_ftp_path destfile)]⟩ ∈
          (do_move env ftp world source destination flags).trace) ∧
    (∃ (reached : GVfsFtpTask F W) (now : Option F),
      do_set_display_name env ftp world filename display_name =
        g_vfs_ftp_task_done
          (purge_dir
            (log
              (g_vfs_ftp_task_send env
                (g_vfs_ftp_task_send env reached (env.hdr.PASS_300 ||| env.hdr.FAIL_200)
                  "RNFR %s" [some (env.get_ftp_path (env.new_from_gvfs filename))]).2
                0 "RNTO %s" [now.map env.get_ftp_path]).2
              (Event.set_new_path (now.map env.get_gvfs_path)))
            (env.new_parent (env.new_from_gvfs filename))) ∧
      Event.send 0 ⟨"RNTO %s", [now.map env.get_ftp_path]⟩ ∈
        (do_set_display_name env ftp world filename display_name).trace) := by
  constructor
  · intro hreach
    have hcd : (g_vfs_ftp_task_try_cd env (G_VFS_FTP_TASK_INIT ftp world)
        (env.new_from_gvfs destination)).2.trace =
        [Event.send env.hdr.PASS_550
          ⟨"CWD %s", [some (env.get_ftp_path (env.new_from_gvfs destination))]⟩] := by
      rw [try_cd_trace_eq]
      rfl
    have hno : ∀ flags1 args, Event.send flags1 ⟨"RNFR %s", args⟩ ∉
        (g_vfs_ftp_task_try_cd env (G_VFS_FTP_TASK_INIT ftp world)
          (env.new_from_gvfs destination)).2.trace := by
      intro flags1 args
      rw [hcd]
      simp
    have hfinish : ∀ destfile : F,
        (∃ flags1 args, Event.send flags1 ⟨"RNFR %s", args⟩ ∈
          (g_vfs_ftp_task_done (do_move_rename env
            (g_vfs_ftp_task_try_cd env (G_VFS_FTP_TASK_INIT ftp world)
              (env.new_from_gvfs destination)).2
            (env.new_from_gvfs source) destfile flags)).trace) →
        ∃ reached : GVfsFtpTask F W,
          g_vfs_ftp_task_done (do_move_rename env
            (g_vfs_ftp_task_try_cd env (G_VFS_FTP_TASK_INIT ftp world)
              (env.new_from_gvfs destination)).2
            (env.new_from_gvfs source) destfile flags) =
          g_vfs_ftp_task_done
            (purge_file env
              (purge_file env
                (g_vfs_ftp_task_send env
                  (g_vfs_ftp_task_send env reached (env.hdr.PASS_300 ||| env.hdr.FAIL_200)
                    "RNFR %s" [some (env.get_ftp_path (env.new_from_gvfs source))]).2
                  0 "RNTO %s" [some (env.get_ftp_path destfile)]).2
                (env.new_from_gvfs source))
              destfile) ∧
          Event.send 0 ⟨"RNTO %s", [some (env.get_ftp_path destfile)]⟩ ∈
            (g_vfs_ftp_task_done (do_move_rename env
              (g_vfs_ftp_task_try_cd env (G_VFS_FTP_TASK_INIT ftp world)
                (env.new_from_gvfs destination)).2
              (env.new_from_gvfs source) destfile flags)).trace := by
      intro destfile hr
      have hr1 : ∃ flags1 args, Event.send flags1 ⟨"RNFR %s", args⟩ ∈
          (do_move_rename env
            (g_vfs_ftp_task_try_cd env (G_VFS_FTP_TASK_INIT ftp world)
              (env.new_from_gvfs destination)).2
            (env.new_from_gvfs source) destfile flags).trace := by
        obtain ⟨flags1, args, hmem⟩ := hr
        refine ⟨flags1, args, ?_⟩
        simp only [g_vfs_ftp_task_done, log, List.mem_append, List.mem_singleton] at hmem
        rcases hmem with hmem | hmem
        · exact hmem
        · cases hmem
      obtain ⟨reached, heq⟩ := do_move_rename_reached env _ _ destfile flags hno hr1
      refine ⟨reached, by rw [heq], ?_⟩
      rw [heq]
      simp [g_vfs_ftp_task_done, purge_file, log, send_trace]
    unfold do_move at hreach ⊢
    simp only at hreach ⊢
    split_ifs at hreach ⊢ with hbackup hcdok
    · exfalso
      obtain ⟨flags1, args, hmem⟩ := hreach
      simp [g_vfs_ftp_task_done, log, task_set_error, G_VFS_FTP_TASK_INIT] at hmem
    · cases hchild : env.new_child (env.new_from_gvfs destination)
          (env.path_get_basename source) with
      | error e =>
        exfalso
        rw [hchild] at hreach
        obtain ⟨flags1, args, hmem⟩ := hreach
        simp [g_vfs_ftp_task_done, log, task_set_error, hcd] at hmem
      | ok real =>
        rw [hchild] at hreach
        obtain ⟨reached, h1, h2⟩ := hfinish real hreach
        exact ⟨reached, real, h1, h2⟩
    · obtain ⟨reached, h1, h2⟩ := hfinish (env.new_from_gvfs destination) hreach
      exact ⟨reached, _, h1, h2⟩
  · refine ⟨_, _, rfl, ?_⟩
    unfold do_set_display_name
    simp [g_vfs_ftp_task_done, purge_dir, log, send_trace]

end Rename

/-- C17 refuted on the scripted server. RNFR is answered 550 and leaves the
task in error, and both `do_set_display_name` and `do_move` go on to call the
send of RNTO. -/
theorem rnto_sent_with_task_in_error :
    g_vfs_ftp_task_is_in_error
      (g_vfs_ftp_task_send server_env
        (G_VFS_FTP_TASK_INIT cached_backend (Server.mk [reply_550] server_files))
        (server_env.hdr.PASS_300 ||| server_env.hdr.FAIL_200) "RNFR %s"
        [some "/pub/a.txt"]).2 = true ∧
    (do_set_display_name server_env cached_backend (Server.mk [reply_550] server_files)
      "/pub/a.txt" "c.txt").trace =
      [Event.send 34 ⟨"RNFR %s", [some "/pub/a.txt"]⟩,
        Event.send 0 ⟨"RNTO %s", [some "/pub/c.txt"]⟩,
        Event.set_new_path (some "/pub/c.txt"),
        Event.purge_dir ["pub"],
        Event.done (some ⟨GIOErrorEnum.FAILED, "550 Failed."⟩)] ∧
    g_vfs_ftp_task_is_in_error
      (g_vfs_ftp_task_send server_env
        (g_vfs_ftp_task_try_cd server_env
          (G_VFS_FTP_TASK_INIT cached_backend
            (Server.mk [⟨550, [], none⟩, reply_550] server_files))
          ["pub", "c.txt"]).2
        (server_env.hdr.PASS_300 ||| server_env.hdr.FAIL_200) "RNFR %s"
        [some "/pub/a.txt"]).2 = true ∧
    (do_move server_env cached_backend (Server.mk [⟨550, [], none⟩, reply_550] server_files)
      "/pub/a.txt" "/pub/c.txt" G_FILE_COPY_OVERWRITE).trace =
      [Event.send 16 ⟨"CWD %s", [some "/pub/c.txt"]⟩,
        Event.send 34 ⟨"RNFR %s", [some "/pub/a.txt"]⟩,
        Event.send 0 ⟨"RNTO %s", [some "/pub/c.txt"]⟩,
        Event.purge_file ["pub", "a.txt"],
        Event.purge_file ["pub", "c.txt"],
        Event.done (some ⟨GIOErrorEnum.FAILED, "550 Failed."⟩)] := by
  decide

/-- C17, as amended, on the scripted server, where RNFR is answered 550. -/
theorem rnto_sent_after_rnfr_witness :
    ∃ (reached : GVfsFtpTask (List String) Server) (now : Option (List String)),
      do_set_display_name server_env cached_backend (Server.mk [reply_550] server_files)
          "/pub/a.txt" "c.txt" =
        g_vfs_ftp_task_done
          (purge_dir
            (log
              (g_vfs_ftp_task_send server_env
                (g_vfs_ftp_task_send server_env reached
                  (server_env.hdr.PASS_300 ||| server_env.hdr.FAIL_200)
                  "RNFR %s"
                  [some (server_env.get_ftp_path (server_env.new_from_gvfs "/pub/a.txt"))]).2
                0 "RNTO %s" [now.map server_env.get_ftp_path]).2
              (Event.set_new_path (now.map server_env.get_gvfs_path)))
            (server_env.new_parent (server_env.new_from_gvfs "/pub/a.txt"))) ∧
      Event.send 0 ⟨"RNTO %s", [now.map server_env.get_ftp_path]⟩ ∈
        (do_set_display_name server_env cached_backend (Server.mk [reply_550] server_files)
          "/pub/a.txt" "c.txt").trace :=
  (rnto_sent_after_rnfr server_env cached_backend (Server.mk [reply_550] server_files)
    "/pub/a.txt" "/pub/c.txt" G_FILE_COPY_OVERWRITE "/pub/a.txt" "c.txt").2

/-! ## Unmounting -/

theorem do_unmount_loop_eq (queue : List GVfsFtpConnection) (trace : List (Event F)) :
    do_unmount_loop queue trace =
      trace ++ queue.map (fun conn => Event.connection_free (some conn)) := by
  induction queue generalizing trace with
  | nil => simp [do_unmount_loop]
  | cons conn rest ih => simp [do_unmount_loop, ih]

theorem count_connection_free [DecidableEq F] (queue : List GVfsFtpConnection) (conn : GVfsFtpConnection) :
    (queue.map (fun c => (Event.connection_free (some c) : Event F))).count
      (Event.connection_free (some conn)) = queue.count conn := by
  induction queue with
  | nil => rfl
  | cons c rest ih =>
    by_cases h : c = conn
    · subst h
      simp [ih]
    · have h1 : (Event.connection_free (some c) : Event F) ≠
          Event.connection_free (some conn) := by
        intro he
        injection he with he
        injection he with he
        exact h he
      rw [List.map_cons, List.count_cons_of_ne h1.symm, List.count_cons_of_ne (Ne.symm h), ih]

/-- C16, as amended. The function `do_unmount` frees the connections of the
idle queue, each as often as it is queued and so exactly once when it is
queued once, in queue order, and frees nothing else; it then leaves the queue
NULL, so that the assertion of `g_vfs_backend_ftp_finalize` holds, wakes the
waiters and reports success. The count of open connections, which takes in
the connections that tasks hold, is left as it was. -/
theorem do_unmount_frees_idle_queue [DecidableEq F] (ftp : GVfsBackendFtp F) :
    (do_unmount ftp).2 =
      (ftp.queue.getD []).map (fun conn => Event.connection_free (some conn)) ++
        [Event.cond_broadcast, Event.job_succeeded] ∧
    (∀ conn, (do_unmount ftp).2.count (Event.connection_free (some conn)) =
      (ftp.queue.getD []).count conn) ∧
    (∀ conn, Event.connection_free conn ∈ (do_unmount ftp).2 →
      ∃ idle ∈ ftp.queue.getD [], conn = some idle) ∧
    (do_unmount ftp).1.queue = none ∧
    g_vfs_backend_ftp_finalize (do_unmount ftp).1 = some () ∧
    (do_unmount ftp).1.connections = ftp.connections := by
  have htrace : (do_unmount ftp).2 =
      (ftp.queue.getD []).map (fun conn => Event.connection_free (some conn)) ++
        [Event.cond_broadcast, Event.job_succeeded] := by
    unfold do_unmount
    simp [do_unmount_loop_eq]
  refine ⟨htrace, ?_, ?_, rfl, rfl, rfl⟩
  · intro conn
    rw [htrace, List.count_append, count_connection_free]
    simp
  · intro conn hmem
    rw [htrace] at hmem
    simp only [List.mem_append, List.mem_map, List.mem_cons, List.mem_singleton,
      List.not_mem_nil, or_false] at hmem
    rcases hmem with ⟨idle, hidle, heq⟩ | h | h
    · injection heq with heq
      exact ⟨idle, hidle, heq.symm⟩
    · cases h
    · cases h

/-- C16 refuted on a backend with two connections open, connection 1 idle in
the queue and connection 2 with a task: `do_unmount` frees connection 1 only,
and the backend still counts two connections. -/
theorem do_unmount_leaves_held_connection :
    (do_unmount busy_backend).2 =
      [Event.connection_free (some 1), Event.cond_broadcast, Event.job_succeeded] ∧
    Event.connection_free (some 2) ∉ (do_unmount busy_backend).2 ∧
    (do_unmount busy_backend).1.queue = none ∧
    (do_unmount busy_backend).1.connections = 2 := by
  decide

/-- C16, as amended, on the backend with connection 1 idle and connection 2
with a task. -/
theorem do_unmount_frees_idle_queue_witness :
    (do_unmount busy_backend).2.count (Event.connection_free (some 1)) = 1 ∧
    (do_unmount busy_backend).2.count (Event.connection_free (some 2)) = 0 :=
  ⟨((do_unmount_frees_idle_queue busy_backend).2.1 1).trans (by decide),
    ((do_unmount_frees_idle_queue busy_backend).2.1 2).trans (by decide)⟩

/-! ## The mount specification -/

/-- C20. The function `try_mount` of the FTP backend fails the job with
`G_IO_ERROR_INVALID_ARGUMENT` and returns TRUE, the backend untouched, when
the mount specification has no `host`, and otherwise fails nothing, returns
FALSE and sets the address. That of the AFP backend does the former when the
specification has no `host` or no `volume`, and the latter otherwise. -/
theorem try_mount_required_keys (strtoul : String → Nat) (atoi : String → Int)
    (ftp : GVfsBackendFtp F) (afp_backend : GVfsBackendAfp)
    (mount_spec : String → Option String) :
    (mount_spec "host" = none →
      (try_mount strtoul ftp mount_spec).1 = true ∧
      (try_mount strtoul ftp mount_spec).2.2 =
        [Event.job_failed ⟨GIOErrorEnum.INVALID_ARGUMENT, "No hostname specified"⟩] ∧
      (try_mount strtoul ftp mount_spec).2.1.addr = ftp.addr ∧
      (try_mount strtoul ftp mount_spec).2.1.user = ftp.user ∧
      (try_mount strtoul ftp mount_spec).2.1.host_display_name = ftp.host_display_name) ∧
    (mount_spec "host" ≠ none →
      (try_mount strtoul ftp mount_spec).1 = false ∧
      (try_mount strtoul ftp mount_spec).2.2 = [] ∧
      (try_mount strtoul ftp mount_spec).2.1.addr ≠ none) ∧
    (mount_spec "host" = none ∨ mount_spec "volume" = none →
      (Afp.try_mount atoi afp_backend mount_spec).1 = true ∧
      (∃ message, (Afp.try_mount atoi afp_backend mount_spec).2.2 =
        [Event.job_failed ⟨GIOErrorEnum.INVALID_ARGUMENT, message⟩]) ∧
      (Afp.try_mount atoi afp_backend mount_spec).2.1 = afp_backend) ∧
    (mount_spec "host" ≠ none ∧ mount_spec "volume" ≠ none →
      (Afp.try_mount atoi afp_backend mount_spec).1 = false ∧
      (Afp.try_mount atoi afp_backend mount_spec).2.2 = [] ∧
      (Afp.try_mount atoi afp_backend mount_spec).2.1.addr ≠ none) := by
  unfold try_mount Afp.try_mount
  refine ⟨?_, ?_, ?_, ?_⟩
  · intro h
    simp [h]
  · intro h
    obtain ⟨host, hhost⟩ := Option.ne_none_iff_exists'.mp h
    simp [hhost]
  · intro h
    cases hhost : mount_spec "host" with
    | none => simp
    | some host =>
      rcases h with h | h
      · rw [hhost] at h
        cases h
      · simp [h]
  · rintro ⟨h1, h2⟩
    obtain ⟨host, hhost⟩ := Option.ne_none_iff_exists'.mp h1
    obtain ⟨volume, hvolume⟩ := Option.ne_none_iff_exists'.mp h2
    simp [hhost, hvolume]

/-- C20 on a specification with a host and no volume: the FTP backend takes
it, the AFP backend refuses it. -/
theorem try_mount_required_keys_witness :
    (try_mount (fun _ => 2121) (fresh_backend none)
      (mount_spec_of [("host", "ftp.example.org"), ("port", "2121")])).1 = false ∧
    (Afp.try_mount (fun _ => 2121) ⟨none, none, none⟩
      (mount_spec_of [("host", "ftp.example.org"), ("port", "2121")])).1 = true :=
  ⟨((try_mount_required_keys (fun _ => 2121) (fun _ => 2121) (fresh_backend none)
      ⟨none, none, none⟩
      (mount_spec_of [("host", "ftp.example.org"), ("port", "2121")])).2.1 (by decide)).1,
    ((try_mount_required_keys (fun _ => 2121) (fun _ => 2121) (fresh_backend none)
      ⟨none, none, none⟩
      (mount_spec_of [("host", "ftp.example.org"), ("port", "2121")])).2.2.1
        (Or.inr (by decide))).1⟩

/-! ## Concurrent writers of the workaround word -/

theorem list_set_map_same {α β : Type} (f : α → β) (l : List α) (i : Nat) (x c : α)
    (h : l[i]? = some c) (hf : f x = f c) : (l.set i x).map f = l.map f := by
  induction l generalizing i with
  | nil => rfl
  | cons a rest ih =>
    cases i with
    | zero =>
      simp only [List.getElem?_cons_zero, Option.some.injEq] at h
      simp [List.set, hf, h]
    | succ j =>
      simp only [List.getElem?_cons_succ] at h
      simp [List.set, ih j h]

theorem list_getElem?_set_same {α : Type} (l : List α) (i : Nat) (x c : α)
    (h : l[i]? = some c) : (l.set i x)[i]? = some x := by
  induction l generalizing i with
  | nil => simp at h
  | cons a rest ih =>
    cases i with
    | zero => simp [List.set]
    | succ j =>
      simp only [List.getElem?_cons_succ] at h
      simp [List.set, ih j h]

theorem use_workaround_step_spec (workarounds : Nat) (call : UseWorkaroundCall)
    (hset : call.workaround < 32 → call.set = shl1 call.workaround)
    (hret : call.pc = UseWorkaroundPc.returned → call.workaround < 32 →
      workarounds.testBit call.workaround = true) :
    bits_subset workarounds (use_workaround_step workarounds call).1 ∧
    (use_workaround_step workarounds call).2.workaround = call.workaround ∧
    (use_workaround_step workarounds call).2.set = call.set ∧
    ((use_workaround_step workarounds call).2.pc = UseWorkaroundPc.returned →
      call.workaround < 32 →
      (use_workaround_step workarounds call).1.testBit call.workaround = true) := by
  unfold use_workaround_step
  cases hpc : call.pc with
  | get =>
    simp only
    by_cases hz : workarounds &&& call.set = 0
    · simp only [hz, if_true]
      exact ⟨bits_subset_refl _, trivial, trivial, fun h => by cases h⟩
    · simp only [hz, if_false]
      refine ⟨bits_subset_refl _, trivial, trivial, fun _ hn => ?_⟩
      rw [hset hn] at hz
      rw [← and_shl1_ne_zero workarounds hn]
      simpa using hz
  | exchange cur =>
    simp only [g_atomic_int_compare_and_exchange]
    by_cases hc : workarounds = cur
    · subst hc
      simp only [if_true, not_true_eq_false, if_false]
      refine ⟨bits_subset_or _ _, trivial, trivial, fun _ hn => ?_⟩
      rw [hset hn, Nat.testBit_or, testBit_shl1]
      simp [hn]
    · simp only [hc, if_false, Bool.false_eq_true, not_false_eq_true, if_true]
      exact ⟨bits_subset_refl _, trivial, trivial, fun h => by cases h⟩
  | returned =>
    simp only
    exact ⟨bits_subset_refl _, trivial, trivial, fun _ hn => hret hpc hn⟩

theorem use_workaround_run_spec (schedule : List Nat) (state : Nat × List UseWorkaroundCall)
    (h : ReturnedBitsSet state) :
    ReturnedBitsSet (use_workaround_run schedule state) ∧
    bits_subset state.1 (use_workaround_run schedule state).1 ∧
    (use_workaround_run schedule state).2.map (fun call => call.workaround) =
      state.2.map (fun call => call.workaround) := by
  induction schedule generalizing state with
  | nil => exact ⟨h, bits_subset_refl _, rfl⟩
  | cons i rest ih =>
    unfold use_workaround_run
    cases hcall : state.2[i]? with
    | none => exact ih state h
    | some call =>
      simp only
      have hmem : call ∈ state.2 := List.getElem?_mem hcall
      obtain ⟨hsub, hw, hs, hbit⟩ :=
        use_workaround_step_spec state.1 call (h call hmem).1 (h call hmem).2
      have hnext : ReturnedBitsSet
          ((use_workaround_step state.1 call).1,
            state.2.set i (use_workaround_step state.1 call).2) := by
        intro other hother
        rcases List.mem_or_eq_of_mem_set hother with ho | ho
        · exact ⟨(h other ho).1, fun hr hn => hsub _ ((h other ho).2 hr hn)⟩
        · subst ho
          refine ⟨fun hn => ?_, fun hr hn => ?_⟩
          · rw [hs, hw]
            exact (h call hmem).1 (hw ▸ hn)
          · rw [hw]
            exact hbit hr (hw ▸ hn)
      obtain ⟨h1, h2, h3⟩ := ih _ hnext
      refine ⟨h1, bits_subset_trans hsub h2, ?_⟩
      rw [h3]
      exact list_set_map_same _ _ _ _ _ hcall hw

theorem use_workaround_enter_spec (workarounds : Nat) (indices : List Nat) :
    ReturnedBitsSet (workarounds, indices.map use_workaround_enter) := by
  intro call hcall
  simp only [List.mem_map] at hcall
  obtain ⟨n, _, hn⟩ := hcall
  subst hn
  unfold use_workaround_enter
  by_cases h : n < 32
  · simp [h]
  · simp [h]

theorem use_workaround_step_thrice (workarounds : Nat) (call : UseWorkaroundCall) :
    (use_workaround_step
      (use_workaround_step (use_workaround_step workarounds call).1
        (use_workaround_step workarounds call).2).1
      (use_workaround_step (use_workaround_step workarounds call).1
        (use_workaround_step workarounds call).2).2).2.pc = UseWorkaroundPc.returned := by
  rcases call with ⟨n, set, pc⟩
  cases pc with
  | get =>
    by_cases hz : workarounds &&& set = 0
    · simp [use_workaround_step, g_atomic_int_compare_and_exchange, hz]
    · simp [use_workaround_step, g_atomic_int_compare_and_exchange, hz]
  | exchange cur =>
    by_cases hc : workarounds = cur
    · simp [use_workaround_step, g_atomic_int_compare_and_exchange, hc]
    · by_cases hz : workarounds &&& set = 0
      · simp [use_workaround_step, g_atomic_int_compare_and_exchange, hc, hz]
      · simp [use_workaround_step, g_atomic_int_compare_and_exchange, hc, hz]
  | returned => simp [use_workaround_step]

theorem use_workaround_run_alone (state : Nat × List UseWorkaroundCall) (i : Nat)
    (call : UseWorkaroundCall) (h : state.2[i]? = some call) :
    ∃ after, (use_workaround_run [i, i, i] state).2[i]? = some after ∧
      after.pc = UseWorkaroundPc.returned := by
  have h1 := list_getElem?_set_same state.2 i (use_workaround_step state.1 call).2 call h
  have h2 := list_getElem?_set_same _ i
    (use_workaround_step (use_workaround_step state.1 call).1
      (use_workaround_step state.1 call).2).2 _ h1
  have h3 := list_getElem?_set_same _ i
    (use_workaround_step
      (use_workaround_step (use_workaround_step state.1 call).1
        (use_workaround_step state.1 call).2).1
      (use_workaround_step (use_workaround_step state.1 call).1
        (use_workaround_step state.1 call).2).2).2 _ h2
  refine ⟨_, ?_, use_workaround_step_thrice state.1 call⟩
  simp only [use_workaround_run, h, h1, h2]
  exact h3

/-- C18. Calls of `g_vfs_backend_ftp_use_workaround` that run at the same
time, their atomic steps interleaved in any order, never lose a bit: the word
keeps every bit it had, a call that has returned with an index below 32 finds
its workaround in use, and so, once all calls have returned, every index
below 32 that was asked for is in use. A call that is in progress returns
within three steps of its own when the others stand still. -/
theorem concurrent_use_workaround_keeps_bits (ftp : GVfsBackendFtp F)
    (indices schedule : List Nat) :
    (use_workaround_run schedule
        (ftp.workarounds, indices.map use_workaround_enter)).2.map
      (fun call => call.workaround) = indices ∧
    bits_subset ftp.workarounds
      (use_workaround_run schedule (ftp.workarounds, indices.map use_workaround_enter)).1 ∧
    (∀ call ∈ (use_workaround_run schedule
        (ftp.workarounds, indices.map use_workaround_enter)).2,
      call.pc = UseWorkaroundPc.returned → call.workaround < 32 →
      g_vfs_backend_ftp_uses_workaround
        { ftp with workarounds := (use_workaround_run schedule
            (ftp.workarounds, indices.map use_workaround_enter)).1 }
        call.workaround = true) ∧
    ((∀ call ∈ (use_workaround_run schedule
        (ftp.workarounds, indices.map use_workaround_enter)).2,
        call.pc = UseWorkaroundPc.returned) →
      ∀ workaround ∈ indices, workaround < 32 →
        g_vfs_backend_ftp_uses_workaround
          { ftp with workarounds := (use_workaround_run schedule
              (ftp.workarounds, indices.map use_workaround_enter)).1 }
          workaround = true) ∧
    (∀ i call,
      (use_workaround_run schedule
        (ftp.workarounds, indices.map use_workaround_enter)).2[i]? = some call →
      ∃ after,
        (use_workaround_run [i, i, i]
          (use_workaround_run schedule
            (ftp.workarounds, indices.map use_workaround_enter))).2[i]? = some after ∧
        after.pc = UseWorkaroundPc.returned) := by
  obtain ⟨hinv, hsub, hmap⟩ := use_workaround_run_spec schedule
    (ftp.workarounds, indices.map use_workaround_enter)
    (use_workaround_enter_spec ftp.workarounds indices)
  have hindices : (indices.map use_workaround_enter).map (fun call => call.workaround) =
      indices := by
    rw [List.map_map]
    conv_rhs => rw [← List.map_id indices]
    apply List.map_congr_left
    intro n _
    show (use_workaround_enter n).workaround = n
    unfold use_workaround_enter
    split_ifs <;> rfl
  have hbit : ∀ call ∈ (use_workaround_run schedule
        (ftp.workarounds, indices.map use_workaround_enter)).2,
      call.pc = UseWorkaroundPc.returned → call.workaround < 32 →
      g_vfs_backend_ftp_uses_workaround
        { ftp with workarounds := (use_workaround_run schedule
            (ftp.workarounds, indices.map use_workaround_enter)).1 }
        call.workaround = true := by
    intro call hcall hret hn
    rw [uses_workaround_eq]
    simp [hn, (hinv call hcall).2 hret hn]
  refine ⟨hmap.trans hindices, hsub, hbit, ?_, ?_⟩
  · intro hall workaround hmem hn
    have hmem1 : workaround ∈ (use_workaround_run schedule
        (ftp.workarounds, indices.map use_workaround_enter)).2.map
        (fun call => call.workaround) := by
      rw [hmap, hindices]
      exact hmem
    obtain ⟨call, hcall, hw⟩ := List.mem_map.mp hmem1
    subst hw
    exact hbit call hcall (hall call hcall) hn
  · intro i call hcall
    exact use_workaround_run_alone _ i call hcall

/-- C18 on two calls, for the workarounds 0 and 1, that both read the word
before either writes it: the exchange of the second fails, it reads again,
and the word ends with both bits. -/
theorem concurrent_use_workaround_keeps_bits_witness :
    use_workaround_run [0, 1, 0, 1, 1, 1]
        ((fresh_backend none).workarounds, [0, 1].map use_workaround_enter) =
      (3, [⟨0, 1, UseWorkaroundPc.returned⟩, ⟨1, 2, UseWorkaroundPc.returned⟩]) ∧
    use_workaround_run [0, 1, 0, 1]
        ((fresh_backend none).workarounds, [0, 1].map use_workaround_enter) =
      (1, [⟨0, 1, UseWorkaroundPc.returned⟩, ⟨1, 2, UseWorkaroundPc.get⟩]) ∧
    g_vfs_backend_ftp_uses_workaround
      { fresh_backend none with workarounds := (use_workaround_run [0, 1, 0, 1, 1, 1]
          ((fresh_backend none).workarounds, [0, 1].map use_workaround_enter)).1 } 1 = true :=
  ⟨by decide, by decide,
    (concurrent_use_workaround_keeps_bits (fresh_backend none) [0, 1]
      [0, 1, 0, 1, 1, 1]).2.2.2.1 (by decide) 1 (by decide) (by decide)⟩


/-! ## The choice of the directory cache functions -/

/-- C21. The function `gvfs_backend_ftp_setup_directory_cache` selects the Unix
functions exactly when the system is `G_VFS_FTP_SYSTEM_UNIX` and the default
functions for every other system, Windows NT and the undetected one included;
two backends with the same system get the same functions, and the cache is a
new one. -/
theorem setup_directory_cache_by_system (ftp ftp1 : GVfsBackendFtp F) :
    ((gvfs_backend_ftp_setup_directory_cache ftp).dir_funcs =
        some GVfsFtpDirFuncs.funcs_unix ↔ ftp.system = GVfsFtpSystem.UNIX) ∧
    ((gvfs_backend_ftp_setup_directory_cache ftp).dir_funcs =
        some GVfsFtpDirFuncs.funcs_default ↔ ftp.system ≠ GVfsFtpSystem.UNIX) ∧
    (ftp.system = GVfsFtpSystem.WINDOWS →
      (gvfs_backend_ftp_setup_directory_cache ftp).dir_funcs =
        some GVfsFtpDirFuncs.funcs_default) ∧
    (ftp.system = GVfsFtpSystem.UNKNOWN →
      (gvfs_backend_ftp_setup_directory_cache ftp).dir_funcs =
        some GVfsFtpDirFuncs.funcs_default) ∧
    (ftp1.system = ftp.system →
      (gvfs_backend_ftp_setup_directory_cache ftp1).dir_funcs =
        (gvfs_backend_ftp_setup_directory_cache ftp).dir_funcs) ∧
    (gvfs_backend_ftp_setup_directory_cache ftp).dir_cache = [] ∧
    (gvfs_backend_ftp_setup_directory_cache ftp).system = ftp.system := by
  unfold gvfs_backend_ftp_setup_directory_cache
  refine ⟨?_, ?_, ?_, ?_, ?_, rfl, rfl⟩
  · by_cases h : ftp.system = GVfsFtpSystem.UNIX <;> simp [h]
  · by_cases h : ftp.system = GVfsFtpSystem.UNIX <;> simp [h]
  · intro h
    simp [h]
  · intro h
    simp [h]
  · intro h
    simp [h]

/-- C21 on the three systems. -/
theorem setup_directory_cache_by_system_witness :
    (gvfs_backend_ftp_setup_directory_cache cached_backend).dir_funcs
      = some GVfsFtpDirFuncs.funcs_unix ∧
    (gvfs_backend_ftp_setup_directory_cache
      { cached_backend with system := GVfsFtpSystem.WINDOWS }).dir_funcs
      = some GVfsFtpDirFuncs.funcs_default ∧
    (gvfs_backend_ftp_setup_directory_cache (fresh_backend none)).dir_funcs
      = some GVfsFtpDirFuncs.funcs_default :=
  ⟨(setup_directory_cache_by_system cached_backend cached_backend).1.mpr rfl,
    (setup_directory_cache_by_system { cached_backend with system := GVfsFtpSystem.WINDOWS }
      cached_backend).2.2.1 rfl,
    (setup_directory_cache_by_system (fresh_backend none) cached_backend).2.2.2.1 rfl⟩

/-! ## Changing the directory -/

theorem determine_features_match_extends (feature : List Char) (table : List (List Char × Nat))
    (task : GVfsFtpTask F W) :
    ∃ rest, (determine_features_match feature table task).trace = task.trace ++ rest := by
  induction table generalizing task with
  | nil => exact ⟨[], by simp [determine_features_match]⟩
  | cons entry table ih =>
    unfold determine_features_match
    split_ifs
    · obtain ⟨rest, h⟩ := ih (set_features task (task.backend.features ||| shl1 entry.2))
      exact ⟨Event.features (task.backend.features ||| shl1 entry.2) :: rest,
        by rw [h]; simp [set_features, log]⟩
    · exact ih task

theorem determine_features_lines_extends (hdr : Header) (lines : List (List Char))
    (task : GVfsFtpTask F W) :
    ∃ rest, (determine_features_lines hdr lines task).trace = task.trace ++ rest := by
  induction lines generalizing task with
  | nil => exact ⟨[], by simp [determine_features_lines]⟩
  | cons line lines ih =>
    unfold determine_features_lines
    split_ifs
    · exact ih task
    · simp only
      obtain ⟨rest1, h1⟩ := determine_features_match_extends
        ((line.drop 1).dropWhile g_ascii_isspace) (features hdr) task
      obtain ⟨rest2, h2⟩ := ih (determine_features_match
        ((line.drop 1).dropWhile g_ascii_isspace) (features hdr) task)
      exact ⟨rest1 ++ rest2, by rw [h2, h1, List.append_assoc]⟩

theorem determine_features_first (env : FtpEnv F W) (task : GVfsFtpTask F W) :
    ∃ rest, (gvfs_backend_ftp_determine_features env task).2.trace =
      task.trace ++ Event.send 0 ⟨"FEAT", []⟩ :: rest := by
  unfold gvfs_backend_ftp_determine_features
  simp only
  split_ifs
  · exact ⟨[], by simp [g_vfs_ftp_task_sendv, log]⟩
  · obtain ⟨rest, h⟩ := determine_features_lines_extends env.hdr
      ((g_vfs_ftp_task_sendv env task 0 "FEAT" []).2.1.drop 1)
      (set_features (g_vfs_ftp_task_sendv env task 0 "FEAT" []).2.2 0)
    exact ⟨Event.features 0 :: rest,
      by rw [h]; simp [set_features, g_vfs_ftp_task_sendv, log]⟩

theorem determine_system_loop_trace (system_name : List Char) (table : List KnownSystem)
    (task : GVfsFtpTask F W) :
    (determine_system_loop system_name table task).trace = task.trace := by
  induction table generalizing task with
  | nil => rfl
  | cons entry table ih =>
    unfold determine_system_loop
    split_ifs
    · rfl
    · exact ih task

theorem determine_system_extends (env : FtpEnv F W) (task : GVfsFtpTask F W) :
    ∃ rest, (gvfs_backend_ftp_determine_system env task).trace = task.trace ++ rest ∧
      ∀ e ∈ rest, e = Event.send 0 ⟨"SYST", []⟩ := by
  unfold gvfs_backend_ftp_determine_system
  simp only
  split_ifs
  · exact ⟨[], by simp, by simp⟩
  · exact ⟨[Event.send 0 ⟨"SYST", []⟩],
      by simp [g_vfs_ftp_task_clear_error, g_vfs_ftp_task_sendv, log], by simp⟩
  · exact ⟨[Event.send 0 ⟨"SYST", []⟩],
      by rw [determine_system_loop_trace]; simp [g_vfs_ftp_task_sendv, log], by simp⟩

theorem determine_system_features (env : FtpEnv F W) (task : GVfsFtpTask F W) :
    (gvfs_backend_ftp_determine_system env task).backend.features = task.backend.features :=
  (determine_system_same env task).1

theorem do_mount_post_login_rest (env : FtpEnv F W) (task : GVfsFtpTask F W) :
    ({ gvfs_backend_ftp_determine_system env (g_vfs_ftp_task_setup_connection env task) with
        backend := gvfs_backend_ftp_setup_directory_cache
          (gvfs_backend_ftp_determine_system env
            (g_vfs_ftp_task_setup_connection env task)).backend } :
      GVfsFtpTask F W).backend.features = task.backend.features ∧
    ∃ rest,
      ({ gvfs_backend_ftp_determine_system env (g_vfs_ftp_task_setup_connection env task) with
          backend := gvfs_backend_ftp_setup_directory_cache
            (gvfs_backend_ftp_determine_system env
              (g_vfs_ftp_task_setup_connection env task)).backend } :
        GVfsFtpTask F W).trace = task.trace ++ Event.setup_connection :: rest ∧
      ∀ e ∈ rest, e = Event.send 0 ⟨"SYST", []⟩ := by
  refine ⟨?_, ?_⟩
  · show (gvfs_backend_ftp_determine_system env
      (g_vfs_ftp_task_setup_connection env task)).backend.features = _
    rw [determine_system_features]
    rfl
  · obtain ⟨rest, h, hrest⟩ :=
      determine_system_extends env (g_vfs_ftp_task_setup_connection env task)
    refine ⟨rest, ?_, hrest⟩
    show (gvfs_backend_ftp_determine_system env
      (g_vfs_ftp_task_setup_connection env task)).trace = _
    rw [h]
    simp [g_vfs_ftp_task_setup_connection, log]

theorem getElem?_append_cons_length {α : Type} (l rest : List α) (a : α) :
    (l ++ a :: rest)[l.length]? = some a := by
  rw [List.getElem?_append_right (le_refl _)]
  simp

theorem SamePool.unchanged (task : GVfsFtpTask F W) : SamePool task task := ⟨rfl, rfl, rfl⟩

theorem SamePool.followed {t1 t2 t3 : GVfsFtpTask F W} (h1 : SamePool t1 t2)
    (h2 : SamePool t2 t3) : SamePool t1 t3 :=
  ⟨h2.1.trans h1.1, h2.2.1.trans h1.2.1, h2.2.2.trans h1.2.2⟩

theorem determine_features_match_pool (feature : List Char) (table : List (List Char × Nat))
    (task : GVfsFtpTask F W) : SamePool task (determine_features_match feature table task) := by
  induction table generalizing task with
  | nil => exact SamePool.unchanged _
  | cons entry table ih =>
    unfold determine_features_match
    split_ifs
    · exact SamePool.followed ⟨rfl, rfl, rfl⟩ (ih _)
    · exact ih task

theorem determine_features_lines_pool (hdr : Header) (lines : List (List Char))
    (task : GVfsFtpTask F W) : SamePool task (determine_features_lines hdr lines task) := by
  induction lines generalizing task with
  | nil => exact SamePool.unchanged _
  | cons line lines ih =>
    unfold determine_features_lines
    split_ifs
    · exact ih task
    · exact (determine_features_match_pool _ _ task).followed (ih _)

theorem determine_features_pool (env : FtpEnv F W) (task : GVfsFtpTask F W) :
    SamePool task (gvfs_backend_ftp_determine_features env task).2 := by
  unfold gvfs_backend_ftp_determine_features
  simp only
  split_ifs
  · exact ⟨rfl, rfl, rfl⟩
  · exact SamePool.followed ⟨rfl, rfl, rfl⟩ (determine_features_lines_pool _ _ _)

theorem use_workaround_pool (fuel : Nat) (ftp ftp1 : GVfsBackendFtp F) (workaround : Nat)
    (h : g_vfs_backend_ftp_use_workaround fuel ftp workaround = some ftp1) :
    ftp1.queue = ftp.queue ∧ ftp1.connections = ftp.connections ∧
      ftp1.max_connections = ftp.max_connections := by
  unfold g_vfs_backend_ftp_use_workaround at h
  by_cases hn : workaround < 32
  · simp only [hn, not_true_eq_false, if_false, Option.map_eq_some'] at h
    obtain ⟨w, _, hw⟩ := h
    rw [← hw]
    exact ⟨rfl, rfl, rfl⟩
  · simp only [hn, not_false_eq_true, if_true, Option.some.injEq] at h
    rw [← h]
    exact ⟨rfl, rfl, rfl⟩

theorem do_mount_pre_login_pool (env : FtpEnv F W) (fuel : Nat) (task task1 : GVfsFtpTask F W)
    (h : do_mount_pre_login env fuel task = some task1) : SamePool task task1 := by
  unfold do_mount_pre_login at h
  simp only at h
  have hr : SamePool task (g_vfs_ftp_task_receive env task 0).2 := ⟨rfl, rfl, rfl⟩
  have hd := hr.followed (determine_features_pool env (g_vfs_ftp_task_receive env task 0).2)
  by_cases hf : (gvfs_backend_ftp_determine_features env
      (g_vfs_ftp_task_receive env task 0).2).1 = true
  · simp only [hf, not_true_eq_false, if_false, Option.some.injEq] at h
    rw [← h]
    exact hd
  · simp only [hf, Bool.false_eq_true, not_false_eq_true, if_true] at h
    cases hu : g_vfs_backend_ftp_use_workaround fuel
        (g_vfs_ftp_task_clear_error (gvfs_backend_ftp_determine_features env
          (g_vfs_ftp_task_receive env task 0).2).2).backend
        env.hdr.WORKAROUND_FEAT_AFTER_LOGIN with
    | none => rw [hu] at h; cases h
    | some ftp1 =>
      rw [hu] at h
      simp only [Option.some.injEq] at h
      rw [← h]
      obtain ⟨h1, h2, h3⟩ := use_workaround_pool fuel _ ftp1 _ hu
      exact hd.followed ⟨h1, h2, h3⟩

theorem do_mount_try_login_pool (env : FtpEnv F W) (l : MountLocals) (task : GVfsFtpTask F W) :
    SamePool task (do_mount_try_login env l task).2.2 := by
  unfold do_mount_try_login
  by_cases ha : l.anonymous = true
  · simp only [ha, if_true]
    split_ifs <;> exact ⟨rfl, rfl, rfl⟩
  · simp only [ha, Bool.false_eq_true, if_false]
    split_ifs <;> exact ⟨rfl, rfl, rfl⟩

theorem do_mount_ask_password_pool (env : FtpEnv F W) (l : MountLocals)
    (task : GVfsFtpTask F W) : SamePool task (do_mount_ask_password env l task).2.2 := by
  unfold do_mount_ask_password
  simp only
  split_ifs <;> exact ⟨rfl, rfl, rfl⟩

theorem do_mount_login_loop_pool (env : FtpEnv F W) (fuel : Nat) (l : MountLocals)
    (task : GVfsFtpTask F W) (r : MountLocals × GVfsFtpTask F W)
    (h : do_mount_login_loop env fuel l task = some r) : SamePool task r.2 := by
  induction fuel generalizing l task with
  | zero => simp [do_mount_login_loop] at h
  | succ fuel ih =>
    unfold do_mount_login_loop at h
    simp only at h
    have ha := do_mount_ask_password_pool env l task
    have ht := do_mount_try_login_pool env (do_mount_ask_password env l task).2.1
      (do_mount_ask_password env l task).2.2
    split_ifs at h with h1 h2
    · cases h
      exact ha
    · exact (ha.followed ht).followed (ih _ _ h)
    · cases h
      exact ha.followed ht

theorem do_mount_login_pool (env : FtpEnv F W) (fuel : Nat) (task : GVfsFtpTask F W)
    (r : MountLocals × GVfsFtpTask F W) (h : do_mount_login env fuel task = some r) :
    SamePool task r.2 := by
  unfold do_mount_login at h
  simp only at h
  split at h
  · have ht := do_mount_try_login_pool env (by assumption) task
    split_ifs at h with h1
    · exact ht.followed (do_mount_login_loop_pool env _ _ _ _ h)
    · cases h
      exact ht
  · exact do_mount_login_loop_pool env _ _ _ _ h

theorem determine_system_loop_pool (system_name : List Char) (table : List KnownSystem)
    (task : GVfsFtpTask F W) :
    SamePool task (determine_system_loop system_name table task) := by
  induction table with
  | nil => exact SamePool.unchanged _
  | cons e rest ih =>
    unfold determine_system_loop
    split_ifs
    · exact ⟨rfl, rfl, rfl⟩
    · exact ih

theorem determine_system_pool (env : FtpEnv F W) (task : GVfsFtpTask F W) :
    SamePool task (gvfs_backend_ftp_determine_system env task) := by
  unfold gvfs_backend_ftp_determine_system
  simp only
  split_ifs
  · exact SamePool.unchanged _
  · exact ⟨rfl, rfl, rfl⟩
  · exact SamePool.followed ⟨rfl, rfl, rfl⟩ (determine_system_loop_pool _ _ _)

theorem do_mount_post_login_pool (env : FtpEnv F W) (task : GVfsFtpTask F W) :
    SamePool task (do_mount_post_login env task) := by
  unfold do_mount_post_login
  simp only
  have hrest : ∀ t : GVfsFtpTask F W, SamePool t
      { gvfs_backend_ftp_determine_system env (g_vfs_ftp_task_setup_connection env t) with
        backend := gvfs_backend_ftp_setup_directory_cache
          (gvfs_backend_ftp_determine_system env
            (g_vfs_ftp_task_setup_connection env t)).backend } := by
    intro t
    have h1 : SamePool t (g_vfs_ftp_task_setup_connection env t) := ⟨rfl, rfl, rfl⟩
    have h2 := h1.followed (determine_system_pool env _)
    exact h2.followed ⟨rfl, rfl, rfl⟩
  split_ifs with hcond hok
  · exact (determine_features_pool env task).followed (hrest _)
  · exact ((determine_features_pool env task).followed ⟨rfl, rfl, rfl⟩).followed (hrest _)
  · exact hrest task

theorem do_mount_finish_pool (env : FtpEnv F W) (addr : Option GSocketConnectable)
    (l : MountLocals) (task : GVfsFtpTask F W) (h : g_vfs_ftp_task_is_in_error task = false) :
    (do_mount_finish env addr l task).error = none ∧
    (do_mount_finish env addr l task).backend.connections = 1 ∧
    (do_mount_finish env addr l task).backend.max_connections = G_MAXUINT ∧
    (do_mount_finish env addr l task).backend.queue = some [] := by
  unfold do_mount_finish
  simp only [h, Bool.false_eq_true, not_false_eq_true, if_true]
  unfold g_vfs_ftp_task_is_in_error at h
  have hnone : task.error = none := by
    cases he : task.error with
    | none => rfl
    | some e => rw [he] at h; cases h
  cases env.connection_get_address task.world task.conn with
  | ok a =>
    simp only [g_vfs_ftp_task_is_in_error, hnone, Option.isSome_none, Bool.false_eq_true,
      if_false]
    refine ⟨?_, ?_, ?_, ?_⟩ <;>
      split_ifs <;> simp [g_vfs_ftp_task_done, log]
  | error e =>
    simp only [g_vfs_ftp_task_is_in_error, g_vfs_ftp_task_clear_error, task_set_error,
      Option.isSome_none, Bool.false_eq_true, if_false]
    refine ⟨?_, ?_, ?_, ?_⟩ <;>
      split_ifs <;> simp [g_vfs_ftp_task_done, log]

/-- C23. A run of `do_mount` that ends without error leaves the backend with
one connection counted, `G_MAXUINT` as the maximum and a new, empty idle
queue; a run that ends in error leaves the queue, the count and the maximum
as they were, so that a backend without a queue still has none. A connection
that could not be made is taken to come with an error, as GLib's convention
has it. -/
theorem do_mount_pool (env : FtpEnv F W) (fuel : Nat) (ftp : GVfsBackendFtp F) (world : W)
    (final : GVfsFtpTask F W)
    (hnew : (do_mount_connect env ftp world).conn = none →
      (do_mount_connect env ftp world).error ≠ none)
    (hrun : do_mount env fuel ftp world = some final) :
    (final.error = none →
      final.backend.connections = 1 ∧
      final.backend.max_connections = G_MAXUINT ∧
      final.backend.queue = some []) ∧
    (final.error ≠ none →
      final.backend.queue = ftp.queue ∧
      final.backend.connections = ftp.connections ∧
      final.backend.max_connections = ftp.max_connections) := by
  unfold do_mount at hrun
  simp only at hrun
  by_cases hc : (do_mount_connect env ftp world).conn = none
  · simp only [hc, if_true, Option.some.injEq] at hrun
    subst hrun
    refine ⟨fun h => absurd h (hnew hc), fun _ => ⟨rfl, rfl, rfl⟩⟩
  · simp only [hc, if_false] at hrun
    cases hpre : do_mount_pre_login env fuel (do_mount_connect env ftp world) with
    | none => rw [hpre] at hrun; cases hrun
    | some task1 =>
      rw [hpre] at hrun
      simp only at hrun
      cases hlogin : do_mount_login env fuel task1 with
      | none => rw [hlogin] at hrun; cases hrun
      | some r =>
        rw [hlogin] at hrun
        simp only [Option.some.injEq] at hrun
        subst hrun
        have hpool : SamePool (do_mount_connect env ftp world) (do_mount_post_login env r.2) :=
          ((do_mount_pre_login_pool env fuel _ task1 hpre).followed
            (do_mount_login_pool env fuel task1 r hlogin)).followed
            (do_mount_post_login_pool env r.2)
        by_cases herr : g_vfs_ftp_task_is_in_error (do_mount_post_login env r.2) = true
        · rw [do_mount_finish_of_error env _ r.1 _ herr]
          constructor
          · intro h
            exfalso
            unfold g_vfs_ftp_task_is_in_error at herr
            have h1 : (do_mount_post_login env r.2).error = none := h
            rw [h1] at herr
            cases herr
          · intro _
            exact hpool
        · have herr1 : g_vfs_ftp_task_is_in_error (do_mount_post_login env r.2) = false := by
            simpa using herr
          obtain ⟨h1, h2, h3, h4⟩ :=
            do_mount_finish_pool env task1.backend.addr r.1 _ herr1
          exact ⟨fun _ => ⟨h2, h3, h4⟩, fun h => absurd h1 h⟩

/-- C23 on the scripted server: the mount succeeds and the pool is set up;
against a server that hangs up after the greeting it fails and there is no
queue. -/
theorem do_mount_pool_witness :
    (∃ final, do_mount server_env 1 (fresh_backend (some "anonymous")) server_feat_after_login
        = some final ∧ final.error = none ∧
      final.backend.connections = 1 ∧
      final.backend.max_connections = G_MAXUINT ∧
      final.backend.queue = some []) ∧
    (∃ final, do_mount server_env 1 (fresh_backend (some "anonymous"))
        (Server.mk [reply_greeting] server_files) = some final ∧ final.error ≠ none ∧
      final.backend.queue = none) :=
  ⟨⟨_, rfl, rfl,
      (do_mount_pool server_env 1 (fresh_backend (some "anonymous")) server_feat_after_login _
        (by decide) rfl).1 rfl⟩,
    ⟨_, rfl, by decide,
      ((do_mount_pool server_env 1 (fresh_backend (some "anonymous"))
        (Server.mk [reply_greeting] server_files) _ (by decide) rfl).2 (by decide)).1⟩⟩

/-! ## Moving onto a file that exists -/

section MoveExisting

variable [DecidableEq F]

theorem do_move_rename_found (env : FtpEnv F W) (task : GVfsFtpTask F W) (srcfile destfile : F)
    (flags : Nat) (info : GFileInfo) (hflag : flags &&& G_FILE_COPY_OVERWRITE = 0)
    (hl : (g_vfs_ftp_dir_cache_lookup_file env task destfile false).1 = some info) :
    (do_move_rename env task srcfile destfile flags).error =
      some (task.error.getD ⟨GIOErrorEnum.EXISTS, "Target file already exists"⟩) ∧
    (do_move_rename env task srcfile destfile flags).trace =
      task.trace ++ [Event.lookup_file destfile false] ∧
    (do_move_rename env task srcfile destfile flags).backend =
      (g_vfs_ftp_dir_cache_lookup_file env task destfile false).2.backend ∧
    (do_move_rename env task srcfile destfile flags).world =
      (g_vfs_ftp_dir_cache_lookup_file env task destfile false).2.world := by
  have he := (lookup_file_found_error env task destfile false info hl).1
  have ht := lookup_file_trace env task destfile false
  unfold do_move_rename
  simp only [hflag, if_true, hl]
  refine ⟨?_, ?_, ?_, ?_⟩
  · simp only [task_set_error, he]
    cases task.error <;> rfl
  · simp [task_set_error, ht]
  · simp [task_set_error]
  · simp [task_set_error]

end MoveExisting

/-- The same move on `server_env`, whose lookup goes by the task: after the
`CWD` answered 530 the lookup of `/pub/a.txt` finds nothing because the task is
in error, and `do_move` goes on to RNFR, RNTO and the two purges. -/
theorem do_move_renames_after_cd_failure :
    (g_vfs_ftp_dir_cache_lookup_file server_env
      (g_vfs_ftp_task_try_cd server_env
        (G_VFS_FTP_TASK_INIT cached_backend (Server.mk [reply_530] server_files))
        (server_env.new_from_gvfs "/pub")).2
      ["pub", "a.txt"] false).1 = none ∧
    (do_move server_env cached_backend (Server.mk [reply_530] server_files)
      "/incoming/a.txt" "/pub" 0).trace =
      [Event.send server_env.hdr.PASS_550 ⟨"CWD %s", [some "/pub"]⟩,
        Event.lookup_file ["pub", "a.txt"] false,
        Event.send (server_env.hdr.PASS_300 ||| server_env.hdr.FAIL_200)
          ⟨"RNFR %s", [some "/incoming/a.txt"]⟩,
        Event.send 0 ⟨"RNTO %s", [some "/pub/a.txt"]⟩,
        Event.purge_file ["incoming", "a.txt"],
        Event.purge_file ["pub", "a.txt"],
        Event.done (some ⟨GIOErrorEnum.FAILED, "530 Please login with USER and PASS."⟩)] := by
  decide

theorem path_pieces_ne_nil (s : List Char) : path_pieces s ≠ [] := by
  cases s with
  | nil => simp [path_pieces]
  | cons c cs =>
    unfold path_pieces
    split_ifs
    · simp
    · split <;> simp

theorem path_pieces_slash (cs : List Char) :
    path_pieces ('/' :: cs) = [] :: path_pieces cs := by
  rw [path_pieces]
  simp

theorem path_pieces_cons (c : Char) (cs : List Char) (hc : c ≠ '/') :
    path_pieces (c :: cs) =
      match path_pieces cs with
      | [] => [[c]]
      | piece :: pieces => (c :: piece) :: pieces := by
  rw [path_pieces]
  simp [hc]

theorem path_pieces_no_slash (s : List Char) (h : '/' ∉ s) : path_pieces s = [s] := by
  induction s with
  | nil => rfl
  | cons c cs ih =>
    have hc : c ≠ '/' := fun hc => h (by simp [hc])
    have hcs : '/' ∉ cs := fun hm => h (List.mem_cons_of_mem _ hm)
    rw [path_pieces_cons c cs hc, ih hcs]

theorem path_pieces_append_slash (s r : List Char) (h : '/' ∉ s) :
    path_pieces (s ++ '/' :: r) = s :: path_pieces r := by
  induction s with
  | nil => exact path_pieces_slash r
  | cons c cs ih =>
    have hc : c ≠ '/' := fun hc => h (by simp [hc])
    have hcs : '/' ∉ cs := fun hm => h (List.mem_cons_of_mem _ hm)
    show path_pieces (c :: (cs ++ '/' :: r)) = _
    rw [path_pieces_cons c _ hc, ih hcs]

theorem filename_segments_slash (s : List Char) :
    filename_segments ('/' :: s) = filename_segments s := by
  unfold filename_segments
  rw [path_pieces_slash]
  simp

theorem filename_segments_dropWhile (s : List Char) :
    filename_segments (s.dropWhile (fun c => c = '/')) = filename_segments s := by
  induction s with
  | nil => rfl
  | cons c cs ih =>
    by_cases hc : c = '/'
    · subst hc
      simp only [List.dropWhile_cons, decide_True, if_true]
      rw [ih, filename_segments_slash]
    · simp [List.dropWhile_cons, hc]

theorem takeWhile_no_slash (s : List Char) : '/' ∉ s.takeWhile (fun c => c ≠ '/') := by
  intro h
  have := List.mem_takeWhile_imp h
  simp at this

theorem dropWhile_not_slash (s : List Char) :
    s.dropWhile (fun c => c ≠ '/') = [] ∨
      ∃ r, s.dropWhile (fun c => c ≠ '/') = '/' :: r := by
  induction s with
  | nil => exact Or.inl rfl
  | cons c cs ih =>
    by_cases hc : c = '/'
    · subst hc
      exact Or.inr ⟨cs, by simp [List.dropWhile_cons]⟩
    · simpa [List.dropWhile_cons, hc] using ih

theorem filename_segments_step (s : List Char) (hne : s ≠ [])
    (hhead : ∀ c ∈ s.head?, c ≠ '/') :
    filename_segments s =
      s.takeWhile (fun c => c ≠ '/') ::
        filename_segments
          ((s.dropWhile (fun c => c ≠ '/')).dropWhile (fun c => c = '/')) ∧
    s.takeWhile (fun c => c ≠ '/') ≠ [] ∧
    ((s.dropWhile (fun c => c ≠ '/')).dropWhile (fun c => c = '/')).length < s.length := by
  have hsplit := List.takeWhile_append_dropWhile (fun c => decide (c ≠ '/')) s
  have hseg : s.takeWhile (fun c => c ≠ '/') ≠ [] := by
    cases s with
    | nil => exact absurd rfl hne
    | cons c cs =>
      have hc : c ≠ '/' := hhead c (by simp)
      simp [List.takeWhile_cons, hc]
  have hlen : (s.dropWhile (fun c => c ≠ '/')).length < s.length := by
    have := congrArg List.length hsplit
    rw [List.length_append] at this
    have hpos : 0 < (s.takeWhile (fun c => c ≠ '/')).length :=
      List.length_pos.mpr hseg
    omega
  have hlen2 : ((s.dropWhile (fun c => c ≠ '/')).dropWhile (fun c => c = '/')).length ≤
      (s.dropWhile (fun c => c ≠ '/')).length :=
    (List.dropWhile_sublist _).length_le
  refine ⟨?_, hseg, by omega⟩
  rw [filename_segments_dropWhile]
  rcases dropWhile_not_slash s with h | ⟨r, h⟩
  · rw [h] at hsplit ⊢
    rw [List.append_nil] at hsplit
    rw [hsplit]
    have hno : '/' ∉ s := by
      rw [← hsplit]
      exact takeWhile_no_slash s
    unfold filename_segments
    rw [path_pieces_no_slash s hno]
    simp [hne, path_pieces]
  · rw [h] at hsplit ⊢
    conv_lhs => rw [← hsplit]
    unfold filename_segments
    rw [path_pieces_append_slash _ _ (takeWhile_no_slash s)]
    rw [List.filter_cons_of_pos (by simpa using hseg), path_pieces_slash]
    simp

theorem head_dropWhile_slash (s : List Char) :
    ∀ c ∈ (s.dropWhile (fun c => c = '/')).head?, c ≠ '/' := by
  induction s with
  | nil => simp
  | cons c cs ih =>
    by_cases hc : c = '/'
    · subst hc
      simpa [List.dropWhile_cons] using ih
    · simp [List.dropWhile_cons, hc]

theorem filename_to_afp_pathname_loop_eq (fuel : Nat) (filename pathname : List Char)
    (hfuel : filename.length < fuel) (hhead : ∀ c ∈ filename.head?, c ≠ '/') :
    filename_to_afp_pathname_loop fuel filename pathname =
      some (pathname ++ afp_pathname_of_segments (filename_segments filename)) := by
  induction fuel generalizing filename pathname with
  | zero => omega
  | succ fuel ih =>
    unfold filename_to_afp_pathname_loop
    cases hf : filename with
    | nil => simp [filename_segments, path_pieces, afp_pathname_of_segments]
    | cons c cs =>
      rw [← hf]
      have hne : filename ≠ [] := by rw [hf]; simp
      have hempty : filename.isEmpty = false := by rw [hf]; rfl
      obtain ⟨hseg, _, hlen⟩ := filename_segments_step filename hne hhead
      simp only [hempty, Bool.false_eq_true, if_false]
      rw [ih _ _ (by omega) (head_dropWhile_slash _), hseg]
      simp [afp_pathname_of_segments]

theorem filename_to_afp_pathname_eq (fuel : Nat) (filename : List Char)
    (hfuel : filename.length < fuel) :
    filename_to_afp_pathname fuel filename =
      some (Char.ofNat 0 :: afp_pathname_of_segments (filename_segments filename)) := by
  unfold filename_to_afp_pathname
  have hlen : (filename.dropWhile (fun c => c = '/')).length ≤ filename.length :=
    (List.dropWhile_sublist _).length_le
  simp only
  rw [filename_to_afp_pathname_loop_eq fuel _ _ (by omega) (head_dropWhile_slash _),
    filename_segments_dropWhile]
  rfl

theorem path_pieces_mem (s : List Char) :
    ∀ piece ∈ path_pieces s, '/' ∉ piece ∧ ∀ c ∈ piece, c ∈ s := by
  induction s with
  | nil => simp [path_pieces]
  | cons c cs ih =>
    by_cases hc : c = '/'
    · subst hc
      rw [path_pieces_slash]
      intro piece hp
      rcases List.mem_cons.mp hp with h | h
      · subst h
        simp
      · exact ⟨(ih piece h).1, fun x hx => List.mem_cons_of_mem _ ((ih piece h).2 x hx)⟩
    · rw [path_pieces_cons c cs hc]
      cases hpp : path_pieces cs with
      | nil => exact absurd hpp (path_pieces_ne_nil cs)
      | cons first rest =>
        rw [hpp] at ih
        intro piece hp
        simp only [List.mem_cons] at hp
        rcases hp with h | h
        · subst h
          have h1 := ih first (by simp)
          refine ⟨?_, ?_⟩
          · intro hm
            rcases List.mem_cons.mp hm with h2 | h2
            · exact hc h2.symm
            · exact h1.1 h2
          · intro x hx
            rcases List.mem_cons.mp hx with h2 | h2
            · subst h2
              simp
            · exact List.mem_cons_of_mem _ (h1.2 x h2)
        · have h1 := ih piece (by simp [h])
          exact ⟨h1.1, fun x hx => List.mem_cons_of_mem _ (h1.2 x hx)⟩

theorem filename_segments_mem (s : List Char) :
    ∀ segment ∈ filename_segments s,
      segment ≠ [] ∧ '/' ∉ segment ∧ ∀ c ∈ segment, c ∈ s := by
  intro segment h
  unfold filename_segments at h
  simp only [List.mem_filter, decide_eq_true_eq] at h
  exact ⟨h.2, path_pieces_mem s segment h.1⟩

theorem afp_pathname_of_segments_mem (segments : List (List Char)) (c : Char) :
    c ∈ afp_pathname_of_segments segments →
      c = Char.ofNat 0 ∨ ∃ segment ∈ segments, c ∈ segment := by
  induction segments with
  | nil => simp [afp_pathname_of_segments]
  | cons segment rest ih =>
    intro h
    rw [afp_pathname_of_segments] at h
    rcases List.mem_cons.mp h with h | h
    · exact Or.inl h
    · rcases List.mem_append.mp h with h | h
      · exact Or.inr ⟨segment, by simp, h⟩
      · rcases ih h with h1 | ⟨s, hs, hc⟩
        · exact Or.inl h1
        · exact Or.inr ⟨s, List.mem_cons_of_mem _ hs, hc⟩

theorem filename_segments_eq_nil (s : List Char) :
    filename_segments s = [] ↔ is_root s = true := by
  unfold is_root
  simp only [List.isEmpty_iff]
  rw [← filename_segments_dropWhile]
  constructor
  · intro h
    by_contra hne
    obtain ⟨hseg, _, _⟩ := filename_segments_step _ hne (head_dropWhile_slash s)
    rw [hseg] at h
    cases h
  · intro h
    rw [h]
    rfl

theorem afp_pathname_of_segments_eq_nil (segments : List (List Char)) :
    afp_pathname_of_segments segments = [] ↔ segments = [] := by
  cases segments with
  | nil => simp [afp_pathname_of_segments]
  | cons s rest => simp [afp_pathname_of_segments]

theorem append_eq_append_of_no_nul (s1 s2 x1 x2 : List Char)
    (h1 : Char.ofNat 0 ∉ s1) (h2 : Char.ofNat 0 ∉ s2)
    (hx1 : x1 = [] ∨ ∃ r, x1 = Char.ofNat 0 :: r)
    (hx2 : x2 = [] ∨ ∃ r, x2 = Char.ofNat 0 :: r)
    (h : s1 ++ x1 = s2 ++ x2) : s1 = s2 ∧ x1 = x2 := by
  induction s1 generalizing s2 with
  | nil =>
    cases s2 with
    | nil => exact ⟨rfl, by simpa using h⟩
    | cons c cs =>
      exfalso
      rcases hx1 with hx | ⟨r, hx⟩
      · rw [hx] at h
        cases h
      · rw [hx] at h
        simp only [List.nil_append, List.cons_append, List.cons.injEq] at h
        exact h2 (by rw [← h.1]; simp)
  | cons c cs ih =>
    cases s2 with
    | nil =>
      exfalso
      rcases hx2 with hx | ⟨r, hx⟩
      · rw [hx] at h
        cases h
      · rw [hx] at h
        simp only [List.nil_append, List.cons_append, List.cons.injEq] at h
        exact h1 (by rw [h.1]; simp)
    | cons d ds =>
      simp only [List.cons_append, List.cons.injEq] at h
      obtain ⟨hr1, hr2⟩ := ih ds (fun hm => h1 (List.mem_cons_of_mem _ hm))
        (fun hm => h2 (List.mem_cons_of_mem _ hm)) h.2
      exact ⟨by rw [h.1, hr1], hr2⟩

theorem afp_pathname_of_segments_shape (segments : List (List Char)) :
    afp_pathname_of_segments segments = [] ∨
      ∃ r, afp_pathname_of_segments segments = Char.ofNat 0 :: r := by
  cases segments with
  | nil => exact Or.inl rfl
  | cons s rest => exact Or.inr ⟨_, rfl⟩

theorem afp_pathname_of_segments_inj (l1 l2 : List (List Char))
    (h1 : ∀ s ∈ l1, Char.ofNat 0 ∉ s) (h2 : ∀ s ∈ l2, Char.ofNat 0 ∉ s)
    (h : afp_pathname_of_segments l1 = afp_pathname_of_segments l2) : l1 = l2 := by
  induction l1 generalizing l2 with
  | nil =>
    exact ((afp_pathname_of_segments_eq_nil l2).mp h.symm).symm
  | cons s rest ih =>
    cases l2 with
    | nil => exact (afp_pathname_of_segments_eq_nil _).mp h
    | cons s2 rest2 =>
      simp only [afp_pathname_of_segments, List.cons_append, List.cons.injEq, true_and] at h
      obtain ⟨hs, hr⟩ := append_eq_append_of_no_nul s s2 _ _ (h1 s (by simp))
        (h2 s2 (by simp)) (afp_pathname_of_segments_shape rest)
        (afp_pathname_of_segments_shape rest2) h
      rw [hs, ih rest2 (fun x hx => h1 x (List.mem_cons_of_mem _ hx))
        (fun x hx => h2 x (List.mem_cons_of_mem _ hx)) hr]

theorem path_pieces_append (a r : List Char) :
    path_pieces (a ++ '/' :: r) = path_pieces a ++ path_pieces r := by
  induction a with
  | nil => exact path_pieces_slash r
  | cons c cs ih =>
    show path_pieces (c :: (cs ++ '/' :: r)) = _
    by_cases hc : c = '/'
    · subst hc
      rw [path_pieces_slash, path_pieces_slash, ih]
      rfl
    · rw [path_pieces_cons c _ hc, path_pieces_cons c cs hc, ih]
      cases hpp : path_pieces cs with
      | nil => exact absurd hpp (path_pieces_ne_nil cs)
      | cons first rest => rfl

theorem filename_segments_append (a r : List Char) :
    filename_segments (a ++ '/' :: r) = filename_segments a ++ filename_segments r := by
  unfold filename_segments
  rw [path_pieces_append, List.filter_append]

/-- C26. With fuel for every char of the file name, `filename_to_afp_pathname`
returns one zero byte followed, for each non-empty `/`-separated segment of
the name in order, by a zero byte and the chars of the segment. The result
holds no `/`, and it is the single zero byte exactly when `is_root` holds of
the name. -/
theorem filename_to_afp_pathname_segments (fuel : Nat) (filename : List Char)
    (hfuel : filename.length < fuel) :
    filename_to_afp_pathname fuel filename =
      some (Char.ofNat 0 :: afp_pathname_of_segments (filename_segments filename)) ∧
    (∀ segment ∈ filename_segments filename, segment ≠ [] ∧ '/' ∉ segment) ∧
    (∀ pathname, filename_to_afp_pathname fuel filename = some pathname → '/' ∉ pathname) ∧
    (filename_to_afp_pathname fuel filename = some [Char.ofNat 0] ↔
      is_root filename = true) ∧
    (is_root filename = true ↔ ∀ c ∈ filename, c = '/') := by
  have heq := filename_to_afp_pathname_eq fuel filename hfuel
  refine ⟨heq, fun s hs => ⟨(filename_segments_mem filename s hs).1,
    (filename_segments_mem filename s hs).2.1⟩, ?_, ?_, ?_⟩
  · intro pathname hp
    rw [heq] at hp
    injection hp with hp
    rw [← hp]
    intro hm
    rcases List.mem_cons.mp hm with h | h
    · exact absurd h (by decide)
    · rcases afp_pathname_of_segments_mem _ _ h with h1 | ⟨s, hs, hc⟩
      · exact absurd h1 (by decide)
      · exact (filename_segments_mem filename s hs).2.1 hc
  · rw [heq, ← filename_segments_eq_nil]
    constructor
    · intro h
      injection h with h
      injection h with _ h
      exact (afp_pathname_of_segments_eq_nil _).mp h
    · intro h
      rw [h]
      rfl
  · unfold is_root
    simp only [List.isEmpty_iff, List.dropWhile_eq_nil_iff, decide_eq_true_eq]

/-- C26 on `//a///bc/`, which is not the root, and on `///`, which is. -/
theorem filename_to_afp_pathname_segments_witness :
    "//a///bc/".toList.length < 20 ∧
    filename_segments "//a///bc/".toList = [['a'], ['b', 'c']] ∧
    filename_to_afp_pathname 20 "//a///bc/".toList =
      some [Char.ofNat 0, Char.ofNat 0, 'a', Char.ofNat 0, 'b', 'c'] ∧
    filename_to_afp_pathname 20 "///".toList = some [Char.ofNat 0] :=
  ⟨by decide, by decide,
    (filename_to_afp_pathname_segments 20 "//a///bc/".toList (by decide)).1.trans (by decide),
    (filename_to_afp_pathname_segments 20 "///".toList (by decide)).2.2.2.1.mpr (by decide)⟩

/-- C27. Two file names without a zero char, as C strings are, get the same
AFP path name exactly when they have the same non-empty `/`-separated
segments in the same order; so a slash in front, a slash at the end and a
slash next to a slash make no difference. -/
theorem filename_to_afp_pathname_same_iff (fuel : Nat) (first second : List Char)
    (hfirst : first.length < fuel) (hsecond : second.length < fuel)
    (hnul1 : Char.ofNat 0 ∉ first) (hnul2 : Char.ofNat 0 ∉ second) :
    (filename_to_afp_pathname fuel first = filename_to_afp_pathname fuel second ↔
      filename_segments first = filename_segments second) ∧
    filename_segments ('/' :: first) = filename_segments first ∧
    filename_segments (first ++ ['/']) = filename_segments first ∧
    filename_segments (first ++ '/' :: '/' :: second) =
      filename_segments (first ++ '/' :: second) := by
  refine ⟨?_, filename_segments_slash first, ?_, ?_⟩
  · rw [filename_to_afp_pathname_eq fuel first hfirst,
      filename_to_afp_pathname_eq fuel second hsecond]
    constructor
    · intro h
      injection h with h
      injection h with _ h
      exact afp_pathname_of_segments_inj _ _
        (fun s hs hm => hnul1 ((filename_segments_mem first s hs).2.2 _ hm))
        (fun s hs hm => hnul2 ((filename_segments_mem second s hs).2.2 _ hm)) h
    · intro h
      rw [h]
  · rw [filename_segments_append]
    simp [filename_segments, path_pieces]
  · rw [filename_segments_append, filename_segments_append, filename_segments_slash]

/-- C27 on `/a//b/` and `a/b`, which get the same path name, and on `a/b` and
`ab`, which do not. -/
theorem filename_to_afp_pathname_same_iff_witness :
    filename_to_afp_pathname 10 "/a//b/".toList = filename_to_afp_pathname 10 "a/b".toList ∧
    filename_to_afp_pathname 10 "a/b".toList ≠ filename_to_afp_pathname 10 "ab".toList :=
  ⟨(filename_to_afp_pathname_same_iff 10 "/a//b/".toList "a/b".toList (by decide) (by decide)
      (by decide) (by decide)).1.mpr (by decide),
    fun h => absurd
      ((filename_to_afp_pathname_same_iff 10 "a/b".toList "ab".toList (by decide) (by decide)
        (by decide) (by decide)).1.mp h) (by decide)⟩

/-! ## AFP dates -/

theorem apple_date_wrap (t : Nat) (ht : t < 2 ^ 32) :
    ((((t : Int) % 2 ^ 32 - 2082844800) % 2 ^ 32).toNat % 2 ^ 64 =
      (((t : Int) - 2082844800) % 2 ^ 32).toNat) ∧
    (2082844800 ≤ t →
      ((((t : Int) % 2 ^ 32 - 2082844800) % 2 ^ 32).toNat % 2 ^ 64 = t - 2082844800)) ∧
    (t < 2082844800 →
      ((((t : Int) % 2 ^ 32 - 2082844800) % 2 ^ 32).toNat % 2 ^ 64 =
        t + (2 ^ 32 - 2082844800))) := by
  norm_num at ht ⊢
  omega

/-- C28. On a reply without error `get_vol_parms_cb` stores, for an Apple date
`t` below 2^32, the residue of `t - 2082844800` modulo 2^32 as the time, for
the creation date and for the modification date alike. That is the Unix time
`t - 2082844800` when `t` is at least 2082844800, and `t + 2^32 - 2082844800`,
which is at least `2^32 - 2082844800`, when it is less. The constant is the
number of seconds from the start of 1904 to the start of 1970. -/
theorem get_vol_parms_cb_dates (afp_backend : GVfsBackendAfp) (reply : GVfsAfpReply)
    (error : GError) (info : AfpVolumeInfo)
    (hok : reply.result_code = AFP_RESULT_NO_ERROR)
    (hcreate : reply.create_date < 2 ^ 32) (hmod : reply.mod_date < 2 ^ 32) :
    (get_vol_parms_cb afp_backend (some reply) error info).2 = [Event.job_succeeded] ∧
    (get_vol_parms_cb afp_backend (some reply) error info).1.time_created =
      some ((((reply.create_date : Int) - 2082844800) % 2 ^ 32).toNat) ∧
    (get_vol_parms_cb afp_backend (some reply) error info).1.time_modified =
      some ((((reply.mod_date : Int) - 2082844800) % 2 ^ 32).toNat) ∧
    (2082844800 ≤ reply.create_date →
      (get_vol_parms_cb afp_backend (some reply) error info).1.time_created =
        some (reply.create_date - 2082844800)) ∧
    (reply.create_date < 2082844800 →
      (get_vol_parms_cb afp_backend (some reply) error info).1.time_created =
        some (reply.create_date + (2 ^ 32 - 2082844800))) ∧
    (2082844800 ≤ reply.mod_date →
      (get_vol_parms_cb afp_backend (some reply) error info).1.time_modified =
        some (reply.mod_date - 2082844800)) ∧
    (reply.mod_date < 2082844800 →
      (get_vol_parms_cb afp_backend (some reply) error info).1.time_modified =
        some (reply.mod_date + (2 ^ 32 - 2082844800))) ∧
    seconds_between_years 1904 1970 = 2082844800 := by
  have hc := apple_date_wrap reply.create_date hcreate
  have hm := apple_date_wrap reply.mod_date hmod
  have hres : ¬ reply.result_code ≠ AFP_RESULT_NO_ERROR := by simp [hok]
  unfold get_vol_parms_cb
  simp only [hres, if_false]
  refine ⟨trivial, ?_, ?_, ?_, ?_, ?_, ?_, by decide⟩
  · exact congrArg some hc.1
  · exact congrArg some hm.1
  · intro h
    exact congrArg some (hc.2.1 h)
  · intro h
    exact congrArg some (hc.2.2 h)
  · intro h
    exact congrArg some (hm.2.1 h)
  · intro h
    exact congrArg some (hm.2.2 h)

/-- C28 on the Apple dates 3000000000, which is in 1999, and 0, which wraps. -/
theorem get_vol_parms_cb_dates_witness :
    (get_vol_parms_cb ⟨some "vol", none, none⟩ (some ⟨0, 3000000000, 0⟩)
      ⟨GIOErrorEnum.FAILED, ""⟩ ⟨none, none, none⟩).1.time_created = some 917155200 ∧
    (get_vol_parms_cb ⟨some "vol", none, none⟩ (some ⟨0, 3000000000, 0⟩)
      ⟨GIOErrorEnum.FAILED, ""⟩ ⟨none, none, none⟩).1.time_modified = some 2212122496 :=
  ⟨((get_vol_parms_cb_dates ⟨some "vol", none, none⟩ ⟨0, 3000000000, 0⟩
      ⟨GIOErrorEnum.FAILED, ""⟩ ⟨none, none, none⟩ rfl (by decide) (by decide)).2.2.2.1
      (by decide)).trans (by decide),
    ((get_vol_parms_cb_dates ⟨some "vol", none, none⟩ ⟨0, 3000000000, 0⟩
      ⟨GIOErrorEnum.FAILED, ""⟩ ⟨none, none, none⟩ rfl (by decide) (by decide)).2.2.2.2.2.2.1
      (by decide)).trans (by decide)⟩

/-! ## The copy loop of `do_pull`: what it copies and where it stops -/

theorem splice_start_timer_fields (args : SpliceArgs) (st : SpliceState) :
    (splice_start_timer args st).written = st.written ∧
    (splice_start_timer args st).bytes_copied = st.bytes_copied ∧
    (splice_start_timer args st).reads = st.reads ∧
    (splice_start_timer args st).writes = st.writes ∧
    (splice_start_timer args st).error = st.error ∧
    ∀ b, SpliceEvent.progress b ∈ (splice_start_timer args st).trace →
      SpliceEvent.progress b ∈ st.trace := by
  unfold splice_start_timer
  split_ifs
  · refine ⟨rfl, rfl, rfl, rfl, rfl, ?_⟩
    intro b hb
    simpa using hb
  · exact ⟨rfl, rfl, rfl, rfl, rfl, fun _ h => h⟩

theorem splice_write_loop_all (args : SpliceArgs)
    (hwrites : ∀ j, ∃ count, args.output j = SpliceWrite.accepted count ∧ 0 < count)
    (buffer : List Nat) (fuel n p : Nat) (st : SpliceState)
    (hp : p + n = buffer.length) (hfuel : n < fuel) :
    ∃ st1, splice_write_loop args buffer fuel (p : Int) (n : Int) st = some (SpliceRun.ok st1) ∧
      st1.written = st.written ++ buffer.drop p ∧
      st1.bytes_copied = st.bytes_copied + n ∧
      st1.reads = st.reads ∧
      st1.error = st.error ∧
      ∀ b, SpliceEvent.progress b ∈ st1.trace → SpliceEvent.progress b ∈ st.trace := by
  induction fuel generalizing n p st with
  | zero => omega
  | succ fuel ih =>
    unfold splice_write_loop
    by_cases hn : n = 0
    · subst hn
      refine ⟨st, by simp, ?_, by simp, rfl, rfl, fun _ h => h⟩
      rw [List.drop_of_length_le (by omega)]
      simp
    · have hpos : (n : Int) > 0 := by omega
      have hp0 : ¬ (p : Int) < 0 := by omega
      obtain ⟨count, hcount, hc0⟩ := hwrites st.writes
      have hoffered : (buffer.drop (p : Int).toNat).take (n : Int).toNat = buffer.drop p := by
        simp only [Int.toNat_ofNat]
        apply List.take_of_length_le
        rw [List.length_drop]
        omega
      simp only [hpos, not_true_eq_false, if_false, hp0, hoffered, hcount]
      have hlen : (buffer.drop p).length = n := by
        rw [List.length_drop]
        omega
      rw [hlen]
      have hmin : min count n ≤ n := Nat.min_le_right _ _
      have hmin0 : 0 < min count n := by
        rw [Nat.lt_min]
        exact ⟨hc0, by omega⟩
      have e1 : (p : Int) + ((min count n : Nat) : Int) = ((p + min count n : Nat) : Int) := by
        push_cast
        rfl
      have e2 : (n : Int) - ((min count n : Nat) : Int) = ((n - min count n : Nat) : Int) := by
        omega
      rw [e1, e2]
      obtain ⟨hw, hb, hr, _, he, htr⟩ := splice_start_timer_fields args
        { reads := st.reads, writes := st.writes + 1, error := st.error,
          bytes_copied := st.bytes_copied + ((min count n : Nat) : Int),
          current := st.current,
          written := st.written ++ (buffer.drop p).take (min count n),
          trace := st.trace ++ [SpliceEvent.write (buffer.drop p) st.current] }
      obtain ⟨st1, h1, h2, h3, h4, h5, h6⟩ := ih (n - min count n) (p + min count n)
        (splice_start_timer args
          { reads := st.reads, writes := st.writes + 1, error := st.error,
            bytes_copied := st.bytes_copied + ((min count n : Nat) : Int),
            current := st.current,
            written := st.written ++ (buffer.drop p).take (min count n),
            trace := st.trace ++ [SpliceEvent.write (buffer.drop p) st.current] })
        (by omega) (by omega)
      refine ⟨st1, h1, ?_, ?_, ?_, ?_, ?_⟩
      · rw [h2, hw, List.append_assoc, ← List.drop_drop, List.take_append_drop]
      · rw [h3, hb]
        push_cast
        omega
      · rw [h4, hr]
      · rw [h5, he]
      · intro b hb1
        have := htr b (h6 b hb1)
        simpa using this

theorem splice_loop_all (args : SpliceArgs)
    (hwrites : ∀ j, ∃ count, args.output j = SpliceWrite.accepted count ∧ 0 < count)
    (k fuel : Nat) (st : SpliceState)
    (hreads : ∀ i < k, ∃ bytes, args.input (st.reads + i) = SpliceRead.data bytes ∧ bytes ≠ [])
    (hend : args.input (st.reads + k) = SpliceRead.data [])
    (hfuel : k + (splice_input_bytes args.input st.reads k).length < fuel) :
    ∃ st1, splice_loop args fuel st = some (SpliceRun.ok st1) ∧
      st1.written = st.written ++ splice_input_bytes args.input st.reads k ∧
      st1.bytes_copied = st.bytes_copied + (splice_input_bytes args.input st.reads k).length ∧
      st1.reads = st.reads + k + 1 ∧
      st1.error = st.error ∧
      ∀ b, SpliceEvent.progress b ∈ st1.trace → SpliceEvent.progress b ∈ st.trace := by
  induction k generalizing fuel st with
  | zero =>
    cases fuel with
    | zero => omega
    | succ fuel =>
      unfold splice_loop
      rw [Nat.add_zero] at hend
      simp only [hend, List.isEmpty_nil, if_true]
      refine ⟨_, rfl, by simp [splice_input_bytes], by simp [splice_input_bytes], rfl, rfl, ?_⟩
      intro b hb
      simpa using hb
  | succ k ih =>
    cases fuel with
    | zero => omega
    | succ fuel =>
      obtain ⟨bytes, hbytes, hne⟩ := hreads 0 (by omega)
      rw [Nat.add_zero] at hbytes
      have hinput : splice_input_bytes args.input st.reads (k + 1) =
          bytes ++ splice_input_bytes args.input (st.reads + 1) k := by
        rw [splice_input_bytes, hbytes]
        rfl
      rw [hinput, List.length_append] at hfuel
      have hempty : bytes.isEmpty = false := by
        cases bytes with
        | nil => exact absurd rfl hne
        | cons b bs => rfl
      obtain ⟨st1, h1, h2, h3, h4, h5, h6⟩ := splice_write_loop_all args hwrites bytes fuel
        bytes.length 0
        { st with reads := st.reads + 1,
                  trace := st.trace ++ [SpliceEvent.read st.current] }
        (by omega) (by omega)
      have hreads1 : ∀ i < k, ∃ bytes,
          args.input (st1.reads + i) = SpliceRead.data bytes ∧ bytes ≠ [] := by
        intro i hi
        rw [h4]
        have := hreads (i + 1) (by omega)
        rw [show st.reads + (i + 1) = st.reads + 1 + i by omega] at this
        exact this
      have hend1 : args.input (st1.reads + k) = SpliceRead.data [] := by
        rw [h4]
        rw [show st.reads + (k + 1) = st.reads + 1 + k by omega] at hend
        exact hend
      have hreads_eq : st1.reads = st.reads + 1 := h4
      obtain ⟨st2, g1, g2, g3, g4, g5, g6⟩ := ih fuel st1 hreads1 hend1
        (by rw [hreads_eq]; omega)
      rw [hreads_eq] at g2 g3 g4
      refine ⟨st2, ?_, ?_, ?_, ?_, ?_, ?_⟩
      · unfold splice_loop
        simp only [hbytes, hempty, Bool.false_eq_true, if_false]
        have h1' : splice_write_loop args bytes fuel 0 (bytes.length : Int)
            { st with reads := st.reads + 1,
                      trace := st.trace ++ [SpliceEvent.read st.current] } =
            some (SpliceRun.ok st1) := h1
        rw [h1']
        exact g1
      · rw [g2, h2, hinput]
        simp
      · rw [g3, h3, hinput, List.length_append]
        push_cast
        omega
      · rw [g4]
        omega
      · rw [g5, h5]
      · intro b hb
        have := h6 b (g6 b hb)
        simpa using this

theorem splice_copies_all (args : SpliceArgs) (k fuel : Nat)
    (hdefined : args.progress_callback = true ∨ args.stack = none)
    (hreads : ∀ i < k, ∃ bytes, args.input i = SpliceRead.data bytes ∧ bytes ≠ [])
    (hend : args.input k = SpliceRead.data [])
    (hwrites : ∀ j, ∃ count, args.output j = SpliceWrite.accepted count ∧ 0 < count)
    (hfuel : k + (splice_input_bytes args.input 0 k).length < fuel) :
    ∃ st, ftp_output_stream_splice args fuel =
        some (SpliceRun.ok (((splice_input_bytes args.input 0 k).length : Int), st)) ∧
      st.written = splice_input_bytes args.input 0 k ∧
      st.reads = k + 1 ∧
      st.error = none ∧
      (args.progress_callback = true →
        st.trace.getLast? =
          some (SpliceEvent.progress (splice_input_bytes args.input 0 k).length) ∧
        st.trace.count (SpliceEvent.progress (splice_input_bytes args.input 0 k).length) = 1) ∧
      (args.progress_callback = false → ∀ b, SpliceEvent.progress b ∉ st.trace) := by
  have hloop : ∀ st0 : SpliceState, st0.reads = 0 → st0.written = [] → st0.bytes_copied = 0 →
      st0.error = none → (∀ b, SpliceEvent.progress b ∉ st0.trace) →
      ∃ st1, splice_loop args fuel st0 = some (SpliceRun.ok st1) ∧
        st1.written = splice_input_bytes args.input 0 k ∧
        st1.bytes_copied = (splice_input_bytes args.input 0 k).length ∧
        st1.reads = k + 1 ∧ st1.error = none ∧
        ∀ b, SpliceEvent.progress b ∉ st1.trace := by
    intro st0 hr hw hb he ht
    obtain ⟨st1, h1, h2, h3, h4, h5, h6⟩ := splice_loop_all args hwrites k fuel st0
      (by rw [hr]; simpa using hreads) (by rw [hr]; simpa using hend)
      (by rw [hr]; exact hfuel)
    rw [hr] at h2 h3 h4
    refine ⟨st1, h1, by rw [h2, hw]; simp, by rw [h3, hb]; simp, by rw [h4]; simp,
      by rw [h5, he], fun b hb1 => ht b (h6 b hb1)⟩
  have hnonneg : ((splice_input_bytes args.input 0 k).length : Int) ≥ 0 := by omega
  unfold ftp_output_stream_splice
  by_cases hcb : args.progress_callback = true
  · obtain ⟨st1, h1, h2, h3, h4, h5, h6⟩ := hloop
      { reads := 0, writes := 0, error := none, bytes_copied := 0,
        current := SpliceCurrent.cancellable, written := [],
        trace := [] ++ [SpliceEvent.connect] }
      rfl rfl rfl rfl (by simp)
    have htc : splice_timer_cancel args = TimerCancel.created := by
      simp [splice_timer_cancel, hcb]
    simp only [hcb, if_true, h1, htc, h3, hnonneg, and_self]
    refine ⟨_, rfl, h2, h4, h5, fun _ => ⟨by simp, ?_⟩, fun h => by simp at h⟩
    rw [List.count_append, List.count_append,
      List.count_eq_zero_of_not_mem (h6 _)]
    simp
  · have hcb1 : args.progress_callback = false := by simpa using hcb
    have hstack : args.stack = none := by
      rcases hdefined with h | h
      · exact absurd h hcb
      · exact h
    obtain ⟨st1, h1, h2, h3, h4, h5, h6⟩ := hloop
      { reads := 0, writes := 0, error := none, bytes_copied := 0,
        current := SpliceCurrent.cancellable, written := [], trace := [] }
      rfl rfl rfl rfl (by simp)
    have htc : splice_timer_cancel args = TimerCancel.null := by
      simp [splice_timer_cancel, hcb1, hstack]
    simp only [hcb1, Bool.false_eq_true, if_false, h1, htc, h3, and_false]
    exact ⟨_, rfl, h2, h4, h5, fun h => by simp at h, fun _ => h6⟩

theorem splice_start_timer_extends (args : SpliceArgs) (st : SpliceState) :
    ∃ rest, (splice_start_timer args st).trace = st.trace ++ rest := by
  unfold splice_start_timer
  split_ifs
  · exact ⟨_, rfl⟩
  · exact ⟨[], by simp⟩

theorem extends_trans {a b c : List SpliceEvent} (h1 : ∃ rest, b = a ++ rest)
    (h2 : ∃ rest, c = b ++ rest) : ∃ rest, c = a ++ rest := by
  obtain ⟨r1, h1⟩ := h1
  obtain ⟨r2, h2⟩ := h2
  exact ⟨r1 ++ r2, by rw [h2, h1, List.append_assoc]⟩

theorem splice_write_loop_extends (args : SpliceArgs) (buffer : List Nat) (fuel : Nat)
    (p n_read : Int) (st : SpliceState) (r : SpliceRun SpliceState)
    (h : splice_write_loop args buffer fuel p n_read st = some r) :
    ∃ rest, r.state.trace = st.trace ++ rest := by
  induction fuel generalizing p n_read st with
  | zero => simp [splice_write_loop] at h
  | succ fuel ih =>
    unfold splice_write_loop at h
    by_cases hn : n_read > 0
    · by_cases hp : p < 0
      · simp only [hn, not_true_eq_false, if_false, hp, if_true, Option.some.injEq] at h
        subst h
        exact ⟨[], by simp [SpliceRun.state]⟩
      · simp only [hn, not_true_eq_false, if_false, hp] at h
        cases hout : args.output st.writes with
        | accepted count =>
          rw [hout] at h
          simp only at h
          have hrest := ih _ _ _ h
          exact extends_trans
            (extends_trans ⟨_, rfl⟩ (splice_start_timer_extends args _)) hrest
        | failed error tc c =>
          rw [hout] at h
          simp only at h
          cases hf : splice_timer_fired (splice_timer_cancel args) tc c with
          | none =>
            rw [hf] at h
            simp only [Option.some.injEq] at h
            subst h
            exact ⟨_, rfl⟩
          | some fired =>
            rw [hf] at h
            cases fired with
            | false =>
              simp only [Option.some.injEq] at h
              subst h
              exact ⟨_, rfl⟩
            | true =>
              simp only at h
              have hrest := ih _ _ _ h
              exact extends_trans
                (extends_trans (extends_trans ⟨_, rfl⟩ ⟨_, rfl⟩)
                  (splice_start_timer_extends args _)) hrest
    · simp only [hn, not_false_eq_true, if_true, Option.some.injEq] at h
      subst h
      exact ⟨[], by simp [SpliceRun.state]⟩

theorem splice_loop_reads_first (args : SpliceArgs) (fuel : Nat) (st : SpliceState)
    (r : SpliceRun SpliceState) (h : splice_loop args fuel st = some r) :
    ∃ rest, r.state.trace = st.trace ++ SpliceEvent.read st.current :: rest := by
  have hcons : ∀ (a : List SpliceEvent) (e : SpliceEvent) (c : List SpliceEvent),
      (∃ rest, c = (a ++ [e]) ++ rest) → ∃ rest, c = a ++ e :: rest := by
    rintro a e c ⟨rest, hrest⟩
    exact ⟨rest, by rw [hrest]; simp⟩
  have hweak : ∀ (a : List SpliceEvent) (e : SpliceEvent) (c : List SpliceEvent),
      (∃ rest, c = a ++ e :: rest) → ∃ rest, c = a ++ rest := by
    rintro a e c ⟨rest, hrest⟩
    exact ⟨_, hrest⟩
  induction fuel generalizing st with
  | zero => simp [splice_loop] at h
  | succ fuel ih =>
    unfold splice_loop at h
    apply hcons
    cases hin : args.input st.reads with
    | failed error tc c =>
      rw [hin] at h
      simp only at h
      cases hf : splice_timer_fired (splice_timer_cancel args) tc c with
      | none =>
        rw [hf] at h
        simp only [Option.some.injEq] at h
        subst h
        exact ⟨[], by simp [SpliceRun.state]⟩
      | some fired =>
        rw [hf] at h
        cases fired with
        | false =>
          simp only [Option.some.injEq] at h
          subst h
          exact ⟨[], by simp [SpliceRun.state]⟩
        | true =>
          simp only at h
          exact extends_trans ⟨_, rfl⟩ (hweak _ _ _ (ih _ h))
    | data bytes =>
      rw [hin] at h
      simp only at h
      by_cases he : bytes.isEmpty = true
      · simp only [he, if_true, Option.some.injEq] at h
        subst h
        exact ⟨[], by simp [SpliceRun.state]⟩
      · simp only [he, Bool.false_eq_true, if_false] at h
        cases hw : splice_write_loop args bytes fuel 0 (bytes.length : Int)
            { st with reads := st.reads + 1,
                      trace := st.trace ++ [SpliceEvent.read st.current] } with
        | none =>
          rw [hw] at h
          cases h
        | some r1 =>
          rw [hw] at h
          have h1 := splice_write_loop_extends args bytes fuel 0 _ _ r1 hw
          cases r1 with
          | undefined st1 =>
            simp only [Option.some.injEq] at h
            subst h
            exact h1
          | ok st1 =>
            simp only at h
            exact extends_trans h1 (hweak _ _ _ (ih _ h))

theorem splice_write_failure_leaves_loop (args : SpliceArgs) (buffer : List Nat) (fuel : Nat)
    (p n_read : Int) (st : SpliceState) (error : GError) (timer_cancelled cancelled : Bool)
    (hn : n_read > 0) (hp : 0 ≤ p)
    (hwrite : args.output st.writes = SpliceWrite.failed error timer_cancelled cancelled)
    (hfired : splice_timer_fired (splice_timer_cancel args) timer_cancelled cancelled =
      some false) :
    splice_write_loop args buffer (fuel + 1) p n_read st =
      some (SpliceRun.ok
        { st with
          writes := st.writes + 1
          error := g_set_error_literal st.error error.code error.message
          bytes_copied := -1
          trace := st.trace ++
            [SpliceEvent.write ((buffer.drop p.toNat).take n_read.toNat) st.current] }) := by
  unfold splice_write_loop
  have hp1 : ¬ p < 0 := by omega
  simp only [hn, not_true_eq_false, if_false, hp1, hwrite, hfired]

theorem splice_reads_after_write_failure (args : SpliceArgs) (fuel : Nat) (st : SpliceState)
    (bytes : List Nat) (error : GError) (timer_cancelled cancelled : Bool)
    (hread : args.input st.reads = SpliceRead.data bytes) (hne : bytes ≠ [])
    (hwrite : args.output st.writes = SpliceWrite.failed error timer_cancelled cancelled)
    (hfired : splice_timer_fired (splice_timer_cancel args) timer_cancelled cancelled =
      some false)
    (r : SpliceRun SpliceState) (hrun : splice_loop args (fuel + 2) st = some r) :
    ∃ rest, r.state.trace =
      st.trace ++ [SpliceEvent.read st.current, SpliceEvent.write bytes st.current,
        SpliceEvent.read st.current] ++ rest := by
  have hempty : bytes.isEmpty = false := by
    cases bytes with
    | nil => exact absurd rfl hne
    | cons b bs => rfl
  have hpos : (bytes.length : Int) > 0 := by
    have := List.length_pos.mpr hne
    omega
  have hw := splice_write_failure_leaves_loop args bytes fuel 0 bytes.length
    { st with reads := st.reads + 1, trace := st.trace ++ [SpliceEvent.read st.current] }
    error timer_cancelled cancelled hpos (le_refl 0) hwrite hfired
  unfold splice_loop at hrun
  simp only [hread, hempty, Bool.false_eq_true, if_false] at hrun
  rw [hw] at hrun
  simp only at hrun
  obtain ⟨rest, hrest⟩ := splice_loop_reads_first args _ _ r hrun
  refine ⟨rest, ?_⟩
  rw [hrest]
  simp

theorem splice_without_callback_stale (args : SpliceArgs) (k fuel : Nat)
    (hcallback : args.progress_callback = false) (hstack : args.stack ≠ none)
    (hreads : ∀ i < k, ∃ bytes, args.input i = SpliceRead.data bytes ∧ bytes ≠ [])
    (hend : args.input k = SpliceRead.data [])
    (hwrites : ∀ j, ∃ count, args.output j = SpliceWrite.accepted count ∧ 0 < count)
    (hfuel : k + (splice_input_bytes args.input 0 k).length < fuel) :
    ∃ st, ftp_output_stream_splice args fuel = some (SpliceRun.undefined st) ∧
      st.written = splice_input_bytes args.input 0 k ∧
      st.bytes_copied = (splice_input_bytes args.input 0 k).length := by
  obtain ⟨st1, h1, h2, h3, _, _, _⟩ := splice_loop_all args hwrites k fuel
    { reads := 0, writes := 0, error := none, bytes_copied := 0,
      current := SpliceCurrent.cancellable, written := [], trace := [] }
    (by simpa using hreads) (by simpa using hend) hfuel
  have htc : splice_timer_cancel args = TimerCancel.stale := by
    unfold splice_timer_cancel
    cases hs : args.stack with
    | none => exact absurd hs hstack
    | some v => simp [hcallback]
  unfold ftp_output_stream_splice
  simp only [hcallback, Bool.false_eq_true, if_false, h1, htc]
  exact ⟨_, rfl, by simpa using h2, by simpa using h3⟩

/-- C29. Every read and write succeeds, the input gives three bytes, two
bytes and then none, and the output takes two bytes at a time. With a
progress callback the five bytes are written in order, 5 is returned and 5 is
the last progress reported; without a callback and with a NULL in the
variable `timer_cancel` 5 is returned as well. Without a callback and with
anything else in that variable, which is never assigned then, the five bytes
are written and the function goes on to `g_cancellable_disconnect` and
`g_object_unref` on that value instead of returning. -/
theorem splice_stale_timer_cancel :
    ((ftp_output_stream_splice (splice_short_writes true none) 10).bind
        SpliceRun.returned).map (fun v => (v.1, v.2.written, v.2.trace.getLast?)) =
      some (5, [1, 2, 3, 4, 5], some (SpliceEvent.progress 5)) ∧
    ((ftp_output_stream_splice (splice_short_writes false none) 10).bind
        SpliceRun.returned).map (fun v => (v.1, v.2.written)) =
      some (5, [1, 2, 3, 4, 5]) ∧
    ftp_output_stream_splice (splice_short_writes false (some 1)) 10 =
      some (SpliceRun.undefined
        { reads := 3, writes := 3, error := none, bytes_copied := 5,
          current := SpliceCurrent.cancellable, written := [1, 2, 3, 4, 5],
          trace :=
            [SpliceEvent.read SpliceCurrent.cancellable,
              SpliceEvent.write [1, 2, 3] SpliceCurrent.cancellable,
              SpliceEvent.write [3] SpliceCurrent.cancellable,
              SpliceEvent.read SpliceCurrent.cancellable,
              SpliceEvent.write [4, 5] SpliceCurrent.cancellable,
              SpliceEvent.read SpliceCurrent.cancellable] }) := by
  decide

/-- C30. The input gives two bytes, three bytes and then none; the first
write fails with an I/O error, no cancellable being cancelled, and the later
writes succeed. The function does not stop at the failure: it reads again,
writes the three bytes, reads once more and returns 2, not -1, with the error
of the failed write still set; with a progress callback it also reports 2 as
the progress. -/
theorem splice_goes_on_after_write_error :
    ftp_output_stream_splice (splice_write_error false) 10 =
      some (SpliceRun.ok (2,
        { reads := 3, writes := 2,
          error := some ⟨GIOErrorEnum.FAILED, "No space left on device"⟩,
          bytes_copied := 2, current := SpliceCurrent.cancellable, written := [3, 4, 5],
          trace :=
            [SpliceEvent.read SpliceCurrent.cancellable,
              SpliceEvent.write [1, 2] SpliceCurrent.cancellable,
              SpliceEvent.read SpliceCurrent.cancellable,
              SpliceEvent.write [3, 4, 5] SpliceCurrent.cancellable,
              SpliceEvent.read SpliceCurrent.cancellable] })) ∧
    ((ftp_output_stream_splice (splice_write_error true) 10).bind
        SpliceRun.returned).map (fun v => (v.1, v.2.written, v.2.error, v.2.trace)) =
      some (2, [3, 4, 5], some ⟨GIOErrorEnum.FAILED, "No space left on device"⟩,
        [SpliceEvent.connect,
          SpliceEvent.read SpliceCurrent.cancellable,
          SpliceEvent.write [1, 2] SpliceCurrent.cancellable,
          SpliceEvent.read SpliceCurrent.cancellable,
          SpliceEvent.write [3, 4, 5] SpliceCurrent.cancellable,
          SpliceEvent.timeout_add,
          SpliceEvent.read SpliceCurrent.timer_cancel,
          SpliceEvent.disconnect,
          SpliceEvent.progress 2]) := by
  decide

theorem splice_copies_all_short_writes :
    ∃ st, ftp_output_stream_splice (splice_short_writes true none) 10 =
        some (SpliceRun.ok (5, st)) ∧
      st.written = [1, 2, 3, 4, 5] ∧
      st.trace.getLast? = some (SpliceEvent.progress 5) := by
  obtain ⟨st, h1, h2, _, _, h5, _⟩ := splice_copies_all (splice_short_writes true none) 2 10
    (Or.inl rfl)
    (by
      intro i hi
      rcases Nat.lt_succ_iff_lt_or_eq.mp hi with h | h
      · have h0 : i = 0 := by omega
        subst h0
        exact ⟨[1, 2, 3], rfl, by decide⟩
      · subst h
        exact ⟨[4, 5], rfl, by decide⟩)
    rfl
    (fun j => ⟨2, by simp [splice_short_writes, scripted], by decide⟩)
    (by decide)
  exact ⟨st, h1, h2, (h5 rfl).1⟩

end GVfs
